import Mathlib

/-!
# StudySphere dashboard client (`static/app.js`)

A shallow embedding of the browser-side client and proofs about its
formatting utilities, subject-label resolution, course-code synthesis, form
validation, the outcome of the save and delete handlers, the subject cache,
the counters and the order of the reminders.

Conventions of the embedding

* A JavaScript `Date` is its time value: an integer number of milliseconds
  since the epoch, or `none` for an invalid date (`NaN`).
* `Math.floor(x / d)` and `Math.ceil(x / d)` are taken on exact quotients of
  integers.  `Math.ceil` yields `-0` on a quotient in `(-1, 0)`; since
  `-0 < 0` is false and `-0 === 0` is true, the integer `0` behaves the same
  in every comparison the client makes.
* Library functions whose behaviour is fixed by the browser and not by this
  repository (`Date` parsing, locale formatting, `toUpperCase`) are fields of
  a `Host` record, so every theorem holds for every browser.
* Text is a `String`, a sequence of Unicode characters.  The one place where
  the client cuts a string between the two code units of a character, `w[0]`
  in the course code, is also embedded on UTF-16 code units (`utf16`,
  `courseCodeUnits`); the text-level `courseCode` agrees with it on every name
  whose words begin in the Basic Multilingual Plane (`bmpInitials`).
-/

set_option autoImplicit false

namespace StudySphere

/-! ## Host environment -/

/-- The options object passed to `toLocaleDateString` / `toLocaleTimeString`. -/
structure DateTimeFormatOptions where
  year : Option String := none
  month : Option String := none
  day : Option String := none
  hour : Option String := none
  minute : Option String := none
  deriving DecidableEq, Repr

/-- Browser-provided functions used by `app.js`. -/
structure Host where
  /-- Time value of `new Date(s)` for a string `s`; `none` is an invalid date. -/
  parseDate : String → Option Int
  /-- The method `toLocaleDateString('en-US', options)` of a date. -/
  toLocaleDateString : Option Int → DateTimeFormatOptions → String
  /-- The method `toLocaleTimeString('en-US', options)` of a date. -/
  toLocaleTimeString : Option Int → DateTimeFormatOptions → String
  /-- The method `String.prototype.toUpperCase`. -/
  toUpperCase : String → String
  /-- Text of the interpolation of `Object.prototype[k]`, for the property
  names `k` that every plain object inherits (`constructor`, `toString`, ...);
  `none` for every other name. -/
  inheritedText : String → Option String
  /-- Time value of `new Date(d.getFullYear(), d.getMonth(), d.getDate() + 1)`
  for the date `d` with the given time value: the next local midnight. -/
  nextLocalMidnight : Int → Int

/-- A date-valued property of a record as the client receives it: JSON `null`,
a missing property (`undefined`), or a string. -/
inductive DateField where
  | null
  | undefined
  | str (s : String)
  deriving DecidableEq, Repr

/-- JavaScript truthiness of a date field: `!dateString` is true for `null`,
`undefined` and the empty string. -/
def DateField.falsy : DateField → Bool
  | .null => true
  | .undefined => true
  | .str s => s == ""

/-- Time value of `new Date(x)`: `new Date(null)` is the epoch, `new Date(undefined)`
is invalid, a string is parsed by the host. -/
def newDate (h : Host) : DateField → Option Int
  | .null => some 0
  | .undefined => none
  | .str s => h.parseDate s

/-- Decimal text of an integer-valued number, as produced by template
interpolation. -/
def decimal (n : Int) : String := toString n

/-- `Math.ceil(x / d)` for an integer `x` and a positive integer `d`. -/
def mathCeilDiv (x d : Int) : Int := -((-x) / d)

/-- `Math.floor(x / d)` for an integer `x` and a positive integer `d`. -/
def mathFloorDiv (x d : Int) : Int := x / d

/-! ## Utility functions (lines 9-57) -/

/-- `formatDate`, lines 9-19. -/
def formatDate (h : Host) (dateString : DateField) : String :=
  if dateString.falsy then ""
  else
    let date := newDate h dateString
    h.toLocaleDateString date
      { year := some "numeric", month := some "2-digit", day := some "2-digit",
        hour := some "2-digit", minute := some "2-digit" }

/-- `formatDateShort`, lines 21-29. -/
def formatDateShort (h : Host) (dateString : DateField) : String :=
  if dateString.falsy then ""
  else
    let date := newDate h dateString
    h.toLocaleDateString date
      { month := some "2-digit", day := some "2-digit", year := some "numeric" }

/-- `getDaysUntil`, lines 31-42.  `now` is the time value of `new Date()`.
With an invalid date every comparison on `NaN` is false and the template
yields `NaN days left`. -/
def getDaysUntil (h : Host) (now : Int) (dateString : DateField) : String :=
  if dateString.falsy then ""
  else
    match newDate h dateString with
    | none => "NaN days left"
    | some date =>
      let today := now
      let diffTime := date - today
      let diffDays := mathCeilDiv diffTime (1000 * 60 * 60 * 24)
      if diffDays < 0 then "Overdue"
      else if diffDays = 0 then "Today"
      else if diffDays = 1 then "Tomorrow"
      else decimal diffDays ++ " days left"

/-- `getTimeAgo`, lines 44-57.  With an invalid date every comparison on
`NaN` is false and the last template yields `NaN days ago`. -/
def getTimeAgo (h : Host) (now : Int) (dateString : DateField) : String :=
  if dateString.falsy then ""
  else
    match newDate h dateString with
    | none => "NaN days ago"
    | some date =>
      let diffMs := now - date
      let diffMins := mathFloorDiv diffMs 60000
      let diffHours := mathFloorDiv diffMs 3600000
      let diffDays := mathFloorDiv diffMs 86400000
      if diffMins < 60 then decimal diffMins ++ " minutes ago"
      else if diffHours < 24 then decimal diffHours ++ " hours ago"
      else if diffDays = 1 then "Yesterday"
      else decimal diffDays ++ " days ago"

/-! ## Strings and plain objects -/

/-- Pieces of a character list between occurrences of `sep`; the list of pieces
is never empty and an empty piece stands between two adjacent separators. -/
def splitChars (sep : Char) : List Char → List (List Char)
  | [] => [[]]
  | c :: cs =>
    if c = sep then [] :: splitChars sep cs
    else
      match splitChars sep cs with
      | [] => [[c]]
      | w :: ws => (c :: w) :: ws

/-- The call `s.split(sep)` for a one-character separator. -/
def jsSplit (s : String) (sep : Char) : List String :=
  (splitChars sep s.data).map String.mk

/-- The expression `w[0]` on a word that begins with a character of the Basic
Multilingual Plane: that character, and `undefined` for the empty string.  For
a word that begins with any other character the expression yields the high
surrogate of that character alone, a code unit that is not a character: see
`firstUnit`, which covers every word. -/
def firstChar (w : String) : Option Char := w.data.head?

/-- The call `xs.join('')` on an array of characters and `undefined`s:
`undefined` contributes the empty string. -/
def jsJoin (xs : List (Option Char)) : String :=
  String.mk (xs.foldr (fun x acc => match x with
    | some c => c :: acc
    | none => acc) [])

/-- Does `hay` start with `needle`? -/
def startsWithChars : List Char → List Char → Bool
  | [], _ => true
  | _ :: _, [] => false
  | n :: ns, c :: cs => n == c && startsWithChars ns cs

/-- Does `needle` occur in `hay`? -/
def includesChars (needle : List Char) : List Char → Bool
  | [] => needle.isEmpty
  | c :: cs => startsWithChars needle (c :: cs) || includesChars needle cs

/-- The call `s.includes(needle)`. -/
def jsIncludes (s needle : String) : Bool := includesChars needle.data s.data

/-- White space and line terminators of ECMAScript, as stripped by `trim` and
skipped by `parseInt`. -/
def isJsWhitespace (c : Char) : Bool :=
  let n := c.toNat
  n == 0x09 || n == 0x0A || n == 0x0B || n == 0x0C || n == 0x0D || n == 0x20 || n == 0xA0 ||
  n == 0x1680 || (0x2000 ≤ n && n ≤ 0x200A) || n == 0x2028 || n == 0x2029 || n == 0x202F ||
  n == 0x205F || n == 0x3000 || n == 0xFEFF

/-- The call `s.trim()`. -/
def jsTrim (s : String) : String :=
  String.mk ((s.data.dropWhile isJsWhitespace).reverse.dropWhile isJsWhitespace).reverse

/-- Value of a character as a digit in the given radix, if it is one. -/
def digitValue (radix : Nat) (c : Char) : Option Nat :=
  let n := c.toNat
  let v : Option Nat :=
    if 48 ≤ n ∧ n ≤ 57 then some (n - 48)
    else if 97 ≤ n ∧ n ≤ 122 then some (n - 87)
    else if 65 ≤ n ∧ n ≤ 90 then some (n - 55)
    else none
  v.filter (fun d => d < radix)

/-- The longest run of digits at the start of a character list. -/
def takeDigits (radix : Nat) : List Char → List Nat
  | [] => []
  | c :: cs =>
    match digitValue radix c with
    | some d => d :: takeDigits radix cs
    | none => []

/-- The call `parseInt(s)` without a radix: leading white space and a sign are
skipped, a `0x` marker selects radix 16, the longest run of digits is read;
`none` is `NaN`. -/
def jsParseInt (s : String) : Option Int :=
  let body := s.data.dropWhile isJsWhitespace
  let signed : Int × List Char :=
    match body with
    | '-' :: r => (-1, r)
    | '+' :: r => (1, r)
    | r => (1, r)
  let based : Nat × List Char :=
    match signed.2 with
    | '0' :: 'x' :: r => (16, r)
    | '0' :: 'X' :: r => (16, r)
    | r => (10, r)
  match takeDigits based.1 based.2 with
  | [] => none
  | d :: ds => some (signed.1 * ((d :: ds).foldl (fun acc x => acc * based.1 + x) 0 : Nat))

/-- Under a comparator, `a` need not move behind `b`: the comparator does not
return a positive number (`none` is `NaN`). -/
def notAfter {α : Type} (cmp : α → α → Option Int) (a b : α) : Prop :=
  match cmp a b with
  | some d => d ≤ 0
  | none => True

instance notAfterDecidable {α : Type} (cmp : α → α → Option Int) : DecidableRel (notAfter cmp) :=
  fun a b =>
    match hc : cmp a b with
    | some d => decidable_of_iff (d ≤ 0) (by simp [notAfter, hc])
    | none => isTrue (by simp [notAfter, hc])

/-- The call `xs.sort(cmp)`: a stable sort.  When the comparator returns `NaN`
for some pair it is inconsistent and ECMAScript leaves the order to the
implementation; this is one such order. -/
def jsSort {α : Type} (cmp : α → α → Option Int) (xs : List α) : List α :=
  xs.insertionSort (notAfter cmp)

/-- Text of a number that may be `NaN` in a template. -/
def numberText (n : Option Int) : String :=
  match n with
  | some k => decimal k
  | none => "NaN"

/-- The expression `x || fallback` for an optional string property: `null`,
a missing property and the empty string are falsy. -/
def orElse (x : Option String) (fallback : String) : String :=
  match x with
  | some v => if v = "" then fallback else v
  | none => fallback

/-- Truthiness of an optional string property. -/
def truthy (x : Option String) : Bool :=
  match x with
  | some v => v != ""
  | none => false

/-! ## Data model (records as decoded from the server) -/

/-- Subject record. -/
structure Subject where
  id : Int
  name : String
  teacher : String
  deriving DecidableEq, Repr

/-- Announcement record. -/
structure Announcement where
  id : Int
  subject_id : Int
  title : String
  content : String
  date_posted : DateField
  deriving DecidableEq, Repr

/-- Material record; `description` and `file_url` may be `null` or missing. -/
structure Material where
  id : Int
  subject_id : Int
  title : String
  description : Option String
  file_url : Option String
  date_uploaded : DateField
  deriving DecidableEq, Repr

/-- Assignment record; `instructions` may be `null` or missing. -/
structure Assignment where
  id : Int
  subject_id : Int
  title : String
  instructions : Option String
  due_date : DateField
  deriving DecidableEq, Repr

/-- Reminder record. -/
structure Reminder where
  id : Int
  subject_id : Int
  message : String
  remind_at : DateField
  deriving DecidableEq, Repr

/-- Comment record. -/
structure Comment where
  id : Int
  user : String
  content : String
  date_posted : DateField
  deriving DecidableEq, Repr

/-- Item of the aggregate feeds. -/
structure FeedItem where
  type : String
  title : String
  date_posted : DateField
  due_date : DateField
  deriving DecidableEq, Repr

/-- What `await response.json()` resolves to, as far as the client can tell
it apart: an array of records, a single record, or some other JSON object, of
which only the `error` property is ever read. -/
inductive JsonValue (α : Type) where
  | array (items : List α)
  | record (value : α)
  | object (error : Option String)
  deriving DecidableEq, Repr

/-- What awaiting `fetch(...)` and then `response.json()` gives. -/
inductive FetchOutcome (α : Type) where
  /-- The request never completed: `fetch` rejects. -/
  | rejected
  /-- A response arrived; `ok` is `response.ok` (a 2xx status) and `body` is
  the decoded JSON, `none` when the body is not JSON and `response.json()` rejects. -/
  | response (ok : Bool) (body : Option (JsonValue α))
  deriving DecidableEq, Repr

/-- The property `length`: the number of items of an array, `undefined` on an
object without that property. -/
def JsonValue.length {α : Type} : JsonValue α → Option Nat
  | .array items => some items.length
  | .record _ => none
  | .object _ => none

/-- Exceptions thrown by the JavaScript runtime. -/
inductive JsError where
  /-- Calling a method that the value does not have, such as `forEach` or `map` on a
  non-array object. -/
  | typeError (what : String)
  deriving DecidableEq, Repr

/-- The elements of an array value, for `forEach` and `map`; both throw a
`TypeError` on an object that is not an array. -/
def JsonValue.elements {α : Type} (method : String) : JsonValue α → Except JsError (List α)
  | .array items => .ok items
  | .record _ => .error (.typeError (method ++ " is not a function"))
  | .object _ => .error (.typeError (method ++ " is not a function"))

/-! ## Document -/

/-- The elements of the page that the client addresses by id, each with its
content (`innerHTML` or `textContent`); an id that is not listed has no
element on the current page. -/
abbrev Dom := List (String × String)

/-- The call `document.getElementById(id)`: the content of the element, if present. -/
def Dom.getElementById (dom : Dom) (id : String) : Option String :=
  (dom.find? (fun e => e.1 == id)).map (fun e => e.2)

/-- Assigning the content of the element `id`; a page without that element is
left as it is. -/
def Dom.assign (dom : Dom) (id : String) (content : String) : Dom :=
  dom.map (fun e => if e.1 == id then (e.1, content) else e)

/-! ## Subject labels and course codes -/

/-- The object `subjectMap`: the name stored under each subject id. -/
abbrev SubjectMap := Int → Option String

/-- The loop `subjects.forEach(s => subjectMap[s.id] = s.name)` on an empty
object (lines 278-279, 500-501, 668-669, 857-858): a later subject with the
same id overwrites an earlier one. -/
def buildSubjectMap (subjects : List Subject) : SubjectMap :=
  subjects.foldl (fun subjectMap s => fun k => if k = s.id then some s.name else subjectMap k)
    (fun _ => none)

/-- The expression ``subjectMap[x.subject_id] || `Subject ${x.subject_id}` ``
(lines 282, 504, 672, 864). -/
def subjectName (subjectMap : SubjectMap) (subject_id : Int) : String :=
  orElse (subjectMap subject_id) ("Subject " ++ decimal subject_id)

/-- The expression
`name.split(' ').map(w => w[0]).join('').toUpperCase() + '-' + (100 + id)`
(lines 114, 283, 317, 505, 559, 673, 743, 865, 926). -/
def courseCode (h : Host) (name : String) (id : Int) : String :=
  h.toUpperCase (jsJoin ((jsSplit name ' ').map firstChar)) ++ "-" ++ decimal (100 + id)

/-- Course code in the words of the specification: the upper-cased
concatenation of the first character of each non-empty space-separated word
of the name, followed by "-" and the decimal of `100 + id`. -/
def courseCodeSpec (h : Host) (name : String) (id : Int) : String :=
  h.toUpperCase
      (String.mk (((List.splitOn ' ' name.data).filter (fun w => !w.isEmpty)).filterMap List.head?))
    ++ "-" ++ decimal (100 + id)

/-- The option elements of a subject drop-down (lines 316-319, 558-561,
742-745, 925-928). -/
def subjectOptions (h : Host) (subjects : List Subject) : String :=
  String.join (subjects.map (fun s =>
    let courseCode := courseCode h s.name s.id
    "<option value=\"" ++ decimal s.id ++ "\">" ++ courseCode ++ " - " ++ s.name ++ "</option>"))

/-! ## Announcements (lines 268-308) -/

/-- Empty state of the announcements container (line 273). -/
def announcementsEmptyState : String :=
  "<div class=\"empty-state\"><i class=\"fas fa-bell\"></i><p>No announcements yet. Create your first announcement!</p></div>"

/-- The markup of one announcement (lines 281-306). -/
def announcementCard (h : Host) (subjectMap : SubjectMap) (announcement : Announcement) : String :=
  let subjectName := subjectName subjectMap announcement.subject_id
  let courseCode := courseCode h subjectName announcement.subject_id
  let isPinned : Bool := Int.tmod announcement.id 3 == 0
  "\n" ++
    "            <div class=\"announcement-card " ++ (if isPinned then "pinned" else "") ++ "\">\n" ++
    "                <div class=\"announcement-header\">\n" ++
    "                    <span class=\"subject-code\">" ++ courseCode ++ "</span>\n" ++
    "                    " ++ (if isPinned then "<span class=\"pinned-badge\"><i class=\"fas fa-thumbtack\"></i> Pinned</span>" else "") ++ "\n" ++
    "                </div>\n" ++
    "                <h3>" ++ announcement.title ++ "</h3>\n" ++
    "                <p>" ++ announcement.content ++ "</p>\n" ++
    "                <div class=\"announcement-meta\">\n" ++
    "                    Posted by Prof. Martinez • " ++ formatDate h announcement.date_posted ++ "\n" ++
    "                </div>\n" ++
    "                <div class=\"announcement-actions\">\n" ++
    "                    <button class=\"btn-secondary\" onclick=\"openCommentsModal(" ++ decimal announcement.id ++ ")\">\n" ++
    "                        <i class=\"fas fa-comments\"></i> Comments\n" ++
    "                    </button>\n" ++
    "                    <button class=\"btn-danger\" onclick=\"deleteAnnouncement(" ++ decimal announcement.id ++ ")\">\n" ++
    "                        <i class=\"fas fa-trash\"></i> Delete\n" ++
    "                    </button>\n" ++
    "                </div>\n" ++
    "            </div>\n" ++
    "        "

/-- `renderAnnouncements`, lines 268-308.  `subjects` is the global subject
cache.  The result is the document after the call, or the exception thrown. -/
def renderAnnouncements (h : Host) (subjects : JsonValue Subject)
    (announcements : JsonValue Announcement) (dom : Dom) : Except JsError Dom :=
  match dom.getElementById "announcements-container" with
  | none => .ok dom
  | some _ =>
    if announcements.length = some 0 then
      .ok (dom.assign "announcements-container" announcementsEmptyState)
    else do
      let cached ← subjects.elements "subjects.forEach"
      let subjectMap := buildSubjectMap cached
      let items ← announcements.elements "announcements.map"
      .ok (dom.assign "announcements-container"
        (String.join (items.map (announcementCard h subjectMap))))

/-! ## Materials (lines 491-534) -/

/-- Empty state of the materials container (line 496). -/
def materialsEmptyState : String :=
  "<div class=\"empty-state\"><i class=\"fas fa-file-alt\"></i><p>No materials yet. Upload your first material!</p></div>"

/-- The markup of one material (lines 503-532). -/
def materialCard (h : Host) (subjectMap : SubjectMap) (material : Material) : String :=
  let subjectName := subjectName subjectMap material.subject_id
  let courseCode := courseCode h subjectName material.subject_id
  let fileType :=
    if truthy material.file_url then
      (if jsIncludes (material.file_url.getD "") ".pdf" then "PDF" else "Video")
    else "PDF"
  let fileSize :=
    if truthy material.file_url then (if fileType = "PDF" then "2.4 MB" else "128 MB") else "N/A"
  "\n" ++
    "            <div class=\"material-card\">\n" ++
    "                <div class=\"material-icon\">\n" ++
    "                    <i class=\"fas " ++ (if fileType = "PDF" then "fa-file-pdf" else "fa-video") ++ "\"></i>\n" ++
    "                </div>\n" ++
    "                <div class=\"material-content\">\n" ++
    "                    <div class=\"material-tags\">\n" ++
    "                        <span class=\"material-tag\">" ++ fileType ++ "</span>\n" ++
    "                        <span class=\"material-tag\">" ++ courseCode ++ "</span>\n" ++
    "                    </div>\n" ++
    "                    <h3>" ++ material.title ++ "</h3>\n" ++
    "                    <p>" ++ orElse material.description "No description" ++ "</p>\n" ++
    "                    <div class=\"material-meta\">\n" ++
    "                        Prof. Martinez • " ++ formatDateShort h material.date_uploaded ++ " • " ++ fileSize ++ "\n" ++
    "                    </div>\n" ++
    "                </div>\n" ++
    "                <div class=\"material-actions\">\n" ++
    "                    " ++ (if truthy material.file_url then
        "<button class=\"btn-secondary\" onclick=\"window.open(\x27" ++ material.file_url.getD "" ++ "\x27, \x27_blank\x27)\"><i class=\"fas fa-download\"></i> Download</button>"
      else "") ++ "\n" ++
    "                    <button class=\"btn-danger\" onclick=\"deleteMaterial(" ++ decimal material.id ++ ")\">\n" ++
    "                        <i class=\"fas fa-trash\"></i>\n" ++
    "                    </button>\n" ++
    "                </div>\n" ++
    "            </div>\n" ++
    "        "

/-- `renderMaterials`, lines 491-534. -/
def renderMaterials (h : Host) (subjects : JsonValue Subject)
    (materials : JsonValue Material) (dom : Dom) : Except JsError Dom :=
  match dom.getElementById "materials-container" with
  | none => .ok dom
  | some _ =>
    if materials.length = some 0 then
      .ok (dom.assign "materials-container" materialsEmptyState)
    else do
      let cached ← subjects.elements "subjects.forEach"
      let subjectMap := buildSubjectMap cached
      let items ← materials.elements "materials.map"
      .ok (dom.assign "materials-container"
        (String.join (items.map (materialCard h subjectMap))))

/-! ## Assignments (lines 659-704) -/

/-- Empty state of the assignments container (line 664). -/
def assignmentsEmptyState : String :=
  "<div class=\"empty-state\"><i class=\"fas fa-clipboard-list\"></i><p>No assignments yet. Create your first assignment!</p></div>"

/-- The comparison `parseInt(daysLeft) <= bound`; it is false on `NaN`. -/
def parsedAtMost (daysLeft : String) (bound : Int) : Bool :=
  match jsParseInt daysLeft with
  | some n => decide (n ≤ bound)
  | none => false

/-- The constant `priority` of an assignment card (lines 675-677). -/
def assignmentPriority (h : Host) (now : Int) (assignment : Assignment) : String :=
  let daysLeft := getDaysUntil h now assignment.due_date
  let isUrgent := jsIncludes daysLeft "days" && parsedAtMost daysLeft 3
  if isUrgent then "urgent"
  else if jsIncludes daysLeft "days" && parsedAtMost daysLeft 7 then "high"
  else "medium"

/-- The markup of one assignment (lines 671-702). -/
def assignmentCard (h : Host) (now : Int) (subjectMap : SubjectMap) (assignment : Assignment) :
    String :=
  let subjectName := subjectName subjectMap assignment.subject_id
  let courseCode := courseCode h subjectName assignment.subject_id
  let daysLeft := getDaysUntil h now assignment.due_date
  let priority := assignmentPriority h now assignment
  "\n" ++
    "            <div class=\"assignment-card\">\n" ++
    "                <div class=\"assignment-content\">\n" ++
    "                    <div class=\"assignment-header\">\n" ++
    "                        <span class=\"subject-code\">" ++ courseCode ++ "</span>\n" ++
    "                        <span class=\"priority-badge " ++ priority ++ "\">" ++ h.toUpperCase priority ++ "</span>\n" ++
    "                    </div>\n" ++
    "                    <h3>" ++ assignment.title ++ "</h3>\n" ++
    "                    <p>" ++ orElse assignment.instructions "No instructions provided" ++ "</p>\n" ++
    "                    <div class=\"assignment-details\">\n" ++
    "                        <span><strong>Due Date:</strong> " ++ formatDateShort h assignment.due_date ++ "</span>\n" ++
    "                        <span class=\"deadline-time\">" ++ daysLeft ++ "</span>\n" ++
    "                    </div>\n" ++
    "                </div>\n" ++
    "                <div class=\"assignment-actions\">\n" ++
    "                    <button class=\"btn-secondary\" onclick=\"editAssignment(" ++ decimal assignment.id ++ ")\">\n" ++
    "                        <i class=\"fas fa-edit\"></i> Edit\n" ++
    "                    </button>\n" ++
    "                    <button class=\"btn-danger\" onclick=\"deleteAssignment(" ++ decimal assignment.id ++ ")\">\n" ++
    "                        <i class=\"fas fa-trash\"></i> Delete\n" ++
    "                    </button>\n" ++
    "                </div>\n" ++
    "            </div>\n" ++
    "        "

/-- `renderAssignments`, lines 659-704; `now` is the current instant. -/
def renderAssignments (h : Host) (now : Int) (subjects : JsonValue Subject)
    (assignments : JsonValue Assignment) (dom : Dom) : Except JsError Dom :=
  match dom.getElementById "assignments-container" with
  | none => .ok dom
  | some _ =>
    if assignments.length = some 0 then
      .ok (dom.assign "assignments-container" assignmentsEmptyState)
    else do
      let cached ← subjects.elements "subjects.forEach"
      let subjectMap := buildSubjectMap cached
      let items ← assignments.elements "assignments.map"
      .ok (dom.assign "assignments-container"
        (String.join (items.map (assignmentCard h now subjectMap))))

/-! ## Reminders (lines 848-892) -/

/-- Empty state of the reminders container (line 853). -/
def remindersEmptyState : String :=
  "<div class=\"empty-state\"><i class=\"fas fa-calendar-alt\"></i><p>No reminders yet. Create your first reminder!</p></div>"

/-- The comparator `(a, b) => new Date(a.remind_at) - new Date(b.remind_at)`
(line 861); `none` is `NaN`. -/
def compareRemindAt (h : Host) (a b : Reminder) : Option Int :=
  match newDate h a.remind_at, newDate h b.remind_at with
  | some x, some y => some (x - y)
  | _, _ => none

/-- The call `reminders.sort(comparator)` (line 861). -/
def sortReminders (h : Host) (reminders : List Reminder) : List Reminder :=
  jsSort (compareRemindAt h) reminders

/-- The markup of one reminder (lines 863-890). -/
def reminderCard (h : Host) (now : Int) (subjectMap : SubjectMap) (reminder : Reminder) : String :=
  let subjectName := subjectName subjectMap reminder.subject_id
  let courseCode := courseCode h subjectName reminder.subject_id
  let remindDate := newDate h reminder.remind_at
  let daysUntil := getDaysUntil h now reminder.remind_at
  "\n" ++
    "            <div class=\"reminder-card\">\n" ++
    "                <div class=\"reminder-icon\">\n" ++
    "                    <i class=\"fas fa-bell\"></i>\n" ++
    "                </div>\n" ++
    "                <div class=\"reminder-content\">\n" ++
    "                    <div class=\"reminder-header\">\n" ++
    "                        <span class=\"subject-code\">" ++ courseCode ++ "</span>\n" ++
    "                        <span class=\"reminder-status\">UPCOMING</span>\n" ++
    "                    </div>\n" ++
    "                    <h3>" ++ reminder.message ++ "</h3>\n" ++
    "                    <div class=\"reminder-details\">\n" ++
    "                        <span>" ++ formatDateShort h reminder.remind_at ++ "</span>\n" ++
    "                        <span>" ++ h.toLocaleTimeString remindDate { hour := some "2-digit", minute := some "2-digit" } ++ "</span>\n" ++
    "                        <span>" ++ daysUntil ++ "</span>\n" ++
    "                    </div>\n" ++
    "                </div>\n" ++
    "                <button class=\"reminder-delete\" onclick=\"deleteReminder(" ++ decimal reminder.id ++ ")\">\n" ++
    "                    <i class=\"fas fa-trash\"></i>\n" ++
    "                </button>\n" ++
    "            </div>\n" ++
    "        "

/-- `renderReminders`, lines 848-892; `now` is the current instant. -/
def renderReminders (h : Host) (now : Int) (subjects : JsonValue Subject)
    (reminders : JsonValue Reminder) (dom : Dom) : Except JsError Dom :=
  match dom.getElementById "reminders-container" with
  | none => .ok dom
  | some _ =>
    if reminders.length = some 0 then
      .ok (dom.assign "reminders-container" remindersEmptyState)
    else do
      let cached ← subjects.elements "subjects.forEach"
      let subjectMap := buildSubjectMap cached
      let items ← reminders.elements "reminders.sort"
      let sorted := sortReminders h items
      .ok (dom.assign "reminders-container"
        (String.join (sorted.map (reminderCard h now subjectMap))))

/-! ## Subjects (lines 101-154) -/

/-- Empty state of the subjects container (line 106). -/
def subjectsEmptyState : String :=
  "<div class=\"empty-state\"><i class=\"fas fa-book\"></i><p>No subjects yet. Add your first subject!</p></div>"

/-- `getSubjectDescription`, lines 145-154: a lookup in a plain object, which
also finds the properties every object inherits. -/
def getSubjectDescription (h : Host) (name : String) : String :=
  let own : Option String :=
    if name = "Introduction to Computing" then
      some "Fundamentals of computer science and programming"
    else if name = "Data Structures and Algorithms" then
      some "Core data structures and algorithm analysis"
    else if name = "Database Systems" then some "Relational databases, SQL, and database design"
    else if name = "Web Development" then some "Modern web technologies and frameworks"
    else if name = "Software Engineering" then
      some "Software development methodologies and practices"
    else none
  match own with
  | some d => d
  | none =>
    match h.inheritedText name with
    | some text => text
    | none => "Course materials and resources"

/-- The markup of one subject (lines 111-141): `index` is its position in the
cache and `draw` the value of `Math.floor(Math.random() * 20)` for this card. -/
def subjectCard (h : Host) (draw : Fin 20) (index : Nat) (subject : Subject) : String :=
  let colors := ["blue", "purple", "green"]
  let color := colors.getD (index % colors.length) ""
  let courseCode := courseCode h subject.name subject.id
  let students : Int := draw.val + 30
  "\n" ++
    "            <div class=\"subject-card " ++ color ++ "\">\n" ++
    "                <div class=\"subject-card-header\">\n" ++
    "                    <div>\n" ++
    "                        <div class=\"subject-code\">" ++ courseCode ++ "</div>\n" ++
    "                        <h3>" ++ subject.name ++ "</h3>\n" ++
    "                        <p>Professor: " ++ subject.teacher ++ "</p>\n" ++
    "                        <p style=\"margin-top: 0.5rem; color: #999; font-size: 0.85rem;\">" ++ getSubjectDescription h subject.name ++ "</p>\n" ++
    "                    </div>\n" ++
    "                    <div class=\"subject-card-actions\">\n" ++
    "                        <button onclick=\"editSubject(" ++ decimal subject.id ++ ")\" title=\"Edit\">\n" ++
    "                            <i class=\"fas fa-edit\"></i>\n" ++
    "                        </button>\n" ++
    "                        <button onclick=\"deleteSubject(" ++ decimal subject.id ++ ")\" title=\"Delete\">\n" ++
    "                            <i class=\"fas fa-trash\"></i>\n" ++
    "                        </button>\n" ++
    "                    </div>\n" ++
    "                </div>\n" ++
    "                <div class=\"subject-card-footer\">\n" ++
    "                    <span>" ++ decimal students ++ " Students</span>\n" ++
    "                    <button class=\"btn-secondary\" onclick=\"viewSubjectDetails(" ++ decimal subject.id ++ ")\">View Details</button>\n" ++
    "                </div>\n" ++
    "            </div>\n" ++
    "        "

/-- The cards of `subjects.map((subject, index) => ...)`, starting at position `index`. -/
def subjectCards (h : Host) (random : Nat → Fin 20) : Nat → List Subject → List String
  | _, [] => []
  | index, subject :: rest =>
    subjectCard h (random index) index subject :: subjectCards h random (index + 1) rest

/-- `renderSubjects`, lines 101-143, on the global `subjects`; `random k` is
the value of `Math.floor(Math.random() * 20)` drawn for the card at position `k`. -/
def renderSubjects (h : Host) (random : Nat → Fin 20) (subjects : JsonValue Subject)
    (dom : Dom) : Except JsError Dom :=
  match dom.getElementById "subjects-container" with
  | none => .ok dom
  | some _ =>
    if subjects.length = some 0 then
      .ok (dom.assign "subjects-container" subjectsEmptyState)
    else do
      let items ← subjects.elements "subjects.map"
      .ok (dom.assign "subjects-container" (String.join (subjectCards h random 0 items)))

/-! ## Page state, effects and environment -/

/-- What the client does to the outside world, in order. -/
inductive Effect where
  /-- A call of `fetch`; `body` lists the properties of the JSON body, if any. -/
  | fetch (method : String) (url : String) (body : Option (List (String × String)))
  | alert (message : String)
  | consoleError (message : String)
  deriving DecidableEq, Repr

/-- The shared dialog: the elements `modal-overlay` (its `style.display`),
`modal-title` and `modal-body`, which every page of the application has. -/
structure Modal where
  display : String
  title : String
  body : String
  deriving DecidableEq, Repr

/-- The globals of `app.js` (lines 5-6), the document, and the effects so far. -/
structure State where
  subjects : JsonValue Subject
  currentEditingId : Option Int
  modal : Modal
  dom : Dom
  effects : List Effect
  deriving DecidableEq, Repr

/-- Recording an effect. -/
def State.emit (st : State) (e : Effect) : State :=
  { st with effects := st.effects ++ [e] }

/-- The answers of the server during one handler run, by endpoint. -/
structure Network where
  /-- Answer to the POST, PUT or DELETE request of the handler. -/
  mutation : FetchOutcome Unit
  /-- Answer to `GET /subject`. -/
  subject : FetchOutcome Subject
  /-- Answer to `GET /announcement`. -/
  announcement : FetchOutcome Announcement
  /-- Answer to `GET /material`. -/
  material : FetchOutcome Material
  /-- Answer to `GET /assignment`. -/
  assignment : FetchOutcome Assignment
  /-- Answer to `GET /reminder`. -/
  reminder : FetchOutcome Reminder
  /-- Answer to `GET /announcement/{id}`. -/
  announcementById : FetchOutcome Announcement
  /-- Answer to `GET /announcement/{id}/comments`. -/
  comments : FetchOutcome Comment
  /-- Answer to `GET /feed/latest`. -/
  feedLatest : FetchOutcome FeedItem
  /-- Answer to `GET /feed/upcoming-deadlines`. -/
  feedUpcoming : FetchOutcome FeedItem

/-- Everything a handler run depends on besides the page state. -/
structure Env where
  host : Host
  /-- The constant `API_URL`, that is `window.location.origin`. -/
  origin : String
  /-- The value of `window.location.pathname`. -/
  pathname : String
  /-- Time value of `new Date()`. -/
  now : Int
  /-- Value of `Math.floor(Math.random() * 20)` at the `k`-th subject card. -/
  random : Nat → Fin 20
  net : Network

/-- Truthiness of `currentEditingId` and of ids passed to the modal functions:
`null` and `0` are falsy. -/
def idTruthy (id : Option Int) : Bool :=
  match id with
  | some n => n != 0
  | none => false

/-- Text assigned to `textContent` from a `length` property: the decimal of a
number, and nothing for `undefined`. -/
def lengthText (n : Option Nat) : String :=
  match n with
  | some k => decimal k
  | none => ""

/-! ## Modal functions (lines 60-69) -/

/-- `openModal`, lines 60-64. -/
def openModal (title content : String) (st : State) : State :=
  { st with modal := { title := title, body := content, display := "flex" } }

/-- `closeModal`, lines 66-69. -/
def closeModal (st : State) : State :=
  { st with modal := { st.modal with display := "none" }, currentEditingId := none }

/-! ## Subject functions (lines 90-255) -/

/-- `updateSubjectStats`, lines 156-164. -/
def updateSubjectStats (st : State) : State :=
  let text := lengthText st.subjects.length
  let dom := st.dom.assign "total-subjects" text
  let dom := dom.assign "active-classes" text
  let dom := dom.assign "stat-active-subjects" text
  { st with dom := dom }

/-- `loadSubjects`, lines 90-99. -/
def loadSubjects (env : Env) (st : State) : State :=
  let st := st.emit (.fetch "GET" (env.origin ++ "/subject") none)
  match env.net.subject with
  | .rejected => st.emit (.consoleError "Error loading subjects:")
  | .response _ none => st.emit (.consoleError "Error loading subjects:")
  | .response _ (some body) =>
    let st := { st with subjects := body }
    match renderSubjects env.host env.random st.subjects st.dom with
    | .error _ => st.emit (.consoleError "Error loading subjects:")
    | .ok dom => updateSubjectStats { st with dom := dom }

/-- `loadDashboardStats`, lines 1010-1038: four requests issued together, all
bodies decoded, then four counters written. -/
def loadDashboardStats (env : Env) (st : State) : State :=
  let st := st.emit (.fetch "GET" (env.origin ++ "/subject") none)
  let st := st.emit (.fetch "GET" (env.origin ++ "/announcement") none)
  let st := st.emit (.fetch "GET" (env.origin ++ "/material") none)
  let st := st.emit (.fetch "GET" (env.origin ++ "/assignment") none)
  match env.net.subject, env.net.announcement, env.net.material, env.net.assignment with
  | .response _ (some subjectsData), .response _ (some announcementsData),
    .response _ (some materialsData), .response _ (some assignmentsData) =>
    let dom := st.dom.assign "stat-active-subjects" (lengthText subjectsData.length)
    let dom := dom.assign "stat-announcements" (lengthText announcementsData.length)
    let dom := dom.assign "stat-materials" (lengthText materialsData.length)
    let dom := dom.assign "stat-assignments" (lengthText assignmentsData.length)
    { st with dom := dom }
  | _, _, _, _ => st.emit (.consoleError "Error loading dashboard stats:")

/-- The record of the cache found by `subjects.find(s => s.id === subjectId)`. -/
def findSubject (subjects : JsonValue Subject) (subjectId : Int) :
    Except JsError (Option Subject) := do
  let items ← subjects.elements "subjects.find"
  .ok (items.find? (fun s => s.id == subjectId))

/-- The form markup of the subject dialog (lines 170-185). -/
def subjectFormContent (subject : Option Subject) : String :=
  "\n" ++
    "        <form onsubmit=\"saveSubject(event)\">\n" ++
    "            <div class=\"form-group\">\n" ++
    "                <label>Subject Name *</label>\n" ++
    "                <input type=\"text\" id=\"subject-name\" value=\"" ++ (match subject with
      | some s => s.name
      | none => "") ++ "\" required>\n" ++
    "            </div>\n" ++
    "            <div class=\"form-group\">\n" ++
    "                <label>Teacher Name *</label>\n" ++
    "                <input type=\"text\" id=\"subject-teacher\" value=\"" ++ (match subject with
      | some s => s.teacher
      | none => "Prof. Martinez") ++ "\" required>\n" ++
    "            </div>\n" ++
    "            <div class=\"form-actions\">\n" ++
    "                <button type=\"button\" class=\"btn-secondary\" onclick=\"closeModal()\">Cancel</button>\n" ++
    "                <button type=\"submit\" class=\"btn-primary\">" ++ (match subject with
      | some _ => "Update"
      | none => "Create") ++ " Subject</button>\n" ++
    "            </div>\n" ++
    "        </form>\n" ++
    "    "

/-- `openSubjectModal`, lines 166-188; `subjectId` is `none` for `null` and
for a call without argument.  The function has no `try`: an exception leaves
the state as it was when thrown. -/
def openSubjectModal (subjectId : Option Int) (st : State) : Except (JsError × State) State :=
  let st := { st with currentEditingId := subjectId }
  let found : Except JsError (Option Subject) :=
    if idTruthy subjectId then findSubject st.subjects (subjectId.getD 0) else .ok none
  match found with
  | .error e => .error (e, st)
  | .ok subject =>
    let content := subjectFormContent subject
    .ok (openModal (match subject with
      | some _ => "Edit Subject"
      | none => "Add New Subject") content st)

/-- `editSubject`, lines 226-228. -/
def editSubject (id : Int) (st : State) : Except (JsError × State) State :=
  openSubjectModal (some id) st

/-- The message of the alert after a response that is not ok:
`error.error || fallback` on the decoded body. -/
def errorMessage {α : Type} (body : JsonValue α) (fallback : String) : String :=
  match body with
  | .array _ => fallback
  | .record _ => fallback
  | .object error => orElse error fallback

/-- `saveSubject`, lines 190-224, on a form whose fields `subject-name` and
`subject-teacher` hold `nameField` and `teacherField`.  The call of
`loadDashboardStats` is not awaited; its effects are appended here. -/
def saveSubject (env : Env) (nameField teacherField : String) (st : State) : State :=
  let name := jsTrim nameField
  let teacher := jsTrim teacherField
  if name = "" ∨ teacher = "" then
    st.emit (.alert "Both name and teacher are required")
  else
    let url :=
      if idTruthy st.currentEditingId then
        env.origin ++ "/subject/" ++ decimal (st.currentEditingId.getD 0)
      else env.origin ++ "/subject"
    let method := if idTruthy st.currentEditingId then "PUT" else "POST"
    let st := st.emit (.fetch method url (some [("name", name), ("teacher", teacher)]))
    match env.net.mutation with
    | .rejected =>
      (st.emit (.consoleError "Error saving subject:")).emit (.alert "Failed to save subject")
    | .response true _ =>
      let st := closeModal st
      let st := loadSubjects env st
      if env.pathname = "/" then loadDashboardStats env st else st
    | .response false none =>
      (st.emit (.consoleError "Error saving subject:")).emit (.alert "Failed to save subject")
    | .response false (some error) =>
      st.emit (.alert (errorMessage error "Failed to save subject"))

/-- `deleteSubject`, lines 230-250; `confirmed` is the answer to `confirm`. -/
def deleteSubject (env : Env) (confirmed : Bool) (id : Int) (st : State) : State :=
  if !confirmed then st
  else
    let st := st.emit (.fetch "DELETE" (env.origin ++ "/subject/" ++ decimal id) none)
    match env.net.mutation with
    | .rejected =>
      (st.emit (.consoleError "Error deleting subject:")).emit (.alert "Failed to delete subject")
    | .response true _ =>
      let st := loadSubjects env st
      if env.pathname = "/" then loadDashboardStats env st else st
    | .response false _ => st.emit (.alert "Failed to delete subject")

/-- `viewSubjectDetails`, lines 252-255. -/
def viewSubjectDetails (_id : Int) (st : State) : State :=
  st.emit (.alert "Subject details feature coming soon!")

/-- A `catch` block that logs: the state at the throw, with the message logged. -/
def caught (label : String) (r : Except (JsError × State) State) : State :=
  match r with
  | .ok st => st
  | .error (_, st) => st.emit (.consoleError label)

/-- Running a renderer on the document of a state. -/
def withDom (st : State) (r : Except JsError Dom) : Except (JsError × State) State :=
  match r with
  | .ok dom => .ok { st with dom := dom }
  | .error e => .error (e, st)

/-! ## Dashboard feeds (lines 1040-1111) -/

/-- The comparator of line 1046: newest `date_posted` first. -/
def compareLatest (h : Host) (a b : FeedItem) : Option Int :=
  match newDate h b.date_posted, newDate h a.date_posted with
  | some x, some y => some (x - y)
  | _, _ => none

/-- The comparator of line 1081: earliest `due_date` first. -/
def compareDue (h : Host) (a b : FeedItem) : Option Int :=
  match newDate h a.due_date, newDate h b.due_date with
  | some x, some y => some (x - y)
  | _, _ => none

/-- The markup of one activity item (lines 1056-1068). -/
def activityItem (h : Host) (now : Int) (item : FeedItem) : String :=
  let icon := if item.type = "announcement" then "fa-bell" else "fa-file-alt"
  let color := if item.type = "announcement" then "#f39c12" else "#3498db"
  "\n" ++
    "                <div class=\"activity-item\">\n" ++
    "                    <i class=\"fas " ++ icon ++ "\" style=\"color: " ++ color ++ ";\"></i>\n" ++
    "                    <div class=\"activity-item-content\">\n" ++
    "                        <h4>" ++ item.title ++ "</h4>\n" ++
    "                        <p>" ++ getTimeAgo h now item.date_posted ++ "</p>\n" ++
    "                    </div>\n" ++
    "                </div>\n" ++
    "            "

/-- `loadLatestActivity`, lines 1040-1073. -/
def loadLatestActivity (env : Env) (st : State) : State :=
  let st := st.emit (.fetch "GET" (env.origin ++ "/feed/latest") none)
  match env.net.feedLatest with
  | .response _ (some feed) =>
    match feed.elements "feed.sort" with
    | .error _ => st.emit (.consoleError "Error loading latest activity:")
    | .ok items =>
      let sorted := jsSort (compareLatest env.host) items
      match st.dom.getElementById "latest-activity" with
      | none => st
      | some _ =>
        if sorted.length = 0 then
          let html := "<div class=\"empty-state\"><p>No recent activity</p></div>"
          { st with dom := st.dom.assign "latest-activity" html }
        else
          let html := String.join ((sorted.take 5).map (activityItem env.host env.now))
          { st with dom := st.dom.assign "latest-activity" html }
  | _ => st.emit (.consoleError "Error loading latest activity:")

/-- The markup of one deadline item (lines 1094-1106). -/
def deadlineItem (h : Host) (now : Int) (item : FeedItem) : String :=
  let daysLeft := getDaysUntil h now item.due_date
  "\n" ++
    "                <div class=\"deadline-item\">\n" ++
    "                    <div class=\"deadline-item-content\">\n" ++
    "                        <h4>" ++ item.title ++ "</h4>\n" ++
    "                        <p>Due: " ++ formatDateShort h item.due_date ++ "</p>\n" ++
    "                    </div>\n" ++
    "                    <div class=\"deadline-time\">" ++ daysLeft ++ "</div>\n" ++
    "                </div>\n" ++
    "            "

/-- `loadUpcomingDeadlines`, lines 1075-1111. -/
def loadUpcomingDeadlines (env : Env) (st : State) : State :=
  let st := st.emit (.fetch "GET" (env.origin ++ "/feed/upcoming-deadlines") none)
  match env.net.feedUpcoming with
  | .response _ (some deadlines) =>
    match deadlines.elements "deadlines.sort" with
    | .error _ => st.emit (.consoleError "Error loading upcoming deadlines:")
    | .ok items =>
      let sorted := jsSort (compareDue env.host) items
      match st.dom.getElementById "upcoming-deadlines" with
      | none => st
      | some _ =>
        let dom := st.dom.assign "deadline-count" (decimal sorted.length ++ " Active")
        if sorted.length = 0 then
          let html := "<div class=\"empty-state\"><p>No upcoming deadlines</p></div>"
          { st with dom := dom.assign "upcoming-deadlines" html }
        else
          let html := String.join ((sorted.take 5).map (deadlineItem env.host env.now))
          { st with dom := dom.assign "upcoming-deadlines" html }
  | _ => st.emit (.consoleError "Error loading upcoming deadlines:")

/-! ## Announcement functions (lines 258-477) -/

/-- `loadAnnouncements`, lines 258-266. -/
def loadAnnouncements (env : Env) (st : State) : State :=
  let st := st.emit (.fetch "GET" (env.origin ++ "/announcement") none)
  match env.net.announcement with
  | .response _ (some announcements) =>
    caught "Error loading announcements:"
      (withDom st (renderAnnouncements env.host st.subjects announcements st.dom))
  | _ => st.emit (.consoleError "Error loading announcements:")

/-- The form markup of the announcement dialog (lines 321-343). -/
def announcementFormContent (subjectOptions : String) : String :=
  "\n" ++
    "        <form onsubmit=\"saveAnnouncement(event)\">\n" ++
    "            <div class=\"form-group\">\n" ++
    "                <label>Subject *</label>\n" ++
    "                <select id=\"announcement-subject\" required>\n" ++
    "                    <option value=\"\">Select a subject</option>\n" ++
    "                    " ++ subjectOptions ++ "\n" ++
    "                </select>\n" ++
    "            </div>\n" ++
    "            <div class=\"form-group\">\n" ++
    "                <label>Title *</label>\n" ++
    "                <input type=\"text\" id=\"announcement-title\" required>\n" ++
    "            </div>\n" ++
    "            <div class=\"form-group\">\n" ++
    "                <label>Content *</label>\n" ++
    "                <textarea id=\"announcement-content\" required></textarea>\n" ++
    "            </div>\n" ++
    "            <div class=\"form-actions\">\n" ++
    "                <button type=\"button\" class=\"btn-secondary\" onclick=\"closeModal()\">Cancel</button>\n" ++
    "                <button type=\"submit\" class=\"btn-primary\">Post Announcement</button>\n" ++
    "            </div>\n" ++
    "        </form>\n" ++
    "    "

/-- `openAnnouncementModal`, lines 310-346. -/
def openAnnouncementModal (h : Host) (st : State) : Except (JsError × State) State :=
  if st.subjects.length = some 0 then
    .ok (st.emit (.alert "Please create a subject first!"))
  else
    match st.subjects.elements "subjects.map" with
    | .error e => .error (e, st)
    | .ok items =>
      .ok (openModal "New Announcement" (announcementFormContent (subjectOptions h items)) st)

/-- `saveAnnouncement`, lines 348-375, on a form whose fields
`announcement-subject`, `announcement-title` and `announcement-content` hold
the given values.  The calls of `loadDashboardStats` and `loadLatestActivity`
are not awaited; their effects are appended here. -/
def saveAnnouncement (env : Env) (subjectField titleField contentField : String) (st : State) :
    State :=
  let subjectId := jsParseInt subjectField
  let title := jsTrim titleField
  let content := jsTrim contentField
  let st := st.emit (.fetch "POST"
    (env.origin ++ "/subject/" ++ numberText subjectId ++ "/announcement")
    (some [("title", title), ("content", content)]))
  match env.net.mutation with
  | .rejected =>
    (st.emit (.consoleError "Error saving announcement:")).emit
      (.alert "Failed to create announcement")
  | .response true _ =>
    let st := closeModal st
    let st := loadAnnouncements env st
    if env.pathname = "/" then loadLatestActivity env (loadDashboardStats env st) else st
  | .response false _ => st.emit (.alert "Failed to create announcement")

/-- `deleteAnnouncement`, lines 377-398; `confirmed` is the answer to `confirm`. -/
def deleteAnnouncement (env : Env) (confirmed : Bool) (id : Int) (st : State) : State :=
  if !confirmed then st
  else
    let st := st.emit (.fetch "DELETE" (env.origin ++ "/announcement/" ++ decimal id) none)
    match env.net.mutation with
    | .rejected =>
      (st.emit (.consoleError "Error deleting announcement:")).emit
        (.alert "Failed to delete announcement")
    | .response true _ =>
      let st := loadAnnouncements env st
      if env.pathname = "/" then loadLatestActivity env (loadDashboardStats env st) else st
    | .response false _ => st.emit (.alert "Failed to delete announcement")

/-- The markup of one comment (lines 411-419). -/
def commentItem (h : Host) (c : Comment) : String :=
  "\n" ++
    "                <div class=\"comment-item\">\n" ++
    "                    <div class=\"comment-header\">\n" ++
    "                        <span class=\"comment-user\">" ++ c.user ++ "</span>\n" ++
    "                        <span class=\"comment-date\">" ++ formatDate h c.date_posted ++ "</span>\n" ++
    "                    </div>\n" ++
    "                    <div class=\"comment-content\">" ++ c.content ++ "</div>\n" ++
    "                </div>\n" ++
    "            "

/-- The markup of the comments dialog (lines 422-447). -/
def commentsContent (title content commentsHtml : String) (announcementId : Int) : String :=
  "\n" ++
    "            <div>\n" ++
    "                <h3 style=\"margin-bottom: 1rem;\">" ++ title ++ "</h3>\n" ++
    "                <p style=\"margin-bottom: 1.5rem; color: #666;\">" ++ content ++ "</p>\n" ++
    "                <h4 style=\"margin-bottom: 1rem;\">Comments</h4>\n" ++
    "                <div class=\"comments-section\">\n" ++
    "                    " ++ commentsHtml ++ "\n" ++
    "                </div>\n" ++
    "                <div class=\"comment-form\">\n" ++
    "                    <form onsubmit=\"addComment(event, " ++ decimal announcementId ++ ")\">\n" ++
    "                        <div class=\"form-group\">\n" ++
    "                            <label>Your Name</label>\n" ++
    "                            <input type=\"text\" id=\"comment-user\" value=\"Prof. Martinez\" required>\n" ++
    "                        </div>\n" ++
    "                        <div class=\"form-group\">\n" ++
    "                            <label>Comment</label>\n" ++
    "                            <textarea id=\"comment-content\" required></textarea>\n" ++
    "                        </div>\n" ++
    "                        <div class=\"form-actions\">\n" ++
    "                            <button type=\"button\" class=\"btn-secondary\" onclick=\"closeModal()\">Close</button>\n" ++
    "                            <button type=\"submit\" class=\"btn-primary\">Add Comment</button>\n" ++
    "                        </div>\n" ++
    "                    </form>\n" ++
    "                </div>\n" ++
    "            </div>\n" ++
    "        "

/-- `openCommentsModal`, lines 400-454.  A property read from a body that is
not a single record is `undefined`. -/
def openCommentsModal (env : Env) (announcementId : Int) (st : State) : State :=
  let st := st.emit (.fetch "GET" (env.origin ++ "/announcement/" ++ decimal announcementId) none)
  let st := st.emit
    (.fetch "GET" (env.origin ++ "/announcement/" ++ decimal announcementId ++ "/comments") none)
  match env.net.announcementById, env.net.comments with
  | .response _ (some announcement), .response _ (some comments) =>
    let commentsHtml :=
      match comments with
      | .array (c :: cs) => String.join ((c :: cs).map (commentItem env.host))
      | _ => "<div class=\"empty-state\"><p>No comments yet</p></div>"
    let title :=
      match announcement with
      | .record a => a.title
      | _ => "undefined"
    let content :=
      match announcement with
      | .record a => a.content
      | _ => "undefined"
    openModal "Comments" (commentsContent title content commentsHtml announcementId) st
  | _, _ =>
    (st.emit (.consoleError "Error loading comments:")).emit (.alert "Failed to load comments")

/-- `addComment`, lines 456-477, on a form whose fields `comment-user` and
`comment-content` hold the given values.  The call of `openCommentsModal` is
not awaited; its effects are appended here. -/
def addComment (env : Env) (userField contentField : String) (announcementId : Int)
    (st : State) : State :=
  let user := jsTrim userField
  let content := jsTrim contentField
  let st := st.emit (.fetch "POST"
    (env.origin ++ "/announcement/" ++ decimal announcementId ++ "/comments")
    (some [("user", user), ("content", content)]))
  match env.net.mutation with
  | .rejected =>
    (st.emit (.consoleError "Error adding comment:")).emit (.alert "Failed to add comment")
  | .response true _ => openCommentsModal env announcementId st
  | .response false _ => st.emit (.alert "Failed to add comment")

/-! ## Material functions (lines 480-645) -/

/-- `updateMaterialStats`, lines 536-550. -/
def updateMaterialStats (materials : JsonValue Material) (st : State) :
    Except (JsError × State) State :=
  let st := { st with dom := st.dom.assign "total-materials" (lengthText materials.length) }
  match materials.elements "materials.filter" with
  | .error e => .error (e, st)
  | .ok items =>
    let pdfs := (items.filter (fun m =>
      !truthy m.file_url || jsIncludes (m.file_url.getD "") ".pdf")).length
    let videos : Int := (items.length : Int) - (pdfs : Int)
    let dom := st.dom.assign "total-pdfs" (decimal pdfs)
    let dom := dom.assign "total-videos" (decimal videos)
    let dom := dom.assign "total-size" (decimal (items.length * 65 : Nat) ++ " MB")
    .ok { st with dom := dom }

/-- `loadMaterials`, lines 480-489. -/
def loadMaterials (env : Env) (st : State) : State :=
  let st := st.emit (.fetch "GET" (env.origin ++ "/material") none)
  match env.net.material with
  | .response _ (some materials) =>
    caught "Error loading materials:"
      (match withDom st (renderMaterials env.host st.subjects materials st.dom) with
       | .ok st => updateMaterialStats materials st
       | .error e => .error e)
  | _ => st.emit (.consoleError "Error loading materials:")

/-- The form markup of the material dialog (lines 563-589). -/
def materialFormContent (subjectOptions : String) : String :=
  "\n" ++
    "        <form onsubmit=\"saveMaterial(event)\">\n" ++
    "            <div class=\"form-group\">\n" ++
    "                <label>Subject *</label>\n" ++
    "                <select id=\"material-subject\" required>\n" ++
    "                    <option value=\"\">Select a subject</option>\n" ++
    "                    " ++ subjectOptions ++ "\n" ++
    "                </select>\n" ++
    "            </div>\n" ++
    "            <div class=\"form-group\">\n" ++
    "                <label>Title *</label>\n" ++
    "                <input type=\"text\" id=\"material-title\" required>\n" ++
    "            </div>\n" ++
    "            <div class=\"form-group\">\n" ++
    "                <label>Description</label>\n" ++
    "                <textarea id=\"material-description\"></textarea>\n" ++
    "            </div>\n" ++
    "            <div class=\"form-group\">\n" ++
    "                <label>File URL</label>\n" ++
    "                <input type=\"text\" id=\"material-file-url\" placeholder=\"https://example.com/file.pdf\">\n" ++
    "            </div>\n" ++
    "            <div class=\"form-actions\">\n" ++
    "                <button type=\"button\" class=\"btn-secondary\" onclick=\"closeModal()\">Cancel</button>\n" ++
    "                <button type=\"submit\" class=\"btn-primary\">Upload Material</button>\n" ++
    "            </div>\n" ++
    "        </form>\n" ++
    "    "

/-- `openMaterialModal`, lines 552-592. -/
def openMaterialModal (h : Host) (st : State) : Except (JsError × State) State :=
  if st.subjects.length = some 0 then
    .ok (st.emit (.alert "Please create a subject first!"))
  else
    match st.subjects.elements "subjects.map" with
    | .error e => .error (e, st)
    | .ok items =>
      .ok (openModal "Upload Material" (materialFormContent (subjectOptions h items)) st)

/-- `saveMaterial`, lines 594-622, on a form whose fields `material-subject`,
`material-title`, `material-description` and `material-file-url` hold the
given values.  The calls that are not awaited are appended. -/
def saveMaterial (env : Env) (subjectField titleField descriptionField fileUrlField : String)
    (st : State) : State :=
  let subjectId := jsParseInt subjectField
  let title := jsTrim titleField
  let description := jsTrim descriptionField
  let fileUrl := jsTrim fileUrlField
  let st := st.emit (.fetch "POST"
    (env.origin ++ "/subject/" ++ numberText subjectId ++ "/materials")
    (some [("title", title), ("description", description), ("file_url", fileUrl)]))
  match env.net.mutation with
  | .rejected =>
    (st.emit (.consoleError "Error saving material:")).emit (.alert "Failed to upload material")
  | .response true _ =>
    let st := closeModal st
    let st := loadMaterials env st
    if env.pathname = "/" then loadLatestActivity env (loadDashboardStats env st) else st
  | .response false _ => st.emit (.alert "Failed to upload material")

/-- `deleteMaterial`, lines 624-645; `confirmed` is the answer to `confirm`. -/
def deleteMaterial (env : Env) (confirmed : Bool) (id : Int) (st : State) : State :=
  if !confirmed then st
  else
    let st := st.emit (.fetch "DELETE" (env.origin ++ "/material/" ++ decimal id) none)
    match env.net.mutation with
    | .rejected =>
      (st.emit (.consoleError "Error deleting material:")).emit
        (.alert "Failed to delete material")
    | .response true _ =>
      let st := loadMaterials env st
      if env.pathname = "/" then loadLatestActivity env (loadDashboardStats env st) else st
    | .response false _ => st.emit (.alert "Failed to delete material")

/-! ## Assignment functions (lines 648-834) -/

/-- The predicate of the `urgent` filter (lines 718-722); a comparison with
`NaN` is false. -/
def isUrgentDue (h : Host) (now : Int) (a : Assignment) : Bool :=
  match newDate h a.due_date with
  | some due =>
    let days := mathCeilDiv (due - now) (1000 * 60 * 60 * 24)
    decide (days ≤ 3) && decide (days ≥ 0)
  | none => false

/-- The predicate of the `dueThisWeek` filter (lines 724-727). -/
def isDueThisWeek (h : Host) (now : Int) (a : Assignment) : Bool :=
  let weekFromNow := now + 7 * 24 * 60 * 60 * 1000
  match newDate h a.due_date with
  | some due => decide (due ≤ weekFromNow) && decide (due ≥ now)
  | none => false

/-- `updateAssignmentStats`, lines 706-731. -/
def updateAssignmentStats (h : Host) (now : Int) (assignments : JsonValue Assignment)
    (st : State) : Except (JsError × State) State :=
  let dom := st.dom.assign "total-assignments" (lengthText assignments.length)
  let dom := dom.assign "active-assignments" (lengthText assignments.length)
  let st := { st with dom := dom }
  match assignments.elements "assignments.filter" with
  | .error e => .error (e, st)
  | .ok items =>
    let urgent := (items.filter (isUrgentDue h now)).length
    let dueThisWeek := (items.filter (isDueThisWeek h now)).length
    let dom := st.dom.assign "urgent-assignments" (decimal urgent)
    let dom := dom.assign "due-this-week" (decimal dueThisWeek)
    .ok { st with dom := dom }

/-- `loadAssignments`, lines 648-657. -/
def loadAssignments (env : Env) (st : State) : State :=
  let st := st.emit (.fetch "GET" (env.origin ++ "/assignment") none)
  match env.net.assignment with
  | .response _ (some assignments) =>
    caught "Error loading assignments:"
      (match withDom st (renderAssignments env.host env.now st.subjects assignments st.dom) with
       | .ok st => updateAssignmentStats env.host env.now assignments st
       | .error e => .error e)
  | _ => st.emit (.consoleError "Error loading assignments:")

/-- The form markup of the assignment dialog (lines 747-773). -/
def assignmentFormContent (subjectOptions : String) (assignmentId : Option Int) : String :=
  "\n" ++
    "        <form onsubmit=\"saveAssignment(event)\">\n" ++
    "            <div class=\"form-group\">\n" ++
    "                <label>Subject *</label>\n" ++
    "                <select id=\"assignment-subject\" required>\n" ++
    "                    <option value=\"\">Select a subject</option>\n" ++
    "                    " ++ subjectOptions ++ "\n" ++
    "                </select>\n" ++
    "            </div>\n" ++
    "            <div class=\"form-group\">\n" ++
    "                <label>Title *</label>\n" ++
    "                <input type=\"text\" id=\"assignment-title\" required>\n" ++
    "            </div>\n" ++
    "            <div class=\"form-group\">\n" ++
    "                <label>Instructions</label>\n" ++
    "                <textarea id=\"assignment-instructions\"></textarea>\n" ++
    "            </div>\n" ++
    "            <div class=\"form-group\">\n" ++
    "                <label>Due Date *</label>\n" ++
    "                <input type=\"date\" id=\"assignment-due-date\" required>\n" ++
    "            </div>\n" ++
    "            <div class=\"form-actions\">\n" ++
    "                <button type=\"button\" class=\"btn-secondary\" onclick=\"closeModal()\">Cancel</button>\n" ++
    "                <button type=\"submit\" class=\"btn-primary\">" ++ (if idTruthy assignmentId then "Update" else "Create") ++ " Assignment</button>\n" ++
    "            </div>\n" ++
    "        </form>\n" ++
    "    "

/-- `openAssignmentModal`, lines 733-776. -/
def openAssignmentModal (h : Host) (assignmentId : Option Int) (st : State) :
    Except (JsError × State) State :=
  if st.subjects.length = some 0 then
    .ok (st.emit (.alert "Please create a subject first!"))
  else
    let st := { st with currentEditingId := assignmentId }
    match st.subjects.elements "subjects.map" with
    | .error e => .error (e, st)
    | .ok items =>
      .ok (openModal (if idTruthy assignmentId then "Edit Assignment" else "Create Assignment")
        (assignmentFormContent (subjectOptions h items) assignmentId) st)

/-- `saveAssignment`, lines 778-806, on a form whose fields
`assignment-subject`, `assignment-title`, `assignment-instructions` and
`assignment-due-date` hold the given values.  The calls that are not awaited
are appended. -/
def saveAssignment (env : Env) (subjectField titleField instructionsField dueDateField : String)
    (st : State) : State :=
  let subjectId := jsParseInt subjectField
  let title := jsTrim titleField
  let instructions := jsTrim instructionsField
  let dueDate := dueDateField
  let st := st.emit (.fetch "POST"
    (env.origin ++ "/subject/" ++ numberText subjectId ++ "/assignments")
    (some [("title", title), ("instructions", instructions), ("due_date", dueDate)]))
  match env.net.mutation with
  | .rejected =>
    (st.emit (.consoleError "Error saving assignment:")).emit
      (.alert "Failed to create assignment")
  | .response true _ =>
    let st := closeModal st
    let st := loadAssignments env st
    if env.pathname = "/" then loadUpcomingDeadlines env (loadDashboardStats env st) else st
  | .response false _ => st.emit (.alert "Failed to create assignment")

/-- `editAssignment`, lines 808-811. -/
def editAssignment (_id : Int) (st : State) : State :=
  st.emit (.alert "Edit functionality coming soon!")

/-- `deleteAssignment`, lines 813-834; `confirmed` is the answer to `confirm`. -/
def deleteAssignment (env : Env) (confirmed : Bool) (id : Int) (st : State) : State :=
  if !confirmed then st
  else
    let st := st.emit (.fetch "DELETE" (env.origin ++ "/assignment/" ++ decimal id) none)
    match env.net.mutation with
    | .rejected =>
      (st.emit (.consoleError "Error deleting assignment:")).emit
        (.alert "Failed to delete assignment")
    | .response true _ =>
      let st := loadAssignments env st
      if env.pathname = "/" then loadUpcomingDeadlines env (loadDashboardStats env st) else st
    | .response false _ => st.emit (.alert "Failed to delete assignment")

/-! ## Reminder functions (lines 837-1007) -/

/-- The predicate of the `thisWeek` filter (lines 905-908). -/
def isRemindThisWeek (h : Host) (now : Int) (r : Reminder) : Bool :=
  let weekFromNow := now + 7 * 24 * 60 * 60 * 1000
  match newDate h r.remind_at with
  | some remind => decide (remind ≤ weekFromNow) && decide (remind ≥ now)
  | none => false

/-- The predicate of the `today` filter (lines 910-913). -/
def isRemindToday (h : Host) (now : Int) (r : Reminder) : Bool :=
  let todayEnd := h.nextLocalMidnight now
  match newDate h r.remind_at with
  | some remind => decide (remind ≥ now) && decide (remind < todayEnd)
  | none => false

/-- `updateReminderStats`, lines 894-917. -/
def updateReminderStats (h : Host) (now : Int) (reminders : JsonValue Reminder) (st : State) :
    Except (JsError × State) State :=
  let st := { st with dom := st.dom.assign "total-reminders" (lengthText reminders.length) }
  match reminders.elements "reminders.filter" with
  | .error e => .error (e, st)
  | .ok items =>
    let thisWeek := (items.filter (isRemindThisWeek h now)).length
    let today := (items.filter (isRemindToday h now)).length
    let dom := st.dom.assign "this-week-reminders" (decimal thisWeek)
    let dom := dom.assign "today-reminders" (decimal today)
    .ok { st with dom := dom }

/-- The array `reminders` after `renderReminders`, which sorts it in place
unless it returns early (lines 850-855) or throws before the sort. -/
def remindersAfterRender (h : Host) (subjects : JsonValue Subject)
    (reminders : JsonValue Reminder) (dom : Dom) : JsonValue Reminder :=
  match dom.getElementById "reminders-container", subjects, reminders with
  | some _, .array _, .array (r :: rs) => .array (sortReminders h (r :: rs))
  | _, _, _ => reminders

/-- `loadReminders`, lines 837-846. -/
def loadReminders (env : Env) (st : State) : State :=
  let st := st.emit (.fetch "GET" (env.origin ++ "/reminder") none)
  match env.net.reminder with
  | .response _ (some reminders) =>
    caught "Error loading reminders:"
      (match withDom st (renderReminders env.host env.now st.subjects reminders st.dom) with
       | .ok st' =>
         updateReminderStats env.host env.now
           (remindersAfterRender env.host st.subjects reminders st.dom) st'
       | .error e => .error e)
  | _ => st.emit (.consoleError "Error loading reminders:")

/-- The form markup of the reminder dialog (lines 930-952). -/
def reminderFormContent (subjectOptions : String) : String :=
  "\n" ++
    "        <form onsubmit=\"saveReminder(event)\">\n" ++
    "            <div class=\"form-group\">\n" ++
    "                <label>Subject *</label>\n" ++
    "                <select id=\"reminder-subject\" required>\n" ++
    "                    <option value=\"\">Select a subject</option>\n" ++
    "                    " ++ subjectOptions ++ "\n" ++
    "                </select>\n" ++
    "            </div>\n" ++
    "            <div class=\"form-group\">\n" ++
    "                <label>Message *</label>\n" ++
    "                <input type=\"text\" id=\"reminder-message\" required>\n" ++
    "            </div>\n" ++
    "            <div class=\"form-group\">\n" ++
    "                <label>Remind At *</label>\n" ++
    "                <input type=\"datetime-local\" id=\"reminder-date\" required>\n" ++
    "            </div>\n" ++
    "            <div class=\"form-actions\">\n" ++
    "                <button type=\"button\" class=\"btn-secondary\" onclick=\"closeModal()\">Cancel</button>\n" ++
    "                <button type=\"submit\" class=\"btn-primary\">Create Reminder</button>\n" ++
    "            </div>\n" ++
    "        </form>\n" ++
    "    "

/-- `openReminderModal`, lines 919-955. -/
def openReminderModal (h : Host) (st : State) : Except (JsError × State) State :=
  if st.subjects.length = some 0 then
    .ok (st.emit (.alert "Please create a subject first!"))
  else
    match st.subjects.elements "subjects.map" with
    | .error e => .error (e, st)
    | .ok items =>
      .ok (openModal "New Reminder" (reminderFormContent (subjectOptions h items)) st)

/-- `saveReminder`, lines 957-984, on a form whose fields `reminder-subject`,
`reminder-message` and `reminder-date` hold the given values.  The calls that
are not awaited are appended. -/
def saveReminder (env : Env) (subjectField messageField remindAtField : String) (st : State) :
    State :=
  let subjectId := jsParseInt subjectField
  let message := jsTrim messageField
  let remindAt := remindAtField
  let st := st.emit (.fetch "POST"
    (env.origin ++ "/subject/" ++ numberText subjectId ++ "/reminders")
    (some [("message", message), ("remind_at", remindAt)]))
  match env.net.mutation with
  | .rejected =>
    (st.emit (.consoleError "Error saving reminder:")).emit (.alert "Failed to create reminder")
  | .response true _ =>
    let st := closeModal st
    let st := loadReminders env st
    if env.pathname = "/" then loadUpcomingDeadlines env (loadDashboardStats env st) else st
  | .response false _ => st.emit (.alert "Failed to create reminder")

/-- `deleteReminder`, lines 986-1007; `confirmed` is the answer to `confirm`. -/
def deleteReminder (env : Env) (confirmed : Bool) (id : Int) (st : State) : State :=
  if !confirmed then st
  else
    let st := st.emit (.fetch "DELETE" (env.origin ++ "/reminder/" ++ decimal id) none)
    match env.net.mutation with
    | .rejected =>
      (st.emit (.consoleError "Error deleting reminder:")).emit
        (.alert "Failed to delete reminder")
    | .response true _ =>
      let st := loadReminders env st
      if env.pathname = "/" then loadUpcomingDeadlines env (loadDashboardStats env st) else st
    | .response false _ => st.emit (.alert "Failed to delete reminder")

/-- The listener of `DOMContentLoaded`, lines 1114-1116. -/
def onDOMContentLoaded (env : Env) (st : State) : State :=
  loadSubjects env st

/-- The click listener of lines 72-77: a click on the overlay itself closes the dialog. -/
def onDocumentClick (targetIsOverlay : Bool) (st : State) : State :=
  if targetIsOverlay then closeModal st else st

/-- The requests issued so far. -/
def State.requests (st : State) : List Effect :=
  st.effects.filter (fun e => match e with
    | .fetch _ _ _ => true
    | _ => false)

/-! ## A concrete host for closed examples -/

/-- A small browser: it parses the ISO timestamps listed here (anything else
is an invalid date), formats every date as a fixed text and upper-cases
ASCII letters. -/
def sampleHost : Host where
  parseDate := fun s =>
    if s = "2025-11-05T00:00:00.000Z" then some 1762300800000
    else if s = "2025-11-04T23:00:00.000Z" then some 1762297200000
    else if s = "2025-11-05T00:00:01.000Z" then some 1762300801000
    else if s = "2025-11-06T00:00:00.000Z" then some 1762387200000
    else if s = "2025-11-03T00:00:00.000Z" then some 1762128000000
    else if s = "2025-11-10T12:00:00.000Z" then some 1762776000000
    else if s = "2025-11-07T00:00:00.000Z" then some 1762473600000
    else none
  toLocaleDateString := fun d _ => if d.isSome then "11/05/2025" else "Invalid Date"
  toLocaleTimeString := fun d _ => if d.isSome then "12:00 AM" else "Invalid Date"
  toUpperCase := fun s => String.mk (s.data.map Char.toUpper)
  inheritedText := fun _ => none
  nextLocalMidnight := fun t => (t / 86400000 + 1) * 86400000

/-- The instant 2025-11-05T00:00:00Z in milliseconds since the epoch. -/
def sampleNow : Int := 1762300800000

/-- A subject cache of two subjects, with ids 1 and 3. -/
def sampleSubjects : List Subject :=
  [⟨1, "Web Development", "Prof. Martinez"⟩, ⟨3, "Data Structures and Algorithms", "Prof. X"⟩]

/-- An announcement of subject 5, which is not in `sampleSubjects`. -/
def orphanAnnouncement : Announcement :=
  ⟨7, 5, "Quiz moved", "Bring a pen", .str "2025-11-03T00:00:00.000Z"⟩

/-- A page with the four list containers. -/
def sampleDom : Dom :=
  [("announcements-container", ""), ("materials-container", ""),
   ("assignments-container", ""), ("reminders-container", "")]

/-- A page state: the cache holds `sampleSubjects` and the dialog is open. -/
def sampleState : State where
  subjects := .array sampleSubjects
  currentEditingId := none
  modal := { display := "flex", title := "Add New Subject", body := "" }
  dom := sampleDom
  effects := []

/-- A server that answers every mutating request with a status that is not
2xx and an `error` message, and every listing with the empty list. -/
def sampleNetwork : Network where
  mutation := .response false (some (.object (some "title is required")))
  subject := .response true (some (.array sampleSubjects))
  announcement := .response true (some (.array []))
  material := .response true (some (.array []))
  assignment := .response true (some (.array []))
  reminder := .response true (some (.array []))
  announcementById := .response true (some (.record orphanAnnouncement))
  comments := .response true (some (.array []))
  feedLatest := .response true (some (.array []))
  feedUpcoming := .response true (some (.array []))

/-- An environment for closed examples. -/
def sampleEnv : Env where
  host := sampleHost
  origin := "http://localhost:5000"
  pathname := "/announcements"
  now := sampleNow
  random := fun _ => 0
  net := sampleNetwork

/-- `needle` occurs in `hay` as a contiguous piece of text. -/
def Occurs (needle hay : String) : Prop :=
  ∃ pre suf : String, hay = pre ++ needle ++ suf

/-- The messages shown to the user so far, by `alert`. -/
def State.alerts (st : State) : List String :=
  st.effects.filterMap (fun e => match e with
    | .alert message => some message
    | _ => none)

/-- Is the effect a request with a method other than GET? -/
def Effect.isMutation : Effect → Bool
  | .fetch method _ _ => method != "GET"
  | _ => false

/-- The mutating requests (POST, PUT, DELETE) issued so far. -/
def State.mutations (st : State) : List Effect :=
  st.effects.filter Effect.isMutation

/-- The four requests of `loadDashboardStats`. -/
def dashboardRequests (origin : String) : List Effect :=
  [.fetch "GET" (origin ++ "/subject") none, .fetch "GET" (origin ++ "/announcement") none,
   .fetch "GET" (origin ++ "/material") none, .fetch "GET" (origin ++ "/assignment") none]

/-- Time value of the `remind_at` of a reminder whose date is valid. -/
def remindTime (h : Host) (r : Reminder) : Int :=
  (newDate h r.remind_at).getD 0

/-- The subjects page: the container of the cards and two of the counters. -/
def subjectsPageDom : Dom :=
  [("subjects-container", "<p>old cards</p>"), ("total-subjects", "7"), ("active-classes", "7")]

/-- A state of the subjects page whose cache holds `sampleSubjects`. -/
def subjectsPageState : State :=
  { sampleState with dom := subjectsPageDom }

/-- An environment whose server answers `GET /subject` with status 500 and
the JSON body `{"error": "database unavailable"}`. -/
def brokenSubjectsEnv : Env :=
  { sampleEnv with
    net := { sampleNetwork with
      subject := .response false (some (.object (some "database unavailable"))) } }

/-- An environment whose `GET /subject` never completes. -/
def offlineEnv : Env :=
  { sampleEnv with net := { sampleNetwork with subject := .rejected } }

/-- An environment whose server answers every mutating request with a 2xx
status; the current page is not the dashboard. -/
def okEnv : Env :=
  { sampleEnv with net := { sampleNetwork with mutation := .response true none } }

/-- The request that `saveSubject` builds from a valid form (lines 201-208). -/
def subjectRequest (env : Env) (nameField teacherField : String) (st : State) : Effect :=
  .fetch (if idTruthy st.currentEditingId then "PUT" else "POST")
    (if idTruthy st.currentEditingId then
      env.origin ++ "/subject/" ++ decimal (st.currentEditingId.getD 0)
    else env.origin ++ "/subject")
    (some [("name", jsTrim nameField), ("teacher", jsTrim teacherField)])

/-- The request that `saveAnnouncement` builds (lines 355-359). -/
def announcementRequest (env : Env) (subjectField titleField contentField : String) : Effect :=
  .fetch "POST" (env.origin ++ "/subject/" ++ numberText (jsParseInt subjectField) ++ "/announcement")
    (some [("title", jsTrim titleField), ("content", jsTrim contentField)])

/-- The request that `saveMaterial` builds (lines 602-606). -/
def materialRequest (env : Env) (subjectField titleField descriptionField fileUrlField : String) :
    Effect :=
  .fetch "POST" (env.origin ++ "/subject/" ++ numberText (jsParseInt subjectField) ++ "/materials")
    (some [("title", jsTrim titleField), ("description", jsTrim descriptionField),
      ("file_url", jsTrim fileUrlField)])

/-- The request that `saveAssignment` builds (lines 786-790). -/
def assignmentRequest (env : Env)
    (subjectField titleField instructionsField dueDateField : String) : Effect :=
  .fetch "POST" (env.origin ++ "/subject/" ++ numberText (jsParseInt subjectField) ++ "/assignments")
    (some [("title", jsTrim titleField), ("instructions", jsTrim instructionsField),
      ("due_date", dueDateField)])

/-- The request that `saveReminder` builds (lines 964-968). -/
def reminderRequest (env : Env) (subjectField messageField remindAtField : String) : Effect :=
  .fetch "POST" (env.origin ++ "/subject/" ++ numberText (jsParseInt subjectField) ++ "/reminders")
    (some [("message", jsTrim messageField), ("remind_at", remindAtField)])

/-- The request of a delete operation on the collection `path`. -/
def deleteRequest (env : Env) (path : String) (id : Int) : Effect :=
  .fetch "DELETE" (env.origin ++ path ++ decimal id) none

/-- A handler run from `st` to `r` whose only request was `req` and failed:
the dialog, the editing-id slot, the subject cache and the document are as
before, no other request was issued, and exactly one message was shown. -/
def FailedWith (st r : State) (req : Effect) : Prop :=
  r.modal = st.modal ∧ r.currentEditingId = st.currentEditingId ∧ r.subjects = st.subjects ∧
  r.dom = st.dom ∧ r.requests = st.requests ++ [req] ∧
  ∃ message, r.alerts = st.alerts ++ [message]

/-- Three reminders: the first and the third fall on the same instant, the
second on an earlier one. -/
def sampleReminders : List Reminder :=
  [⟨1, 1, "Submit essay", .str "2025-11-10T12:00:00.000Z"⟩,
   ⟨2, 3, "Quiz", .str "2025-11-06T00:00:00.000Z"⟩,
   ⟨3, 1, "Office hours", .str "2025-11-10T12:00:00.000Z"⟩]

/-- The state after a call, whether it returned or threw. -/
def stateAfter (r : Except (JsError × State) State) : State :=
  match r with
  | .ok st => st
  | .error (_, st) => st

/-- Is a material counted as a PDF, in the words of the specification: it has
no `file_url` (`null`, absent or empty) or its `file_url` contains ".pdf". -/
def countsAsPdf (m : Material) : Bool :=
  match m.file_url with
  | none => true
  | some url => url == "" || jsIncludes url ".pdf"

/-- The materials of the example in the specification: `a.pdf`, `b.mp4` and
one without a URL. -/
def sampleMaterials : List Material :=
  [⟨1, 1, "Notes", none, some "a.pdf", .null⟩, ⟨2, 1, "Lecture", none, some "b.mp4", .null⟩,
   ⟨3, 1, "Outline", none, none, .null⟩]

/-- A page with the counters of the materials page. -/
def materialsStatsDom : Dom :=
  [("total-materials", ""), ("total-pdfs", ""), ("total-videos", ""), ("total-size", "")]

/-- Value of a list of decimal digit characters read as a numeral. -/
def digitsValue (l : List Char) : Nat :=
  l.foldl (fun acc c => acc * 10 + (c.toNat - 48)) 0

/-- The character is one of `0` ... `9`. -/
def IsDigit (c : Char) : Prop := 48 ≤ c.toNat ∧ c.toNat ≤ 57

/-- The sign step of `parseInt`: a leading `-` or `+` is consumed. -/
def parseSign (body : List Char) : Int × List Char :=
  match body with
  | '-' :: r => (-1, r)
  | '+' :: r => (1, r)
  | r => (1, r)

/-- The radix step of `parseInt`: a leading `0x` or `0X` selects radix 16. -/
def parseRadix (body : List Char) : Nat × List Char :=
  match body with
  | '0' :: 'x' :: r => (16, r)
  | '0' :: 'X' :: r => (16, r)
  | r => (10, r)

/-- Is an assignment counted as urgent, in the words of the specification:
its due instant lies more than minus one day and at most three days from now. -/
def countedUrgentSpec (h : Host) (now : Int) (a : Assignment) : Bool :=
  match newDate h a.due_date with
  | some due => decide (-86400000 < due - now ∧ due - now ≤ 3 * 86400000)
  | none => false

/-- Is an assignment counted as due this week, in the words of the
specification: its due instant lies between now and seven days from now. -/
def dueThisWeekSpec (h : Host) (now : Int) (a : Assignment) : Bool :=
  match newDate h a.due_date with
  | some due => decide (0 ≤ due - now ∧ due - now ≤ 7 * 86400000)
  | none => false

/-- An assignment of subject 1 with the given due date. -/
def assignmentDue (due : DateField) : Assignment :=
  ⟨1, 1, "Essay", none, due⟩

/-- A page with the counters of the assignments page. -/
def assignmentsStatsDom : Dom :=
  [("total-assignments", ""), ("active-assignments", ""), ("urgent-assignments", ""),
   ("due-this-week", "")]

/-! ## Strings as sequences of UTF-16 code units -/

/-- The UTF-16 code units of a character: one unit for a character of the
Basic Multilingual Plane, a surrogate pair for any other. -/
def charUnits (c : Char) : List Nat :=
  if c.toNat < 0x10000 then [c.toNat]
  else [0xD800 + (c.toNat - 0x10000) / 0x400, 0xDC00 + (c.toNat - 0x10000) % 0x400]

/-- The code units of a list of characters. -/
def unitsOfChars : List Char → List Nat
  | [] => []
  | c :: cs => charUnits c ++ unitsOfChars cs

/-- The code units of a text: the elements of a string value, which indexing
and `split` work on. -/
def utf16 (s : String) : List Nat := unitsOfChars s.data

/-- The call `s.split(sep)` on the code units of `s`, for a separator of one
code unit. -/
def splitUnits (sep : Nat) : List Nat → List (List Nat)
  | [] => [[]]
  | u :: us =>
    if u = sep then [] :: splitUnits sep us
    else
      match splitUnits sep us with
      | [] => [[u]]
      | w :: ws => (u :: w) :: ws

/-- The expression `w[0]` on the code units of `w`: the first code unit,
`undefined` for the empty string. -/
def firstUnit (w : List Nat) : Option Nat := w.head?

/-- The call `xs.join('')` on an array of one-unit strings and `undefined`s. -/
def joinUnits (xs : List (Option Nat)) : List Nat :=
  xs.foldr (fun x acc => match x with
    | some u => u :: acc
    | none => acc) []

/-- The expression
`name.split(' ').map(w => w[0]).join('').toUpperCase() + '-' + (100 + id)`
(lines 114, 283, 317, 505, 559, 673, 743, 865, 926) on the code units of
`name`; `upper` is `String.prototype.toUpperCase` on code units. -/
def courseCodeUnits (upper : List Nat → List Nat) (name : List Nat) (id : Int) : List Nat :=
  upper (joinUnits ((splitUnits 32 name).map firstUnit)) ++ utf16 "-" ++ utf16 (decimal (100 + id))

/-- Course code in the words of the amended statement: the upper-cased
concatenation of the first code unit of each non-empty space-separated word
of the name, followed by "-" and the decimal of `100 + id`. -/
def courseCodeUnitsSpec (upper : List Nat → List Nat) (name : List Nat) (id : Int) : List Nat :=
  upper (((List.splitOn 32 name).filter (fun w => !w.isEmpty)).filterMap List.head?) ++
    utf16 "-" ++ utf16 (decimal (100 + id))

/-- Does every non-empty space-separated word of the name begin with a
character of the Basic Multilingual Plane? -/
def bmpInitials (name : String) : Bool :=
  (splitChars ' ' name.data).all (fun w =>
    match w.head? with
    | some c => decide (c.toNat < 0x10000)
    | none => true)

/-- Upper-casing of the ASCII letters of a sequence of code units; every other
code unit, a lone surrogate included, is kept. -/
def asciiUpperUnits (us : List Nat) : List Nat :=
  us.map (fun u => if 97 ≤ u ∧ u ≤ 122 then u - 32 else u)


/-- The dashboard counters after a handler run from `st` to `r`.  On the
dashboard page (the path "/") each of the four counters shows the length of
the freshly fetched list, provided the four listings answer with a decodable
body; on every other page the counters of the announcements, materials and
assignments keep their text. -/
def DashboardRefreshed (env : Env) (st r : State) : Prop :=
  (env.pathname = "/" →
    ∀ (o1 o2 o3 o4 : Bool) (sd : JsonValue Subject) (ad : JsonValue Announcement)
      (md : JsonValue Material) (asd : JsonValue Assignment),
      env.net.subject = .response o1 (some sd) → env.net.announcement = .response o2 (some ad) →
      env.net.material = .response o3 (some md) → env.net.assignment = .response o4 (some asd) →
      r.dom.getElementById "stat-active-subjects" =
        (st.dom.getElementById "stat-active-subjects").map (fun _ => lengthText sd.length) ∧
      r.dom.getElementById "stat-announcements" =
        (st.dom.getElementById "stat-announcements").map (fun _ => lengthText ad.length) ∧
      r.dom.getElementById "stat-materials" =
        (st.dom.getElementById "stat-materials").map (fun _ => lengthText md.length) ∧
      r.dom.getElementById "stat-assignments" =
        (st.dom.getElementById "stat-assignments").map (fun _ => lengthText asd.length)) ∧
  (env.pathname ≠ "/" →
    ∀ id ∈ ["stat-announcements", "stat-materials", "stat-assignments"],
      r.dom.getElementById id = st.dom.getElementById id)

/-- The dashboard page: its four counters and its two feeds. -/
def dashboardDom : Dom :=
  [("stat-active-subjects", "0"), ("stat-announcements", "0"), ("stat-materials", "0"),
   ("stat-assignments", "0"), ("latest-activity", ""), ("deadline-count", ""),
   ("upcoming-deadlines", "")]

/-- A state of the dashboard page whose cache holds `sampleSubjects`. -/
def dashboardState : State :=
  { sampleState with dom := dashboardDom }

/-- A server that accepts every mutating request and lists one announcement. -/
def postedNetwork : Network :=
  { sampleNetwork with
    mutation := .response true none
    announcement := .response true (some (.array [orphanAnnouncement])) }

/-- The announcements page served by `postedNetwork`. -/
def postedEnv : Env :=
  { sampleEnv with net := postedNetwork }

/-- The dashboard page served by `postedNetwork`. -/
def dashboardEnv : Env :=
  { sampleEnv with pathname := "/", net := postedNetwork }


/-! # Theorems -/

/-! ## Arithmetic of the day, hour and minute quotients -/

theorem mathFloorDiv_eq_floor (x : Int) (d : Nat) :
    mathFloorDiv x d = ⌊(x : ℚ) / (d : ℚ)⌋ := by
  unfold mathFloorDiv
  exact (Rat.floor_intCast_div_natCast x d).symm

theorem mathCeilDiv_eq_ceil (x : Int) (d : Nat) :
    mathCeilDiv x d = ⌈(x : ℚ) / (d : ℚ)⌉ := by
  unfold mathCeilDiv
  have h := Rat.floor_intCast_div_natCast (-x) d
  rw [← h, Int.cast_neg, neg_div, Int.floor_neg, neg_neg]

theorem falsy_str_of_ne {s : String} (hs : s ≠ "") : (DateField.str s).falsy = false := by
  simp [DateField.falsy, hs]

theorem dayMillis_eq : (1000 * 60 * 60 * 24 : Int) = ((86400000 : Nat) : Int) := by norm_num

theorem getDaysUntil_of_instant (h : Host) (now t : Int) (s : String)
    (hs : s ≠ "") (ht : h.parseDate s = some t) :
    getDaysUntil h now (.str s) =
      (if mathCeilDiv (t - now) 86400000 < 0 then "Overdue"
       else if mathCeilDiv (t - now) 86400000 = 0 then "Today"
       else if mathCeilDiv (t - now) 86400000 = 1 then "Tomorrow"
       else decimal (mathCeilDiv (t - now) 86400000) ++ " days left") := by
  simp [getDaysUntil, falsy_str_of_ne hs, newDate, ht]

theorem getTimeAgo_of_instant (h : Host) (now t : Int) (s : String)
    (hs : s ≠ "") (ht : h.parseDate s = some t) :
    getTimeAgo h now (.str s) =
      (if mathFloorDiv (now - t) 60000 < 60 then
        decimal (mathFloorDiv (now - t) 60000) ++ " minutes ago"
       else if mathFloorDiv (now - t) 3600000 < 24 then
        decimal (mathFloorDiv (now - t) 3600000) ++ " hours ago"
       else if mathFloorDiv (now - t) 86400000 = 1 then "Yesterday"
       else decimal (mathFloorDiv (now - t) 86400000) ++ " days ago") := by
  simp [getTimeAgo, falsy_str_of_ne hs, newDate, ht]

theorem days_left_ne_today (d : Int) : decimal d ++ " days left" ≠ "Today" := by
  intro hEq
  have hlen := congrArg String.length hEq
  rw [String.length_append] at hlen
  have h1 : (" days left" : String).length = 10 := by decide
  have h2 : ("Today" : String).length = 5 := by decide
  omega

/-! ## Formatting utilities: C1 - C5 -/

/-- C1: for a non-empty date string denoting the instant `t` and a current
instant `now`, `getDaysUntil` returns, with `d = ⌈(t - now) / 86400000⌉`,
"Overdue" if `d < 0`, "Today" if `d = 0`, "Tomorrow" if `d = 1`, and
otherwise the decimal of `d` followed by " days left". -/
theorem getDaysUntil_ceiling_cases (h : Host) (now t : Int) (s : String)
    (hs : s ≠ "") (ht : h.parseDate s = some t) :
    getDaysUntil h now (.str s) =
      (if ⌈((t - now : Int) : ℚ) / 86400000⌉ < 0 then "Overdue"
       else if ⌈((t - now : Int) : ℚ) / 86400000⌉ = 0 then "Today"
       else if ⌈((t - now : Int) : ℚ) / 86400000⌉ = 1 then "Tomorrow"
       else decimal ⌈((t - now : Int) : ℚ) / 86400000⌉ ++ " days left") := by
  have hc : mathCeilDiv (t - now) 86400000 = ⌈((t - now : Int) : ℚ) / 86400000⌉ := by
    have := mathCeilDiv_eq_ceil (t - now) 86400000
    simpa using this
  rw [getDaysUntil_of_instant h now t s hs ht, hc]

theorem getDaysUntil_ceiling_cases_witness :
    "2025-11-10T12:00:00.000Z" ≠ "" ∧
    sampleHost.parseDate "2025-11-10T12:00:00.000Z" = some 1762776000000 ∧
    getDaysUntil sampleHost sampleNow (.str "2025-11-10T12:00:00.000Z") =
      (if ⌈((1762776000000 - sampleNow : Int) : ℚ) / 86400000⌉ < 0 then "Overdue"
       else if ⌈((1762776000000 - sampleNow : Int) : ℚ) / 86400000⌉ = 0 then "Today"
       else if ⌈((1762776000000 - sampleNow : Int) : ℚ) / 86400000⌉ = 1 then "Tomorrow"
       else decimal ⌈((1762776000000 - sampleNow : Int) : ℚ) / 86400000⌉ ++ " days left") :=
  ⟨by decide, by decide,
    getDaysUntil_ceiling_cases sampleHost sampleNow 1762776000000 _ (by decide) (by decide)⟩

/-- C2: a target equal to `now` gives "Today"; every target `t` with
`0 < t - now ≤ 86400000` ms gives "Tomorrow"; no target strictly in the
future gives "Today". -/
theorem getDaysUntil_today_tomorrow (h : Host) (now t : Int) (s : String)
    (hs : s ≠ "") (ht : h.parseDate s = some t) :
    (t = now → getDaysUntil h now (.str s) = "Today") ∧
    (0 < t - now → t - now ≤ 86400000 → getDaysUntil h now (.str s) = "Tomorrow") ∧
    (now < t → getDaysUntil h now (.str s) ≠ "Today") := by
  rw [getDaysUntil_of_instant h now t s hs ht]
  unfold mathCeilDiv
  refine ⟨?_, ?_, ?_⟩
  · intro hEq
    subst hEq
    simp
  · intro h0 h1
    have hd : -(-(t - now) / 86400000) = 1 := by omega
    rw [hd]
    decide
  · intro hlt
    have hd : 1 ≤ -(-(t - now) / 86400000) := by omega
    rw [if_neg (by omega), if_neg (by omega)]
    split
    · decide
    · exact days_left_ne_today _

theorem getDaysUntil_today_tomorrow_witness :
    "2025-11-05T00:00:01.000Z" ≠ "" ∧
    sampleHost.parseDate "2025-11-05T00:00:01.000Z" = some 1762300801000 ∧
    getDaysUntil sampleHost sampleNow (.str "2025-11-05T00:00:01.000Z") = "Tomorrow" :=
  ⟨by decide, by decide,
    (getDaysUntil_today_tomorrow sampleHost sampleNow 1762300801000 _ (by decide) (by decide)).2.1
      (by decide) (by decide)⟩

/-- C3, as stated, fails: a target one hour before the current instant is
reported as "Today", not "Overdue". -/
theorem getDaysUntil_past_hour_is_today :
    sampleHost.parseDate "2025-11-04T23:00:00.000Z" = some 1762297200000 ∧
    (1762297200000 : Int) < sampleNow ∧
    getDaysUntil sampleHost sampleNow (.str "2025-11-04T23:00:00.000Z") = "Today" ∧
    getDaysUntil sampleHost sampleNow (.str "2025-11-04T23:00:00.000Z") ≠ "Overdue" := by
  decide

/-- C3, amended: a target at least one full day (86400000 ms) earlier than
`now` gives "Overdue"; a target earlier than `now` by less than one day gives
"Today". -/
theorem getDaysUntil_past (h : Host) (now t : Int) (s : String)
    (hs : s ≠ "") (ht : h.parseDate s = some t) :
    (t + 86400000 ≤ now → getDaysUntil h now (.str s) = "Overdue") ∧
    (t < now → now < t + 86400000 → getDaysUntil h now (.str s) = "Today") := by
  rw [getDaysUntil_of_instant h now t s hs ht]
  unfold mathCeilDiv
  refine ⟨?_, ?_⟩
  · intro hle
    rw [if_pos (by omega)]
  · intro h0 h1
    have hd : -(-(t - now) / 86400000) = 0 := by omega
    rw [hd]
    decide

theorem getDaysUntil_past_witness :
    "2025-11-03T00:00:00.000Z" ≠ "" ∧
    sampleHost.parseDate "2025-11-03T00:00:00.000Z" = some 1762128000000 ∧
    (1762128000000 : Int) + 86400000 ≤ sampleNow ∧
    getDaysUntil sampleHost sampleNow (.str "2025-11-03T00:00:00.000Z") = "Overdue" :=
  ⟨by decide, by decide, by decide,
    (getDaysUntil_past sampleHost sampleNow 1762128000000 _ (by decide) (by decide)).1
      (by decide)⟩

/-- C4: for a non-empty date string denoting the instant `t`, with
`e = now - t`, `getTimeAgo` returns "m minutes ago" with `m = ⌊e / 60000⌋`
when `m < 60`; otherwise "h hours ago" with `h = ⌊e / 3600000⌋` when
`h < 24`; otherwise "Yesterday" when `⌊e / 86400000⌋ = 1`; otherwise
"d days ago" with `d = ⌊e / 86400000⌋`. -/
theorem getTimeAgo_floor_cases (h : Host) (now t : Int) (s : String)
    (hs : s ≠ "") (ht : h.parseDate s = some t) :
    getTimeAgo h now (.str s) =
      (if ⌊((now - t : Int) : ℚ) / 60000⌋ < 60 then
        decimal ⌊((now - t : Int) : ℚ) / 60000⌋ ++ " minutes ago"
       else if ⌊((now - t : Int) : ℚ) / 3600000⌋ < 24 then
        decimal ⌊((now - t : Int) : ℚ) / 3600000⌋ ++ " hours ago"
       else if ⌊((now - t : Int) : ℚ) / 86400000⌋ = 1 then "Yesterday"
       else decimal ⌊((now - t : Int) : ℚ) / 86400000⌋ ++ " days ago") := by
  have hm : mathFloorDiv (now - t) 60000 = ⌊((now - t : Int) : ℚ) / 60000⌋ := by
    simpa using mathFloorDiv_eq_floor (now - t) 60000
  have hh : mathFloorDiv (now - t) 3600000 = ⌊((now - t : Int) : ℚ) / 3600000⌋ := by
    simpa using mathFloorDiv_eq_floor (now - t) 3600000
  have hd : mathFloorDiv (now - t) 86400000 = ⌊((now - t : Int) : ℚ) / 86400000⌋ := by
    simpa using mathFloorDiv_eq_floor (now - t) 86400000
  rw [getTimeAgo_of_instant h now t s hs ht, hm, hh, hd]

theorem getTimeAgo_floor_cases_witness :
    "2025-11-03T00:00:00.000Z" ≠ "" ∧
    sampleHost.parseDate "2025-11-03T00:00:00.000Z" = some 1762128000000 ∧
    getTimeAgo sampleHost sampleNow (.str "2025-11-03T00:00:00.000Z") =
      (if ⌊((sampleNow - 1762128000000 : Int) : ℚ) / 60000⌋ < 60 then
        decimal ⌊((sampleNow - 1762128000000 : Int) : ℚ) / 60000⌋ ++ " minutes ago"
       else if ⌊((sampleNow - 1762128000000 : Int) : ℚ) / 3600000⌋ < 24 then
        decimal ⌊((sampleNow - 1762128000000 : Int) : ℚ) / 3600000⌋ ++ " hours ago"
       else if ⌊((sampleNow - 1762128000000 : Int) : ℚ) / 86400000⌋ = 1 then "Yesterday"
       else decimal ⌊((sampleNow - 1762128000000 : Int) : ℚ) / 86400000⌋ ++ " days ago") :=
  ⟨by decide, by decide,
    getTimeAgo_floor_cases sampleHost sampleNow 1762128000000 _ (by decide) (by decide)⟩

/-- C5: each of `formatDate`, `formatDateShort`, `getDaysUntil` and
`getTimeAgo` returns the empty string on an empty or absent input (`null`,
`undefined`, the empty string), whatever the browser and the current time. -/
theorem empty_input_gives_empty_string (h : Host) (now : Int) :
    (formatDate h .null = "" ∧ formatDate h .undefined = "" ∧ formatDate h (.str "") = "") ∧
    (formatDateShort h .null = "" ∧ formatDateShort h .undefined = "" ∧
      formatDateShort h (.str "") = "") ∧
    (getDaysUntil h now .null = "" ∧ getDaysUntil h now .undefined = "" ∧
      getDaysUntil h now (.str "") = "") ∧
    (getTimeAgo h now .null = "" ∧ getTimeAgo h now .undefined = "" ∧
      getTimeAgo h now (.str "") = "") := by
  simp [formatDate, formatDateShort, getDaysUntil, getTimeAgo, DateField.falsy]

/-! ## Text lemmas -/

theorem startsWithChars_iff (n hay : List Char) :
    startsWithChars n hay = true ↔ ∃ suf, hay = n ++ suf := by
  induction n generalizing hay with
  | nil => simp [startsWithChars]
  | cons a n ih =>
    cases hay with
    | nil => simp [startsWithChars]
    | cons c cs =>
      simp only [startsWithChars, Bool.and_eq_true, beq_iff_eq, ih, List.cons_append,
        List.cons.injEq]
      constructor
      · rintro ⟨rfl, suf, rfl⟩
        exact ⟨suf, rfl, rfl⟩
      · rintro ⟨suf, rfl, rfl⟩
        exact ⟨rfl, suf, rfl⟩

theorem includesChars_iff (n hay : List Char) :
    includesChars n hay = true ↔ ∃ pre suf, hay = pre ++ n ++ suf := by
  induction hay with
  | nil =>
    simp only [includesChars, List.isEmpty_iff]
    constructor
    · rintro rfl
      exact ⟨[], [], rfl⟩
    · rintro ⟨pre, suf, hEq⟩
      have h1 := congrArg List.length hEq
      simp only [List.length_nil, List.length_append] at h1
      exact List.length_eq_zero.mp (by omega)
  | cons c cs ih =>
    simp only [includesChars, Bool.or_eq_true, startsWithChars_iff, ih]
    constructor
    · rintro (⟨suf, hEq⟩ | ⟨pre, suf, hEq⟩)
      · exact ⟨[], suf, by simpa using hEq⟩
      · exact ⟨c :: pre, suf, by simp [hEq]⟩
    · rintro ⟨pre, suf, hEq⟩
      cases pre with
      | nil => exact Or.inl ⟨suf, by simpa using hEq⟩
      | cons d pre =>
        simp only [List.cons_append, List.cons.injEq] at hEq
        exact Or.inr ⟨pre, suf, hEq.2⟩

theorem jsIncludes_iff_occurs (hay needle : String) :
    jsIncludes hay needle = true ↔ Occurs needle hay := by
  unfold jsIncludes Occurs
  rw [includesChars_iff]
  constructor
  · rintro ⟨pre, suf, hEq⟩
    refine ⟨String.mk pre, String.mk suf, ?_⟩
    apply String.ext
    simp [hEq]
  · rintro ⟨pre, suf, hEq⟩
    exact ⟨pre.data, suf.data, by simp [hEq]⟩

theorem occurs_refl (n : String) : Occurs n n := ⟨"", "", by simp⟩

theorem occurs_append_left {n a : String} (b : String) (hn : Occurs n a) : Occurs n (a ++ b) := by
  obtain ⟨pre, suf, rfl⟩ := hn
  exact ⟨pre, suf ++ b, by simp [String.append_assoc]⟩

theorem occurs_append_right {n b : String} (a : String) (hn : Occurs n b) : Occurs n (a ++ b) := by
  obtain ⟨pre, suf, rfl⟩ := hn
  exact ⟨a ++ pre, suf, by simp [String.append_assoc]⟩

theorem occurs_trans {a b c : String} (hab : Occurs a b) (hbc : Occurs b c) : Occurs a c := by
  obtain ⟨p1, s1, rfl⟩ := hab
  obtain ⟨p2, s2, rfl⟩ := hbc
  exact ⟨p2 ++ p1, s1 ++ s2, by simp [String.append_assoc]⟩

theorem occurs_join_of_mem {x : String} {xs : List String} (hx : x ∈ xs) :
    Occurs x (String.join xs) := by
  induction xs with
  | nil => cases hx
  | cons y ys ih =>
    have hj : String.join (y :: ys) = y ++ String.join ys := by
      apply String.ext
      simp [String.data_join]
    rw [hj]
    rcases List.mem_cons.mp hx with rfl | hmem
    · exact occurs_append_left _ (occurs_refl _)
    · exact occurs_append_right _ (ih hmem)

/-! ## Course codes -/

theorem splitChars_eq_splitOn (sep : Char) (l : List Char) :
    splitChars sep l = List.splitOn sep l := by
  induction l with
  | nil => simp [splitChars, List.splitOn]
  | cons c cs ih =>
    have hne : List.splitOn sep cs ≠ [] := by
      simp [List.splitOn, List.splitOnP_ne_nil]
    rw [splitChars, ih]
    simp only [List.splitOn] at hne ⊢
    rw [List.splitOnP_cons]
    by_cases hc : c = sep
    · simp [hc]
    · simp only [hc, if_false, beq_iff_eq]
      cases hs : List.splitOnP (fun x => x == sep) cs with
      | nil => exact absurd hs hne
      | cons w ws => simp [List.modifyHead]

theorem jsJoin_map_head (ws : List (List Char)) :
    jsJoin ((ws.map String.mk).map firstChar) =
      String.mk ((ws.filter (fun w => !w.isEmpty)).filterMap List.head?) := by
  unfold jsJoin
  congr 1
  induction ws with
  | nil => rfl
  | cons w ws ih =>
    cases w with
    | nil => simpa [firstChar] using ih
    | cons c w => simpa [firstChar] using ih

theorem courseCode_eq_spec (h : Host) (name : String) (id : Int) :
    courseCode h name id = courseCodeSpec h name id := by
  unfold courseCode courseCodeSpec jsSplit
  rw [jsJoin_map_head, splitChars_eq_splitOn]

theorem courseCode_occurs_announcementCard (h : Host) (m : SubjectMap) (a : Announcement) :
    Occurs (courseCode h (subjectName m a.subject_id) a.subject_id) (announcementCard h m a) := by
  unfold announcementCard
  simp only []
  repeat (first
    | exact occurs_append_right _ (occurs_refl _)
    | apply occurs_append_left)

theorem courseCode_occurs_materialCard (h : Host) (m : SubjectMap) (x : Material) :
    Occurs (courseCode h (subjectName m x.subject_id) x.subject_id) (materialCard h m x) := by
  unfold materialCard
  simp only []
  repeat (first
    | exact occurs_append_right _ (occurs_refl _)
    | apply occurs_append_left)

theorem courseCode_occurs_assignmentCard (h : Host) (now : Int) (m : SubjectMap)
    (x : Assignment) :
    Occurs (courseCode h (subjectName m x.subject_id) x.subject_id)
      (assignmentCard h now m x) := by
  unfold assignmentCard
  simp only []
  repeat (first
    | exact occurs_append_right _ (occurs_refl _)
    | apply occurs_append_left)

theorem courseCode_occurs_reminderCard (h : Host) (now : Int) (m : SubjectMap) (x : Reminder) :
    Occurs (courseCode h (subjectName m x.subject_id) x.subject_id) (reminderCard h now m x) := by
  unfold reminderCard
  simp only []
  repeat (first
    | exact occurs_append_right _ (occurs_refl _)
    | apply occurs_append_left)

theorem courseCode_occurs_subjectCard (h : Host) (draw : Fin 20) (index : Nat) (x : Subject) :
    Occurs (courseCode h x.name x.id) (subjectCard h draw index x) := by
  unfold subjectCard
  simp only []
  repeat (first
    | exact occurs_append_right _ (occurs_refl _)
    | apply occurs_append_left)

theorem courseCode_occurs_subjectOptions (h : Host) (subjects : List Subject) (x : Subject)
    (hx : x ∈ subjects) :
    Occurs (courseCode h x.name x.id ++ " - " ++ x.name) (subjectOptions h subjects) := by
  unfold subjectOptions
  refine occurs_trans ?_ (occurs_join_of_mem (List.mem_map_of_mem _ hx))
  simp only []
  refine occurs_append_left _ ?_
  refine ⟨"<option value=\"" ++ decimal x.id ++ "\">", "", ?_⟩
  simp [String.append_assoc]

/-! ## Subject labels -/

theorem foldl_subjectMap_absent (l : List Subject) (m : SubjectMap) (k : Int)
    (hk : ∀ s ∈ l, s.id ≠ k) :
    (l.foldl (fun (subjectMap : SubjectMap) s => fun k' =>
      if k' = s.id then some s.name else subjectMap k') m) k = m k := by
  induction l generalizing m with
  | nil => rfl
  | cons x xs ih =>
    rw [List.foldl_cons, ih _ (fun s hs => hk s (List.mem_cons_of_mem _ hs))]
    have hx : x.id ≠ k := hk x (List.mem_cons_self _ _)
    simp [Ne.symm hx]

theorem foldl_subjectMap_present (l : List Subject) (m : SubjectMap) (k : Int) (n : String)
    (hex : ∃ s ∈ l, s.id = k) (hall : ∀ s ∈ l, s.id = k → s.name = n) :
    (l.foldl (fun (subjectMap : SubjectMap) s => fun k' =>
      if k' = s.id then some s.name else subjectMap k') m) k = some n := by
  induction l generalizing m with
  | nil =>
    obtain ⟨s, hs, _⟩ := hex
    cases hs
  | cons x xs ih =>
    rw [List.foldl_cons]
    by_cases hxs : ∃ s ∈ xs, s.id = k
    · exact ih _ hxs (fun s hs => hall s (List.mem_cons_of_mem _ hs))
    · have habs : ∀ s ∈ xs, s.id ≠ k := fun s hs hEq => hxs ⟨s, hs, hEq⟩
      rw [foldl_subjectMap_absent xs _ k habs]
      obtain ⟨s, hs, hEq⟩ := hex
      rcases List.mem_cons.mp hs with rfl | hmem
      · simp [hEq, hall s (List.mem_cons_self _ _) hEq]
      · exact absurd hEq (habs s hmem)

theorem subjectName_absent (cache : List Subject) (sid : Int) (hk : ∀ s ∈ cache, s.id ≠ sid) :
    subjectName (buildSubjectMap cache) sid = "Subject " ++ decimal sid := by
  unfold subjectName buildSubjectMap
  rw [foldl_subjectMap_absent cache _ sid hk]
  rfl

theorem subjectName_present (cache : List Subject) (s : Subject) (hs : s ∈ cache)
    (hname : s.name ≠ "") (hall : ∀ s' ∈ cache, s'.id = s.id → s'.name = s.name) :
    subjectName (buildSubjectMap cache) s.id = s.name := by
  unfold subjectName buildSubjectMap
  rw [foldl_subjectMap_present cache _ s.id s.name ⟨s, hs, rfl⟩ hall]
  simp [orElse, hname]

/-! ## Renderers on an array cache -/

theorem renderAnnouncements_array (h : Host) (cache : List Subject) (items : List Announcement)
    (dom : Dom) (old : String) (hc : dom.getElementById "announcements-container" = some old)
    (hne : items ≠ []) :
    renderAnnouncements h (.array cache) (.array items) dom =
      .ok (dom.assign "announcements-container"
        (String.join (items.map (announcementCard h (buildSubjectMap cache))))) := by
  unfold renderAnnouncements
  rw [hc]
  simp [JsonValue.length, JsonValue.elements, hne, bind, Except.bind]

theorem renderMaterials_array (h : Host) (cache : List Subject) (items : List Material)
    (dom : Dom) (old : String) (hc : dom.getElementById "materials-container" = some old)
    (hne : items ≠ []) :
    renderMaterials h (.array cache) (.array items) dom =
      .ok (dom.assign "materials-container"
        (String.join (items.map (materialCard h (buildSubjectMap cache))))) := by
  unfold renderMaterials
  rw [hc]
  simp [JsonValue.length, JsonValue.elements, hne, bind, Except.bind]

theorem renderAssignments_array (h : Host) (now : Int) (cache : List Subject)
    (items : List Assignment) (dom : Dom) (old : String)
    (hc : dom.getElementById "assignments-container" = some old) (hne : items ≠ []) :
    renderAssignments h now (.array cache) (.array items) dom =
      .ok (dom.assign "assignments-container"
        (String.join (items.map (assignmentCard h now (buildSubjectMap cache))))) := by
  unfold renderAssignments
  rw [hc]
  simp [JsonValue.length, JsonValue.elements, hne, bind, Except.bind]

theorem renderReminders_array (h : Host) (now : Int) (cache : List Subject)
    (items : List Reminder) (dom : Dom) (old : String)
    (hc : dom.getElementById "reminders-container" = some old) (hne : items ≠ []) :
    renderReminders h now (.array cache) (.array items) dom =
      .ok (dom.assign "reminders-container"
        (String.join ((sortReminders h items).map (reminderCard h now (buildSubjectMap cache))))) := by
  unfold renderReminders
  rw [hc]
  simp [JsonValue.length, JsonValue.elements, hne, bind, Except.bind]

theorem mem_sortReminders (h : Host) (items : List Reminder) (x : Reminder) (hx : x ∈ items) :
    x ∈ sortReminders h items := by
  unfold sortReminders jsSort
  exact (List.perm_insertionSort _ items).mem_iff.mpr hx

theorem openAnnouncementModal_array (h : Host) (st : State) (items : List Subject)
    (hs : st.subjects = .array items) (hne : items ≠ []) :
    openAnnouncementModal h st =
      .ok (openModal "New Announcement" (announcementFormContent (subjectOptions h items)) st) := by
  unfold openAnnouncementModal
  rw [hs]
  simp only [JsonValue.length, JsonValue.elements, Option.some.injEq, List.length_eq_zero, hne,
    if_false]

theorem openMaterialModal_array (h : Host) (st : State) (items : List Subject)
    (hs : st.subjects = .array items) (hne : items ≠ []) :
    openMaterialModal h st =
      .ok (openModal "Upload Material" (materialFormContent (subjectOptions h items)) st) := by
  unfold openMaterialModal
  rw [hs]
  simp only [JsonValue.length, JsonValue.elements, Option.some.injEq, List.length_eq_zero, hne,
    if_false]

theorem openAssignmentModal_array (h : Host) (assignmentId : Option Int) (st : State)
    (items : List Subject) (hs : st.subjects = .array items) (hne : items ≠ []) :
    openAssignmentModal h assignmentId st =
      .ok (openModal (if idTruthy assignmentId then "Edit Assignment" else "Create Assignment")
        (assignmentFormContent (subjectOptions h items) assignmentId)
        { st with currentEditingId := assignmentId }) := by
  unfold openAssignmentModal
  rw [hs]
  simp only [JsonValue.length, JsonValue.elements, Option.some.injEq, List.length_eq_zero, hne,
    if_false]

theorem openReminderModal_array (h : Host) (st : State) (items : List Subject)
    (hs : st.subjects = .array items) (hne : items ≠ []) :
    openReminderModal h st =
      .ok (openModal "New Reminder" (reminderFormContent (subjectOptions h items)) st) := by
  unfold openReminderModal
  rw [hs]
  simp only [JsonValue.length, JsonValue.elements, Option.some.injEq, List.length_eq_zero, hne,
    if_false]

theorem occurs_announcementFormContent (opts : String) :
    Occurs opts (announcementFormContent opts) := by
  unfold announcementFormContent
  repeat (first
    | exact occurs_append_right _ (occurs_refl _)
    | apply occurs_append_left)

theorem occurs_materialFormContent (opts : String) : Occurs opts (materialFormContent opts) := by
  unfold materialFormContent
  repeat (first
    | exact occurs_append_right _ (occurs_refl _)
    | apply occurs_append_left)

theorem occurs_assignmentFormContent (opts : String) (assignmentId : Option Int) :
    Occurs opts (assignmentFormContent opts assignmentId) := by
  unfold assignmentFormContent
  repeat (first
    | exact occurs_append_right _ (occurs_refl _)
    | apply occurs_append_left)

theorem occurs_reminderFormContent (opts : String) : Occurs opts (reminderFormContent opts) := by
  unfold reminderFormContent
  repeat (first
    | exact occurs_append_right _ (occurs_refl _)
    | apply occurs_append_left)

/-! ## Subject labels and course codes: C6 - C8 -/

/-- C6: for every subject cache (a list of subjects) and every announcement,
material, assignment or reminder whose `subject_id` is not the id of any
cached subject, the resolved subject name is "Subject " followed by the
decimal `subject_id`, and rendering a list holding that record succeeds: the
container receives markup that holds the card of the record, whose course
code is derived from that label.  When the id is in the cache with a
non-empty name (the cached subjects with that id agreeing on it, as they do
when ids identify subjects), the resolved name is that subject's name. -/
theorem subject_label_resolution (h : Host) (now : Int) (cache : List Subject) (sid : Int)
    (dom : Dom) :
    ((∀ s ∈ cache, s.id ≠ sid) →
      subjectName (buildSubjectMap cache) sid = "Subject " ++ decimal sid ∧
      (∀ (items : List Announcement) (x : Announcement) (old : String),
        x ∈ items → x.subject_id = sid →
        dom.getElementById "announcements-container" = some old →
        ∃ html, renderAnnouncements h (.array cache) (.array items) dom =
            .ok (dom.assign "announcements-container" html) ∧
          Occurs (announcementCard h (buildSubjectMap cache) x) html ∧
          Occurs (courseCode h ("Subject " ++ decimal sid) sid)
            (announcementCard h (buildSubjectMap cache) x)) ∧
      (∀ (items : List Material) (x : Material) (old : String),
        x ∈ items → x.subject_id = sid →
        dom.getElementById "materials-container" = some old →
        ∃ html, renderMaterials h (.array cache) (.array items) dom =
            .ok (dom.assign "materials-container" html) ∧
          Occurs (materialCard h (buildSubjectMap cache) x) html ∧
          Occurs (courseCode h ("Subject " ++ decimal sid) sid)
            (materialCard h (buildSubjectMap cache) x)) ∧
      (∀ (items : List Assignment) (x : Assignment) (old : String),
        x ∈ items → x.subject_id = sid →
        dom.getElementById "assignments-container" = some old →
        ∃ html, renderAssignments h now (.array cache) (.array items) dom =
            .ok (dom.assign "assignments-container" html) ∧
          Occurs (assignmentCard h now (buildSubjectMap cache) x) html ∧
          Occurs (courseCode h ("Subject " ++ decimal sid) sid)
            (assignmentCard h now (buildSubjectMap cache) x)) ∧
      (∀ (items : List Reminder) (x : Reminder) (old : String),
        x ∈ items → x.subject_id = sid →
        dom.getElementById "reminders-container" = some old →
        ∃ html, renderReminders h now (.array cache) (.array items) dom =
            .ok (dom.assign "reminders-container" html) ∧
          Occurs (reminderCard h now (buildSubjectMap cache) x) html ∧
          Occurs (courseCode h ("Subject " ++ decimal sid) sid)
            (reminderCard h now (buildSubjectMap cache) x))) ∧
    (∀ s ∈ cache, s.id = sid → s.name ≠ "" →
      (∀ s' ∈ cache, s'.id = sid → s'.name = s.name) →
      subjectName (buildSubjectMap cache) sid = s.name) := by
  refine ⟨fun habs => ⟨subjectName_absent cache sid habs, ?_, ?_, ?_, ?_⟩, ?_⟩
  · intro items x old hx hsid hc
    have hne : items ≠ [] := List.ne_nil_of_mem hx
    refine ⟨_, renderAnnouncements_array h cache items dom old hc hne,
      occurs_join_of_mem (List.mem_map_of_mem _ hx), ?_⟩
    have hcode := courseCode_occurs_announcementCard h (buildSubjectMap cache) x
    rw [hsid, subjectName_absent cache sid habs] at hcode
    exact hcode
  · intro items x old hx hsid hc
    have hne : items ≠ [] := List.ne_nil_of_mem hx
    refine ⟨_, renderMaterials_array h cache items dom old hc hne,
      occurs_join_of_mem (List.mem_map_of_mem _ hx), ?_⟩
    have hcode := courseCode_occurs_materialCard h (buildSubjectMap cache) x
    rw [hsid, subjectName_absent cache sid habs] at hcode
    exact hcode
  · intro items x old hx hsid hc
    have hne : items ≠ [] := List.ne_nil_of_mem hx
    refine ⟨_, renderAssignments_array h now cache items dom old hc hne,
      occurs_join_of_mem (List.mem_map_of_mem _ hx), ?_⟩
    have hcode := courseCode_occurs_assignmentCard h now (buildSubjectMap cache) x
    rw [hsid, subjectName_absent cache sid habs] at hcode
    exact hcode
  · intro items x old hx hsid hc
    have hne : items ≠ [] := List.ne_nil_of_mem hx
    refine ⟨_, renderReminders_array h now cache items dom old hc hne,
      occurs_join_of_mem (List.mem_map_of_mem _ (mem_sortReminders h items x hx)), ?_⟩
    have hcode := courseCode_occurs_reminderCard h now (buildSubjectMap cache) x
    rw [hsid, subjectName_absent cache sid habs] at hcode
    exact hcode
  · intro s hs hsid hname hall
    subst hsid
    exact subjectName_present cache s hs hname hall

theorem subject_label_resolution_witness :
    (∀ s ∈ sampleSubjects, s.id ≠ 5) ∧
    subjectName (buildSubjectMap sampleSubjects) 5 = "Subject " ++ decimal 5 ∧
    (∃ html, renderAnnouncements sampleHost (.array sampleSubjects) (.array [orphanAnnouncement])
        sampleDom = .ok (sampleDom.assign "announcements-container" html) ∧
      Occurs (announcementCard sampleHost (buildSubjectMap sampleSubjects) orphanAnnouncement)
        html ∧
      Occurs (courseCode sampleHost ("Subject " ++ decimal 5) 5)
        (announcementCard sampleHost (buildSubjectMap sampleSubjects) orphanAnnouncement)) ∧
    subjectName (buildSubjectMap sampleSubjects) 3 = "Data Structures and Algorithms" :=
  ⟨by decide,
    ((subject_label_resolution sampleHost sampleNow sampleSubjects 5 sampleDom).1
      (by decide)).1,
    ((subject_label_resolution sampleHost sampleNow sampleSubjects 5 sampleDom).1
      (by decide)).2.1 [orphanAnnouncement] orphanAnnouncement "" (by decide) rfl (by decide),
    (subject_label_resolution sampleHost sampleNow sampleSubjects 3 sampleDom).2
      ⟨3, "Data Structures and Algorithms", "Prof. X"⟩ (by decide) rfl (by decide)
      (by decide)⟩

/-- C7, as stated, fails: the markup that `renderAnnouncements` produces for
an announcement of the missing subject 5 does not contain "Subject 5"; it
shows the course code "S5-105". -/
theorem orphan_announcement_markup_lacks_label :
    (∀ s ∈ sampleSubjects, s.id ≠ orphanAnnouncement.subject_id) ∧
    renderAnnouncements sampleHost (.array sampleSubjects) (.array [orphanAnnouncement])
        sampleDom =
      .ok (sampleDom.assign "announcements-container"
        (announcementCard sampleHost (buildSubjectMap sampleSubjects) orphanAnnouncement)) ∧
    jsIncludes (announcementCard sampleHost (buildSubjectMap sampleSubjects) orphanAnnouncement)
      "Subject 5" = false ∧
    jsIncludes (announcementCard sampleHost (buildSubjectMap sampleSubjects) orphanAnnouncement)
      "S5-105" = true := by
  set_option maxRecDepth 100000 in
  exact ⟨by decide, rfl, by decide, by decide⟩

/-- C7, amended: for every announcement whose `subject_id` is absent from the
subject cache, the markup produced by `renderAnnouncements` contains the
course code synthesized from the fallback label "Subject {subject_id}": its
upper-cased initials, "-" and the decimal of `100 + subject_id`. -/
theorem orphan_announcement_shows_fallback_code (h : Host) (cache : List Subject)
    (items : List Announcement) (x : Announcement) (dom : Dom) (old : String)
    (habs : ∀ s ∈ cache, s.id ≠ x.subject_id) (hx : x ∈ items)
    (hc : dom.getElementById "announcements-container" = some old) :
    ∃ html, renderAnnouncements h (.array cache) (.array items) dom =
        .ok (dom.assign "announcements-container" html) ∧
      jsIncludes html
        (courseCodeSpec h ("Subject " ++ decimal x.subject_id) x.subject_id) = true := by
  have hne : items ≠ [] := List.ne_nil_of_mem hx
  refine ⟨_, renderAnnouncements_array h cache items dom old hc hne, ?_⟩
  rw [jsIncludes_iff_occurs, ← courseCode_eq_spec]
  refine occurs_trans ?_ (occurs_join_of_mem (List.mem_map_of_mem _ hx))
  have hcode := courseCode_occurs_announcementCard h (buildSubjectMap cache) x
  rw [subjectName_absent cache x.subject_id habs] at hcode
  exact hcode

theorem orphan_announcement_shows_fallback_code_witness :
    (∀ s ∈ sampleSubjects, s.id ≠ orphanAnnouncement.subject_id) ∧
    orphanAnnouncement ∈ [orphanAnnouncement] ∧
    sampleDom.getElementById "announcements-container" = some "" ∧
    ∃ html, renderAnnouncements sampleHost (.array sampleSubjects) (.array [orphanAnnouncement])
        sampleDom = .ok (sampleDom.assign "announcements-container" html) ∧
      jsIncludes html (courseCodeSpec sampleHost
        ("Subject " ++ decimal orphanAnnouncement.subject_id) orphanAnnouncement.subject_id) =
        true :=
  ⟨by decide, by decide, by decide,
    orphan_announcement_shows_fallback_code sampleHost sampleSubjects [orphanAnnouncement]
      orphanAnnouncement sampleDom "" (by decide) (by decide) (by decide)⟩

/-! ## Course codes on code units -/

theorem splitUnits_eq_splitOn (sep : Nat) (l : List Nat) :
    splitUnits sep l = List.splitOn sep l := by
  induction l with
  | nil => simp [splitUnits, List.splitOn]
  | cons c cs ih =>
    have hne : List.splitOn sep cs ≠ [] := by
      simp [List.splitOn, List.splitOnP_ne_nil]
    rw [splitUnits, ih]
    simp only [List.splitOn] at hne ⊢
    rw [List.splitOnP_cons]
    by_cases hc : c = sep
    · simp [hc]
    · simp only [hc, if_false, beq_iff_eq]
      cases hs : List.splitOnP (fun x => x == sep) cs with
      | nil => exact absurd hs hne
      | cons w ws => simp [List.modifyHead]

theorem joinUnits_map_head (ws : List (List Nat)) :
    joinUnits (ws.map firstUnit) = (ws.filter (fun w => !w.isEmpty)).filterMap List.head? := by
  unfold joinUnits
  induction ws with
  | nil => rfl
  | cons w ws ih =>
    cases w with
    | nil => simpa [firstUnit] using ih
    | cons c w => simpa [firstUnit] using ih

theorem courseCodeUnits_eq_spec (upper : List Nat → List Nat) (name : List Nat) (id : Int) :
    courseCodeUnits upper name id = courseCodeUnitsSpec upper name id := by
  unfold courseCodeUnits courseCodeUnitsSpec
  rw [joinUnits_map_head, splitUnits_eq_splitOn]

theorem unitsOfChars_append (a b : List Char) :
    unitsOfChars (a ++ b) = unitsOfChars a ++ unitsOfChars b := by
  induction a with
  | nil => rfl
  | cons c cs ih => simp [unitsOfChars, ih, List.append_assoc]

theorem utf16_append (a b : String) : utf16 (a ++ b) = utf16 a ++ utf16 b := by
  unfold utf16
  rw [String.data_append, unitsOfChars_append]

theorem splitChars_ne_nil (sep : Char) (l : List Char) : splitChars sep l ≠ [] := by
  cases l with
  | nil => simp [splitChars]
  | cons c cs =>
    unfold splitChars
    split
    · simp
    · split <;> simp

theorem splitUnits_cons_of_ne (sep u : Nat) (us w : List Nat) (ws : List (List Nat))
    (hu : u ≠ sep) (hs : splitUnits sep us = w :: ws) :
    splitUnits sep (u :: us) = (u :: w) :: ws := by
  rw [splitUnits, if_neg hu, hs]

theorem toNat_ne_space (c : Char) (hc : c ≠ ' ') : c.toNat ≠ 32 := by
  intro h32
  apply hc
  have h1 : Char.ofNat c.toNat = c := Char.ofNat_toNat c
  rw [h32] at h1
  exact h1.symm

theorem splitUnits_unitsOfChars (l : List Char) :
    splitUnits 32 (unitsOfChars l) = (splitChars ' ' l).map unitsOfChars := by
  induction l with
  | nil => rfl
  | cons c cs ih =>
    by_cases hc : c = ' '
    · subst hc
      have hsp : unitsOfChars (' ' :: cs) = 32 :: unitsOfChars cs := rfl
      rw [hsp, splitUnits, if_pos rfl, ih, splitChars, if_pos rfl]
      rfl
    · have h32 := toNat_ne_space c hc
      cases hs : splitChars ' ' cs with
      | nil => exact absurd hs (splitChars_ne_nil _ _)
      | cons w ws =>
        rw [hs] at ih
        have hsplit : splitChars ' ' (c :: cs) = (c :: w) :: ws := by
          rw [splitChars, if_neg hc, hs]
        rw [hsplit]
        simp only [List.map_cons, unitsOfChars, charUnits] at ih ⊢
        by_cases hb : c.toNat < 65536
        · rw [if_pos hb]
          exact splitUnits_cons_of_ne 32 _ _ _ _ h32 ih
        · rw [if_neg hb]
          refine splitUnits_cons_of_ne 32 _ _ _ _ (by omega) ?_
          exact splitUnits_cons_of_ne 32 _ _ _ _ (by omega) ih

theorem firstUnit_of_bmp (c : Char) (w : List Char) (hc : c.toNat < 0x10000) :
    firstUnit (unitsOfChars (c :: w)) = some c.toNat := by
  simp [firstUnit, unitsOfChars, charUnits, hc]

theorem firstUnit_of_astral (c : Char) (w : List Char) (hc : 0x10000 ≤ c.toNat) :
    firstUnit (unitsOfChars (c :: w)) = some (0xD800 + (c.toNat - 0x10000) / 0x400) := by
  have hn : ¬ c.toNat < 65536 := by omega
  simp [firstUnit, unitsOfChars, charUnits, hn]

theorem joinUnits_of_bmp (ws : List (List Char))
    (hb : ws.all (fun w =>
      match w.head? with
      | some c => decide (c.toNat < 0x10000)
      | none => true) = true) :
    joinUnits ((ws.map unitsOfChars).map firstUnit) =
      utf16 (jsJoin ((ws.map String.mk).map firstChar)) := by
  unfold utf16 jsJoin joinUnits
  induction ws with
  | nil => rfl
  | cons w ws ih =>
    simp only [List.all_cons, Bool.and_eq_true] at hb
    have ih' := ih hb.2
    cases w with
    | nil => simpa [firstChar, firstUnit, unitsOfChars] using ih'
    | cons c w =>
      have hc : c.toNat < 65536 := by simpa using hb.1
      simp only [List.map_cons, List.foldr_cons, firstChar, List.head?_cons,
        firstUnit_of_bmp c w hc] at ih' ⊢
      simp only [unitsOfChars, charUnits, if_pos hc, List.singleton_append]
      exact congrArg _ ih'

theorem courseCode_units_of_bmp (h : Host) (upper : List Nat → List Nat) (n : String) (i : Int)
    (hb : bmpInitials n = true)
    (hup : upper (utf16 (jsJoin ((jsSplit n ' ').map firstChar))) =
      utf16 (h.toUpperCase (jsJoin ((jsSplit n ' ').map firstChar)))) :
    courseCodeUnits upper (utf16 n) i = utf16 (courseCode h n i) := by
  unfold courseCodeUnits courseCode
  rw [utf16_append, utf16_append, ← hup]
  unfold jsSplit
  rw [← joinUnits_of_bmp _ hb]
  unfold utf16
  rw [splitUnits_unitsOfChars]


/-- C8, as stated, fails: for the name "😀lab x" and the id 1 the
expression `w[0]` yields the first code unit of "😀lab", the lone high
surrogate D83D, so the course code consists of the code units D83D, "X", "-",
"1", "0", "1"; the first characters of the words give the text "😀X-101",
whose code units are D83D, DE00, "X", "-", "1", "0", "1". -/
theorem courseCode_lone_surrogate :
    courseCodeUnits asciiUpperUnits (utf16 "😀lab x") 1 = [0xD83D, 88, 45, 49, 48, 49] ∧
    courseCodeSpec sampleHost "😀lab x" 1 = "😀X-101" ∧
    utf16 (courseCodeSpec sampleHost "😀lab x" 1) = [0xD83D, 0xDE00, 88, 45, 49, 48, 49] ∧
    courseCodeUnits asciiUpperUnits (utf16 "😀lab x") 1 ≠
      utf16 (courseCodeSpec sampleHost "😀lab x" 1) := by
  rw [← courseCode_eq_spec]
  decide

/-- C8 (amended): for every name, as a sequence of UTF-16 code units, and
every id `i`, the synthesized course code is the upper-cased concatenation of
the first code unit of each non-empty space-separated word, followed by "-"
and the decimal of `100 + i`.  The first code unit of a word is its first
character when that character lies in the Basic Multilingual Plane, and only
the high surrogate of it otherwise.  For a name `n` whose words all begin in
the plane the code is therefore the text made of the upper-cased first
characters, "-" and `100 + i`; ("Data Structures and Algorithms", 3) gives
"DSAA-103"; and for such names the cards of all five renderers and the
options of all four subject drop-downs show that code. -/
theorem courseCode_formula (h : Host) (upper : List Nat → List Nat) (units : List Nat)
    (n : String) (i : Int) :
    courseCodeUnits upper units i = courseCodeUnitsSpec upper units i ∧
    (∀ (c : Char) (w : List Char),
      (c.toNat < 0x10000 → firstUnit (utf16 (String.mk (c :: w))) = some c.toNat) ∧
      (0x10000 ≤ c.toNat →
        firstUnit (utf16 (String.mk (c :: w))) = some (0xD800 + (c.toNat - 0x10000) / 0x400))) ∧
    (bmpInitials n = true →
      upper (utf16 (jsJoin ((jsSplit n ' ').map firstChar))) =
        utf16 (h.toUpperCase (jsJoin ((jsSplit n ' ').map firstChar))) →
      courseCodeUnits upper (utf16 n) i = utf16 (courseCode h n i) ∧
      courseCode h n i = courseCodeSpec h n i) ∧
    (courseCodeUnits asciiUpperUnits (utf16 "Data Structures and Algorithms") 3 =
        utf16 "DSAA-103" ∧
      courseCode sampleHost "Data Structures and Algorithms" 3 = "DSAA-103") ∧
    (∀ (draw : Fin 20) (index : Nat) (s : Subject), bmpInitials s.name = true →
      Occurs (courseCodeSpec h s.name s.id) (subjectCard h draw index s)) ∧
    (∀ (m : SubjectMap) (x : Announcement), bmpInitials (subjectName m x.subject_id) = true →
      Occurs (courseCodeSpec h (subjectName m x.subject_id) x.subject_id)
        (announcementCard h m x)) ∧
    (∀ (m : SubjectMap) (x : Material), bmpInitials (subjectName m x.subject_id) = true →
      Occurs (courseCodeSpec h (subjectName m x.subject_id) x.subject_id)
        (materialCard h m x)) ∧
    (∀ (now : Int) (m : SubjectMap) (x : Assignment),
      bmpInitials (subjectName m x.subject_id) = true →
      Occurs (courseCodeSpec h (subjectName m x.subject_id) x.subject_id)
        (assignmentCard h now m x)) ∧
    (∀ (now : Int) (m : SubjectMap) (x : Reminder),
      bmpInitials (subjectName m x.subject_id) = true →
      Occurs (courseCodeSpec h (subjectName m x.subject_id) x.subject_id)
        (reminderCard h now m x)) ∧
    (∀ (st : State) (items : List Subject) (assignmentId : Option Int) (s : Subject),
      st.subjects = .array items → s ∈ items → bmpInitials s.name = true →
      (∃ st', openAnnouncementModal h st = .ok st' ∧
        Occurs (courseCodeSpec h s.name s.id ++ " - " ++ s.name) st'.modal.body) ∧
      (∃ st', openMaterialModal h st = .ok st' ∧
        Occurs (courseCodeSpec h s.name s.id ++ " - " ++ s.name) st'.modal.body) ∧
      (∃ st', openAssignmentModal h assignmentId st = .ok st' ∧
        Occurs (courseCodeSpec h s.name s.id ++ " - " ++ s.name) st'.modal.body) ∧
      (∃ st', openReminderModal h st = .ok st' ∧
        Occurs (courseCodeSpec h s.name s.id ++ " - " ++ s.name) st'.modal.body)) := by
  refine ⟨courseCodeUnits_eq_spec upper units i,
    fun c w => ⟨firstUnit_of_bmp c w, firstUnit_of_astral c w⟩,
    fun hb hup => ⟨courseCode_units_of_bmp h upper n i hb hup, courseCode_eq_spec h n i⟩,
    ⟨by decide, by decide⟩, ?_, ?_, ?_, ?_, ?_, ?_⟩
  · intro draw index s _
    rw [← courseCode_eq_spec]
    exact courseCode_occurs_subjectCard h draw index s
  · intro m x _
    rw [← courseCode_eq_spec]
    exact courseCode_occurs_announcementCard h m x
  · intro m x _
    rw [← courseCode_eq_spec]
    exact courseCode_occurs_materialCard h m x
  · intro now m x _
    rw [← courseCode_eq_spec]
    exact courseCode_occurs_assignmentCard h now m x
  · intro now m x _
    rw [← courseCode_eq_spec]
    exact courseCode_occurs_reminderCard h now m x
  · intro st items assignmentId s hs hmem _
    have hne : items ≠ [] := List.ne_nil_of_mem hmem
    have hopt := courseCode_occurs_subjectOptions h items s hmem
    rw [courseCode_eq_spec] at hopt
    refine ⟨⟨_, openAnnouncementModal_array h st items hs hne, ?_⟩,
      ⟨_, openMaterialModal_array h st items hs hne, ?_⟩,
      ⟨_, openAssignmentModal_array h assignmentId st items hs hne, ?_⟩,
      ⟨_, openReminderModal_array h st items hs hne, ?_⟩⟩
    · exact occurs_trans hopt (occurs_announcementFormContent _)
    · exact occurs_trans hopt (occurs_materialFormContent _)
    · exact occurs_trans hopt (occurs_assignmentFormContent _ _)
    · exact occurs_trans hopt (occurs_reminderFormContent _)

theorem courseCode_formula_witness :
    (bmpInitials "Data Structures and Algorithms" = true ∧
      asciiUpperUnits
          (utf16 (jsJoin ((jsSplit "Data Structures and Algorithms" ' ').map firstChar))) =
        utf16 (sampleHost.toUpperCase
          (jsJoin ((jsSplit "Data Structures and Algorithms" ' ').map firstChar)))) ∧
    (courseCodeUnits asciiUpperUnits (utf16 "Data Structures and Algorithms") 3 =
        utf16 (courseCode sampleHost "Data Structures and Algorithms" 3) ∧
      courseCode sampleHost "Data Structures and Algorithms" 3 =
        courseCodeSpec sampleHost "Data Structures and Algorithms" 3) ∧
    (sampleState.subjects = .array sampleSubjects ∧
      (⟨3, "Data Structures and Algorithms", "Prof. X"⟩ : Subject) ∈ sampleSubjects ∧
      ∃ st', openAnnouncementModal sampleHost sampleState = .ok st' ∧
        Occurs (courseCodeSpec sampleHost "Data Structures and Algorithms" 3 ++ " - " ++
          "Data Structures and Algorithms") st'.modal.body) :=
  ⟨⟨by decide, by decide⟩,
    (courseCode_formula sampleHost asciiUpperUnits [] "Data Structures and Algorithms" 3).2.2.1
      (by decide) (by decide),
    ⟨rfl, by decide,
      ((courseCode_formula sampleHost asciiUpperUnits [] "Data Structures and Algorithms"
        3).2.2.2.2.2.2.2.2.2
        sampleState sampleSubjects none ⟨3, "Data Structures and Algorithms", "Prof. X"⟩ rfl
        (by decide) (by decide)).1⟩⟩

/-! ## Effects of the loaders -/

theorem requests_emit_alert (st : State) (msg : String) :
    (st.emit (.alert msg)).requests = st.requests := by
  simp [State.requests, State.emit, List.filter_append]

theorem effects_emit (st : State) (e : Effect) : (st.emit e).effects = st.effects ++ [e] := rfl

theorem loadSubjects_effects (env : Env) (st : State) :
    ∃ rest, (loadSubjects env st).effects = st.effects ++ rest := by
  unfold loadSubjects
  cases env.net.subject with
  | rejected => exact ⟨_, by simp only [effects_emit, List.append_assoc]; rfl⟩
  | response ok body =>
    cases body with
    | none => exact ⟨_, by simp only [effects_emit, List.append_assoc]; rfl⟩
    | some body =>
      simp only []
      split
      · exact ⟨_, by simp only [effects_emit, List.append_assoc]; rfl⟩
      · exact ⟨_, by simp only [updateSubjectStats, effects_emit]; rfl⟩

theorem loadDashboardStats_effects (env : Env) (st : State) :
    ∃ rest, (loadDashboardStats env st).effects = st.effects ++ rest := by
  unfold loadDashboardStats
  simp only []
  split
  · exact ⟨_, by simp only [effects_emit, List.append_assoc]; rfl⟩
  · exact ⟨_, by simp only [effects_emit, List.append_assoc]; rfl⟩

/-! ## Form validation: C9 - C10 -/

/-- C9: when the name or the teacher of a submitted subject form is empty
after trimming, `saveSubject` only raises its alert: it issues no network
request and leaves the dialog, the editing-id slot and the subject cache as
they were.  A request is issued only when both trimmed fields are non-empty,
and then it is issued, with those trimmed values as its body. -/
theorem saveSubject_validation (env : Env) (nameField teacherField : String) (st : State) :
    (jsTrim nameField = "" ∨ jsTrim teacherField = "" →
      saveSubject env nameField teacherField st =
        st.emit (.alert "Both name and teacher are required") ∧
      (saveSubject env nameField teacherField st).requests = st.requests ∧
      (saveSubject env nameField teacherField st).modal = st.modal ∧
      (saveSubject env nameField teacherField st).currentEditingId = st.currentEditingId ∧
      (saveSubject env nameField teacherField st).subjects = st.subjects) ∧
    ((saveSubject env nameField teacherField st).requests ≠ st.requests →
      jsTrim nameField ≠ "" ∧ jsTrim teacherField ≠ "") ∧
    (jsTrim nameField ≠ "" → jsTrim teacherField ≠ "" →
      ∃ method url rest, (saveSubject env nameField teacherField st).effects =
        st.effects ++ Effect.fetch method url
          (some [("name", jsTrim nameField), ("teacher", jsTrim teacherField)]) :: rest) := by
  have hblank : jsTrim nameField = "" ∨ jsTrim teacherField = "" →
      saveSubject env nameField teacherField st =
        st.emit (.alert "Both name and teacher are required") := by
    intro hb
    unfold saveSubject
    simp only []
    rw [if_pos hb]
  refine ⟨fun hb => ?_, fun hreq => ?_, fun hn ht => ?_⟩
  · rw [hblank hb]
    exact ⟨rfl, requests_emit_alert st _, rfl, rfl, rfl⟩
  · by_contra hcon
    have hb : jsTrim nameField = "" ∨ jsTrim teacherField = "" := by
      by_cases h1 : jsTrim nameField = ""
      · exact Or.inl h1
      · by_cases h2 : jsTrim teacherField = ""
        · exact Or.inr h2
        · exact absurd ⟨h1, h2⟩ hcon
    rw [hblank hb] at hreq
    exact hreq (requests_emit_alert st _)
  · refine ⟨if idTruthy st.currentEditingId then "PUT" else "POST",
      if idTruthy st.currentEditingId then
        env.origin ++ "/subject/" ++ decimal (st.currentEditingId.getD 0)
      else env.origin ++ "/subject", ?_⟩
    generalize hreq : Effect.fetch (if idTruthy st.currentEditingId then "PUT" else "POST")
      (if idTruthy st.currentEditingId then
        env.origin ++ "/subject/" ++ decimal (st.currentEditingId.getD 0)
      else env.origin ++ "/subject")
      (some [("name", jsTrim nameField), ("teacher", jsTrim teacherField)]) = req
    have hrun : saveSubject env nameField teacherField st =
        (match env.net.mutation with
        | .rejected =>
          ((st.emit req).emit (.consoleError "Error saving subject:")).emit
            (.alert "Failed to save subject")
        | .response true _ =>
          if env.pathname = "/" then
            loadDashboardStats env (loadSubjects env (closeModal (st.emit req)))
          else loadSubjects env (closeModal (st.emit req))
        | .response false none =>
          ((st.emit req).emit (.consoleError "Error saving subject:")).emit
            (.alert "Failed to save subject")
        | .response false (some error) =>
          (st.emit req).emit (.alert (errorMessage error "Failed to save subject"))) := by
      unfold saveSubject
      simp only []
      rw [if_neg (by simp [hn, ht]), hreq]
    rw [hrun]
    obtain ⟨r1, h1⟩ := loadSubjects_effects env (closeModal (st.emit req))
    obtain ⟨r2, h2⟩ := loadDashboardStats_effects env
      (loadSubjects env (closeModal (st.emit req)))
    have hclose : (closeModal (st.emit req)).effects = st.effects ++ [req] := rfl
    split
    · exact ⟨_, by simp only [effects_emit, List.append_assoc, List.singleton_append]; rfl⟩
    · split
      · exact ⟨r1 ++ r2, by rw [h2, h1, hclose]; simp⟩
      · exact ⟨r1, by rw [h1, hclose]; simp⟩
    · exact ⟨_, by simp only [effects_emit, List.append_assoc, List.singleton_append]; rfl⟩
    · exact ⟨_, by simp only [effects_emit, List.append_assoc, List.singleton_append]; rfl⟩

theorem saveSubject_validation_witness :
    (jsTrim "   " = "" ∨ jsTrim "Prof. X" = "") ∧
    (saveSubject sampleEnv "   " "Prof. X" sampleState =
        sampleState.emit (.alert "Both name and teacher are required") ∧
      (saveSubject sampleEnv "   " "Prof. X" sampleState).requests = sampleState.requests ∧
      (saveSubject sampleEnv "   " "Prof. X" sampleState).modal = sampleState.modal ∧
      (saveSubject sampleEnv "   " "Prof. X" sampleState).currentEditingId =
        sampleState.currentEditingId ∧
      (saveSubject sampleEnv "   " "Prof. X" sampleState).subjects = sampleState.subjects) ∧
    (saveSubject sampleEnv " Algebra " "Prof. X" sampleState).requests ≠ sampleState.requests ∧
    (jsTrim " Algebra " ≠ "" ∧ jsTrim "Prof. X" ≠ "") ∧
    (∃ method url rest, (saveSubject sampleEnv " Algebra " "Prof. X" sampleState).effects =
      sampleState.effects ++ Effect.fetch method url
        (some [("name", jsTrim " Algebra "), ("teacher", jsTrim "Prof. X")]) :: rest) :=
  ⟨by decide,
    (saveSubject_validation sampleEnv "   " "Prof. X" sampleState).1 (by decide),
    by decide,
    (saveSubject_validation sampleEnv " Algebra " "Prof. X" sampleState).2.1 (by decide),
    (saveSubject_validation sampleEnv " Algebra " "Prof. X" sampleState).2.2 (by decide)
      (by decide)⟩

/-- C10 fails on the code: each of the five other submit handlers, run on a
form whose required text field holds only blanks (which passes the `required`
attribute of the field and is empty after trimming), still issues its POST
request, with the empty text in the body. -/
theorem blank_required_field_still_posts :
    jsTrim "   " = "" ∧
    (saveAnnouncement sampleEnv "1" "   " "Bring a pen" sampleState).requests =
      [.fetch "POST" "http://localhost:5000/subject/1/announcement"
        (some [("title", ""), ("content", "Bring a pen")])] ∧
    (saveMaterial sampleEnv "1" "   " "Slides" "a.pdf" sampleState).requests =
      [.fetch "POST" "http://localhost:5000/subject/1/materials"
        (some [("title", ""), ("description", "Slides"), ("file_url", "a.pdf")])] ∧
    (saveAssignment sampleEnv "1" "   " "Read chapter 2" "2025-11-10" sampleState).requests =
      [.fetch "POST" "http://localhost:5000/subject/1/assignments"
        (some [("title", ""), ("instructions", "Read chapter 2"), ("due_date", "2025-11-10")])] ∧
    (saveReminder sampleEnv "1" "   " "2025-11-10T12:00" sampleState).requests =
      [.fetch "POST" "http://localhost:5000/subject/1/reminders"
        (some [("message", ""), ("remind_at", "2025-11-10T12:00")])] ∧
    (addComment sampleEnv "Prof. Martinez" "   " 7 sampleState).requests =
      [.fetch "POST" "http://localhost:5000/announcement/7/comments"
        (some [("user", "Prof. Martinez"), ("content", "")])] := by
  decide

/-! ## Frame lemmas of the loaders -/

theorem requests_emit_fetch (st : State) (method url : String)
    (body : Option (List (String × String))) :
    (st.emit (.fetch method url body)).requests = st.requests ++ [.fetch method url body] := by
  simp [State.requests, State.emit, List.filter_append]

theorem requests_emit_console (st : State) (msg : String) :
    (st.emit (.consoleError msg)).requests = st.requests := by
  simp [State.requests, State.emit, List.filter_append]

theorem alerts_emit_fetch (st : State) (method url : String)
    (body : Option (List (String × String))) :
    (st.emit (.fetch method url body)).alerts = st.alerts := by
  simp [State.alerts, State.emit, List.filterMap_append]

theorem alerts_emit_console (st : State) (msg : String) :
    (st.emit (.consoleError msg)).alerts = st.alerts := by
  simp [State.alerts, State.emit, List.filterMap_append]

theorem alerts_emit_alert (st : State) (msg : String) :
    (st.emit (.alert msg)).alerts = st.alerts ++ [msg] := by
  simp [State.alerts, State.emit, List.filterMap_append]

theorem loadSubjects_frame (env : Env) (st : State) :
    (loadSubjects env st).modal = st.modal ∧
    (loadSubjects env st).currentEditingId = st.currentEditingId ∧
    (loadSubjects env st).requests =
      st.requests ++ [.fetch "GET" (env.origin ++ "/subject") none] ∧
    (loadSubjects env st).alerts = st.alerts := by
  unfold loadSubjects
  simp only []
  repeat' split
  all_goals
    simp [updateSubjectStats, requests_emit_fetch, requests_emit_console, alerts_emit_fetch,
      alerts_emit_console, State.requests, State.alerts, State.emit, List.filter_append,
      List.filterMap_append]

theorem loadDashboardStats_frame (env : Env) (st : State) :
    (loadDashboardStats env st).modal = st.modal ∧
    (loadDashboardStats env st).currentEditingId = st.currentEditingId ∧
    (loadDashboardStats env st).subjects = st.subjects ∧
    (loadDashboardStats env st).requests = st.requests ++ dashboardRequests env.origin ∧
    (loadDashboardStats env st).alerts = st.alerts := by
  unfold loadDashboardStats
  simp only []
  repeat' split
  all_goals
    simp [requests_emit_fetch, requests_emit_console, alerts_emit_fetch,
      alerts_emit_console, State.requests, State.alerts, State.emit, List.filter_append,
      List.filterMap_append, dashboardRequests]

theorem loadLatestActivity_frame (env : Env) (st : State) :
    (loadLatestActivity env st).modal = st.modal ∧
    (loadLatestActivity env st).currentEditingId = st.currentEditingId ∧
    (loadLatestActivity env st).subjects = st.subjects ∧
    (loadLatestActivity env st).requests = st.requests ++ [.fetch "GET" (env.origin ++ "/feed/latest") none] ∧
    (loadLatestActivity env st).alerts = st.alerts := by
  unfold loadLatestActivity
  simp only []
  repeat' split
  all_goals
    simp [requests_emit_fetch, requests_emit_console, alerts_emit_fetch,
      alerts_emit_console, State.requests, State.alerts, State.emit, List.filter_append,
      List.filterMap_append, dashboardRequests]

theorem loadUpcomingDeadlines_frame (env : Env) (st : State) :
    (loadUpcomingDeadlines env st).modal = st.modal ∧
    (loadUpcomingDeadlines env st).currentEditingId = st.currentEditingId ∧
    (loadUpcomingDeadlines env st).subjects = st.subjects ∧
    (loadUpcomingDeadlines env st).requests = st.requests ++ [.fetch "GET" (env.origin ++ "/feed/upcoming-deadlines") none] ∧
    (loadUpcomingDeadlines env st).alerts = st.alerts := by
  unfold loadUpcomingDeadlines
  simp only []
  repeat' split
  all_goals
    simp [requests_emit_fetch, requests_emit_console, alerts_emit_fetch,
      alerts_emit_console, State.requests, State.alerts, State.emit, List.filter_append,
      List.filterMap_append, dashboardRequests]

theorem loadAnnouncements_frame (env : Env) (st : State) :
    (loadAnnouncements env st).modal = st.modal ∧
    (loadAnnouncements env st).currentEditingId = st.currentEditingId ∧
    (loadAnnouncements env st).subjects = st.subjects ∧
    (loadAnnouncements env st).requests = st.requests ++ [.fetch "GET" (env.origin ++ "/announcement") none] ∧
    (loadAnnouncements env st).alerts = st.alerts := by
  unfold loadAnnouncements
  simp only []
  cases env.net.announcement with
  | rejected =>
    simp [caught, withDom, JsonValue.elements, requests_emit_fetch, requests_emit_console,
        alerts_emit_fetch, alerts_emit_console, State.requests, State.alerts, State.emit,
        List.filter_append, List.filterMap_append]
  | response ok body =>
    cases body with
    | none =>
      simp [caught, withDom, JsonValue.elements, requests_emit_fetch, requests_emit_console,
        alerts_emit_fetch, alerts_emit_console, State.requests, State.alerts, State.emit,
        List.filter_append, List.filterMap_append]
    | some b =>
      simp only []
      generalize renderAnnouncements _ _ _ _ = r

      cases r <;> cases b <;>
      simp [caught, withDom, JsonValue.elements, requests_emit_fetch, requests_emit_console,
        alerts_emit_fetch, alerts_emit_console, State.requests, State.alerts, State.emit,
        List.filter_append, List.filterMap_append]

theorem loadMaterials_frame (env : Env) (st : State) :
    (loadMaterials env st).modal = st.modal ∧
    (loadMaterials env st).currentEditingId = st.currentEditingId ∧
    (loadMaterials env st).subjects = st.subjects ∧
    (loadMaterials env st).requests = st.requests ++ [.fetch "GET" (env.origin ++ "/material") none] ∧
    (loadMaterials env st).alerts = st.alerts := by
  unfold loadMaterials
  simp only []
  cases env.net.material with
  | rejected =>
    simp [caught, withDom, JsonValue.elements, requests_emit_fetch, requests_emit_console,
        alerts_emit_fetch, alerts_emit_console, State.requests, State.alerts, State.emit,
        List.filter_append, List.filterMap_append]
  | response ok body =>
    cases body with
    | none =>
      simp [caught, withDom, JsonValue.elements, requests_emit_fetch, requests_emit_console,
        alerts_emit_fetch, alerts_emit_console, State.requests, State.alerts, State.emit,
        List.filter_append, List.filterMap_append]
    | some b =>
      simp only []
      generalize renderMaterials _ _ _ _ = r

      cases r <;> cases b <;>
      simp [caught, withDom, JsonValue.elements, requests_emit_fetch, requests_emit_console,
        alerts_emit_fetch, alerts_emit_console, State.requests, State.alerts, State.emit,
        List.filter_append, List.filterMap_append, updateMaterialStats]

theorem loadAssignments_frame (env : Env) (st : State) :
    (loadAssignments env st).modal = st.modal ∧
    (loadAssignments env st).currentEditingId = st.currentEditingId ∧
    (loadAssignments env st).subjects = st.subjects ∧
    (loadAssignments env st).requests = st.requests ++ [.fetch "GET" (env.origin ++ "/assignment") none] ∧
    (loadAssignments env st).alerts = st.alerts := by
  unfold loadAssignments
  simp only []
  cases env.net.assignment with
  | rejected =>
    simp [caught, withDom, JsonValue.elements, requests_emit_fetch, requests_emit_console,
        alerts_emit_fetch, alerts_emit_console, State.requests, State.alerts, State.emit,
        List.filter_append, List.filterMap_append]
  | response ok body =>
    cases body with
    | none =>
      simp [caught, withDom, JsonValue.elements, requests_emit_fetch, requests_emit_console,
        alerts_emit_fetch, alerts_emit_console, State.requests, State.alerts, State.emit,
        List.filter_append, List.filterMap_append]
    | some b =>
      simp only []
      generalize renderAssignments _ _ _ _ _ = r

      cases r <;> cases b <;>
      simp [caught, withDom, JsonValue.elements, requests_emit_fetch, requests_emit_console,
        alerts_emit_fetch, alerts_emit_console, State.requests, State.alerts, State.emit,
        List.filter_append, List.filterMap_append, updateAssignmentStats]

theorem loadReminders_frame (env : Env) (st : State) :
    (loadReminders env st).modal = st.modal ∧
    (loadReminders env st).currentEditingId = st.currentEditingId ∧
    (loadReminders env st).subjects = st.subjects ∧
    (loadReminders env st).requests = st.requests ++ [.fetch "GET" (env.origin ++ "/reminder") none] ∧
    (loadReminders env st).alerts = st.alerts := by
  unfold loadReminders
  simp only []
  cases env.net.reminder with
  | rejected =>
    simp [caught, withDom, JsonValue.elements, requests_emit_fetch, requests_emit_console,
        alerts_emit_fetch, alerts_emit_console, State.requests, State.alerts, State.emit,
        List.filter_append, List.filterMap_append]
  | response ok body =>
    cases body with
    | none =>
      simp [caught, withDom, JsonValue.elements, requests_emit_fetch, requests_emit_console,
        alerts_emit_fetch, alerts_emit_console, State.requests, State.alerts, State.emit,
        List.filter_append, List.filterMap_append]
    | some b =>
      simp only []
      generalize renderReminders _ _ _ _ _ = r
      generalize remindersAfterRender _ _ _ _ = b'
      cases r <;> cases b' <;>
      simp [caught, withDom, JsonValue.elements, requests_emit_fetch, requests_emit_console,
        alerts_emit_fetch, alerts_emit_console, State.requests, State.alerts, State.emit,
        List.filter_append, List.filterMap_append, updateReminderStats]

/-! ## Document lemmas -/

theorem getElementById_cons (e : String × String) (rest : Dom) (id' : String) :
    Dom.getElementById (e :: rest) id' =
      if e.1 = id' then some e.2 else Dom.getElementById rest id' := by
  unfold Dom.getElementById
  by_cases h : e.1 = id'
  · simp [List.find?_cons, h]
  · simp [List.find?_cons, h]

theorem assign_cons (e : String × String) (rest : Dom) (id v : String) :
    Dom.assign (e :: rest) id v =
      (if e.1 = id then (e.1, v) else e) :: Dom.assign rest id v := by
  unfold Dom.assign
  by_cases h : e.1 = id
  · simp [h]
  · simp [h]

theorem getElementById_assign (dom : Dom) (id id' v : String) :
    (dom.assign id v).getElementById id' =
      if id' = id then (dom.getElementById id').map (fun _ => v) else dom.getElementById id' := by
  induction dom with
  | nil => simp [Dom.assign, Dom.getElementById]
  | cons e rest ih =>
    rw [assign_cons, getElementById_cons, getElementById_cons, ih]
    by_cases he : e.1 = id
    · by_cases hid : id' = id
      · simp [he, hid]
      · have hne : ¬ id = id' := fun hEq => hid hEq.symm
        simp [he, hid, hne]
    · by_cases hid : e.1 = id'
      · have hne : ¬ id' = id := fun hEq => he (hid.trans hEq)
        simp [he, hid, hne]
      · by_cases hid2 : id' = id
        · simp [he, hid, hid2]
        · simp [he, hid, hid2]

theorem countsAsPdf_eq (m : Material) :
    (!truthy m.file_url || jsIncludes (m.file_url.getD "") ".pdf") = countsAsPdf m := by
  unfold countsAsPdf truthy
  cases hm : m.file_url with
  | none => simp
  | some url =>
    have hb : (!(url != "")) = (url == "") := by
      by_cases hu : url = ""
      · simp [hu]
      · simp [hu, bne, beq_eq_false_iff_ne.mpr hu]
    simp [hb]

/-! ## Counters: C15 - C17 -/

/-- C15: for every list of materials, `updateMaterialStats` sets the total
counter to the length of the list, the PDF counter to the number of entries
that have no `file_url` or whose `file_url` contains ".pdf", and the Video
counter to the number of remaining entries, so PDF + Video equals the total;
for the materials `a.pdf`, `b.mp4` and one without URL it shows PDF = 2 and
Video = 1. -/
theorem updateMaterialStats_counts (items : List Material) (st : State) :
    (∃ st', updateMaterialStats (.array items) st = .ok st' ∧
      st'.dom.getElementById "total-materials" =
        (st.dom.getElementById "total-materials").map (fun _ => decimal items.length) ∧
      st'.dom.getElementById "total-pdfs" =
        (st.dom.getElementById "total-pdfs").map
          (fun _ => decimal (items.filter countsAsPdf).length) ∧
      st'.dom.getElementById "total-videos" =
        (st.dom.getElementById "total-videos").map
          (fun _ => decimal (items.filter (fun m => !countsAsPdf m)).length)) ∧
    (items.filter countsAsPdf).length + (items.filter (fun m => !countsAsPdf m)).length =
      items.length ∧
    (stateAfter (updateMaterialStats (.array sampleMaterials)
        { sampleState with dom := materialsStatsDom })).dom.getElementById "total-pdfs" =
      some "2" ∧
    (stateAfter (updateMaterialStats (.array sampleMaterials)
        { sampleState with dom := materialsStatsDom })).dom.getElementById "total-videos" =
      some "1" ∧
    (stateAfter (updateMaterialStats (.array sampleMaterials)
        { sampleState with dom := materialsStatsDom })).dom.getElementById "total-materials" =
      some "3" := by
  have hsum : (items.filter countsAsPdf).length + (items.filter (fun m => !countsAsPdf m)).length =
      items.length := by
    have h1 := List.length_eq_length_filter_add (l := items) countsAsPdf
    omega
  have hfun : (fun m : Material => !truthy m.file_url || jsIncludes (m.file_url.getD "") ".pdf") =
      countsAsPdf := funext countsAsPdf_eq
  have hvid : ((items.length : Int) - ((items.filter countsAsPdf).length : Int)) =
      ((items.filter (fun m => !countsAsPdf m)).length : Int) := by
    omega
  refine ⟨⟨_, rfl, ?_, ?_, ?_⟩, hsum, by decide, by decide, by decide⟩
  · simp [getElementById_assign, lengthText, JsonValue.length]
  · simp [getElementById_assign, hfun]
  · simp only [hfun, hvid]
    simp [getElementById_assign]

theorem decimal_zero : decimal 0 = "0" := by decide

theorem renderSubjects_array (h : Host) (random : Nat → Fin 20) (items : List Subject)
    (dom : Dom) :
    renderSubjects h random (.array items) dom = .ok dom ∨
    ∃ html, renderSubjects h random (.array items) dom =
      .ok (dom.assign "subjects-container" html) := by
  unfold renderSubjects
  cases dom.getElementById "subjects-container" with
  | none => exact Or.inl rfl
  | some old =>
    right
    by_cases hl : items = []
    · exact ⟨subjectsEmptyState, by simp [JsonValue.length, hl]⟩
    · exact ⟨String.join (subjectCards h random 0 items),
        by simp [JsonValue.length, JsonValue.elements, hl, bind, Except.bind]⟩

/-- C16: given a list of 0 items, each of the five renderers writes exactly
the empty-state fragment of its type into its container, the five fragments
being pairwise different, and every counter written by `updateSubjectStats`,
`updateMaterialStats`, `updateAssignmentStats` and `updateReminderStats`
shows 0 (the size display of the materials page shows "0 MB"). -/
theorem empty_list_rendering (h : Host) (random : Nat → Fin 20) (now : Int)
    (cache : JsonValue Subject) (dom : Dom) (st : State) :
    (∀ old, dom.getElementById "subjects-container" = some old →
      renderSubjects h random (.array []) dom =
        .ok (dom.assign "subjects-container" subjectsEmptyState)) ∧
    (∀ old, dom.getElementById "announcements-container" = some old →
      renderAnnouncements h cache (.array []) dom =
        .ok (dom.assign "announcements-container" announcementsEmptyState)) ∧
    (∀ old, dom.getElementById "materials-container" = some old →
      renderMaterials h cache (.array []) dom =
        .ok (dom.assign "materials-container" materialsEmptyState)) ∧
    (∀ old, dom.getElementById "assignments-container" = some old →
      renderAssignments h now cache (.array []) dom =
        .ok (dom.assign "assignments-container" assignmentsEmptyState)) ∧
    (∀ old, dom.getElementById "reminders-container" = some old →
      renderReminders h now cache (.array []) dom =
        .ok (dom.assign "reminders-container" remindersEmptyState)) ∧
    [subjectsEmptyState, announcementsEmptyState, materialsEmptyState, assignmentsEmptyState,
      remindersEmptyState].Nodup ∧
    (∀ id ∈ ["total-subjects", "active-classes", "stat-active-subjects"],
      (updateSubjectStats { st with subjects := .array [] }).dom.getElementById id =
        (st.dom.getElementById id).map (fun _ => "0")) ∧
    (∃ st', updateMaterialStats (.array []) st = .ok st' ∧
      (∀ id ∈ ["total-materials", "total-pdfs", "total-videos"],
        st'.dom.getElementById id = (st.dom.getElementById id).map (fun _ => "0")) ∧
      st'.dom.getElementById "total-size" =
        (st.dom.getElementById "total-size").map (fun _ => "0 MB")) ∧
    (∃ st', updateAssignmentStats h now (.array []) st = .ok st' ∧
      ∀ id ∈ ["total-assignments", "active-assignments", "urgent-assignments", "due-this-week"],
        st'.dom.getElementById id = (st.dom.getElementById id).map (fun _ => "0")) ∧
    (∃ st', updateReminderStats h now (.array []) st = .ok st' ∧
      ∀ id ∈ ["total-reminders", "this-week-reminders", "today-reminders"],
        st'.dom.getElementById id = (st.dom.getElementById id).map (fun _ => "0")) := by
  refine ⟨?_, ?_, ?_, ?_, ?_, by decide, ?_, ⟨_, rfl, ?_, ?_⟩, ⟨_, rfl, ?_⟩, ⟨_, rfl, ?_⟩⟩
  · intro old hc
    simp [renderSubjects, hc, JsonValue.length]
  · intro old hc
    simp [renderAnnouncements, hc, JsonValue.length]
  · intro old hc
    simp [renderMaterials, hc, JsonValue.length]
  · intro old hc
    simp [renderAssignments, hc, JsonValue.length]
  · intro old hc
    simp [renderReminders, hc, JsonValue.length]
  · simp [updateSubjectStats, getElementById_assign, lengthText, JsonValue.length, decimal_zero]
  · simp [getElementById_assign, lengthText, JsonValue.length, decimal_zero]
  · simp [getElementById_assign, lengthText, JsonValue.length, decimal_zero]
  · simp [getElementById_assign, lengthText, JsonValue.length, decimal_zero]
  · simp [getElementById_assign, lengthText, JsonValue.length, decimal_zero]

theorem empty_list_rendering_witness :
    subjectsPageDom.getElementById "subjects-container" = some "<p>old cards</p>" ∧
    renderSubjects sampleHost (fun _ => 0) (.array []) subjectsPageDom =
      .ok (subjectsPageDom.assign "subjects-container" subjectsEmptyState) ∧
    "total-subjects" ∈ ["total-subjects", "active-classes", "stat-active-subjects"] ∧
    (updateSubjectStats { subjectsPageState with subjects := .array [] }).dom.getElementById
        "total-subjects" =
      (subjectsPageState.dom.getElementById "total-subjects").map (fun _ => "0") :=
  ⟨by decide,
    (empty_list_rendering sampleHost (fun _ => 0) sampleNow (.array sampleSubjects)
      subjectsPageDom subjectsPageState).1 "<p>old cards</p>" (by decide),
    by decide,
    (empty_list_rendering sampleHost (fun _ => 0) sampleNow (.array sampleSubjects)
      subjectsPageDom subjectsPageState).2.2.2.2.2.2.1 "total-subjects" (by decide)⟩

/-- C17: when the `GET /subject` response decodes to a list `L`, after
`loadSubjects` the cache is exactly `L`, whatever it held before, and the
subject counters show the length of `L`; when the fetch or the JSON decoding
fails, the cache keeps its prior value. -/
theorem loadSubjects_replaces_cache (env : Env) (st : State) :
    (∀ (ok : Bool) (L : List Subject), env.net.subject = .response ok (some (.array L)) →
      (loadSubjects env st).subjects = .array L ∧
      ∀ id ∈ ["total-subjects", "active-classes", "stat-active-subjects"],
        (loadSubjects env st).dom.getElementById id =
          (st.dom.getElementById id).map (fun _ => decimal L.length)) ∧
    ((env.net.subject = .rejected ∨ ∃ ok, env.net.subject = .response ok none) →
      (loadSubjects env st).subjects = st.subjects) := by
  refine ⟨fun ok L hnet => ?_, fun hfail => ?_⟩
  · unfold loadSubjects
    rw [hnet]
    simp only []
    rcases renderSubjects_array env.host env.random L
      (st.emit (.fetch "GET" (env.origin ++ "/subject") none)).dom with hr | ⟨html, hr⟩
    · rw [hr]
      simp [updateSubjectStats, getElementById_assign, lengthText, JsonValue.length, State.emit]
    · rw [hr]
      simp [updateSubjectStats, getElementById_assign, lengthText, JsonValue.length, State.emit]
  · unfold loadSubjects
    rcases hfail with hrej | ⟨ok, hnone⟩
    · rw [hrej]
      rfl
    · rw [hnone]
      rfl

theorem loadSubjects_replaces_cache_witness :
    sampleEnv.net.subject = .response true (some (.array sampleSubjects)) ∧
    (loadSubjects sampleEnv { subjectsPageState with subjects := .array [] }).subjects =
      .array sampleSubjects ∧
    (loadSubjects sampleEnv { subjectsPageState with subjects := .array [] }).dom.getElementById
        "total-subjects" = some "2" ∧
    offlineEnv.net.subject = .rejected ∧
    (loadSubjects offlineEnv subjectsPageState).subjects = subjectsPageState.subjects :=
  ⟨rfl,
    ((loadSubjects_replaces_cache sampleEnv { subjectsPageState with subjects := .array [] }).1
      true sampleSubjects rfl).1,
    by
      have hw := ((loadSubjects_replaces_cache sampleEnv
        { subjectsPageState with subjects := .array [] }).1 true sampleSubjects rfl).2
        "total-subjects" (by decide)
      rw [hw]
      decide,
    rfl,
    (loadSubjects_replaces_cache offlineEnv subjectsPageState).2 (Or.inl rfl)⟩

/-- C18 fails on the code: when `GET /subject` answers with status 500 and
the JSON body `{"error": "database unavailable"}`, `loadSubjects` stores that
object in the subject cache in place of the previous list; the subjects
container and the counters stay as they were, and a later
`renderAnnouncements` of a non-empty list throws a `TypeError`. -/
theorem non_2xx_body_replaces_cache :
    brokenSubjectsEnv.net.subject =
      .response false (some (.object (some "database unavailable"))) ∧
    subjectsPageState.subjects = .array sampleSubjects ∧
    (loadSubjects brokenSubjectsEnv subjectsPageState).subjects =
      .object (some "database unavailable") ∧
    (loadSubjects brokenSubjectsEnv subjectsPageState).dom = subjectsPageState.dom ∧
    renderAnnouncements sampleHost (loadSubjects brokenSubjectsEnv subjectsPageState).subjects
        (.array [orphanAnnouncement]) sampleDom =
      .error (.typeError "subjects.forEach is not a function") ∧
    renderAnnouncements sampleHost subjectsPageState.subjects (.array [orphanAnnouncement])
        sampleDom =
      .ok (sampleDom.assign "announcements-container"
        (announcementCard sampleHost (buildSubjectMap sampleSubjects) orphanAnnouncement)) := by
  set_option maxRecDepth 100000 in
  exact ⟨rfl, rfl, by decide, by decide, rfl, rfl⟩

/-! ## Dispatch of `saveSubject`: C11 -/

theorem mutations_eq_filter_requests (st : State) :
    st.mutations = st.requests.filter Effect.isMutation := by
  unfold State.mutations State.requests
  rw [List.filter_filter]
  congr 1
  funext e
  cases e <;> simp [Effect.isMutation]

theorem mutations_of_requests (st st' : State) (rs : List Effect)
    (hreq : st'.requests = st.requests ++ rs) :
    st'.mutations = st.mutations ++ rs.filter Effect.isMutation := by
  rw [mutations_eq_filter_requests, mutations_eq_filter_requests, hreq, List.filter_append]

theorem saveSubject_valid (env : Env) (nameField teacherField : String) (st : State)
    (hn : jsTrim nameField ≠ "") (ht : jsTrim teacherField ≠ "") :
    saveSubject env nameField teacherField st =
      (match env.net.mutation with
      | .rejected =>
        ((st.emit (subjectRequest env nameField teacherField st)).emit
          (.consoleError "Error saving subject:")).emit (.alert "Failed to save subject")
      | .response true _ =>
        if env.pathname = "/" then
          loadDashboardStats env (loadSubjects env
            (closeModal (st.emit (subjectRequest env nameField teacherField st))))
        else loadSubjects env (closeModal (st.emit (subjectRequest env nameField teacherField st)))
      | .response false none =>
        ((st.emit (subjectRequest env nameField teacherField st)).emit
          (.consoleError "Error saving subject:")).emit (.alert "Failed to save subject")
      | .response false (some error) =>
        (st.emit (subjectRequest env nameField teacherField st)).emit
          (.alert (errorMessage error "Failed to save subject"))) := by
  unfold saveSubject subjectRequest
  simp only []
  rw [if_neg (by simp [hn, ht])]

theorem requests_closeModal (st : State) : (closeModal st).requests = st.requests := rfl

theorem saveSubject_requests (env : Env) (nameField teacherField : String) (st : State)
    (hn : jsTrim nameField ≠ "") (ht : jsTrim teacherField ≠ "") :
    ∃ gets, (saveSubject env nameField teacherField st).requests =
        st.requests ++ (subjectRequest env nameField teacherField st :: gets) ∧
      gets.filter Effect.isMutation = [] := by
  rw [saveSubject_valid env nameField teacherField st hn ht]
  have hreq : ∀ s : State, (s.emit (subjectRequest env nameField teacherField st)).requests =
      s.requests ++ [subjectRequest env nameField teacherField st] := fun s =>
    requests_emit_fetch s _ _ _
  split
  · exact ⟨[], by simp [requests_emit_console, requests_emit_alert, hreq], rfl⟩
  · split
    · refine ⟨.fetch "GET" (env.origin ++ "/subject") none :: dashboardRequests env.origin, ?_, ?_⟩
      · rw [(loadDashboardStats_frame env _).2.2.2.1, (loadSubjects_frame env _).2.2.1,
          requests_closeModal, hreq]
        simp
      · simp [dashboardRequests, Effect.isMutation]
    · refine ⟨[.fetch "GET" (env.origin ++ "/subject") none], ?_, ?_⟩
      · rw [(loadSubjects_frame env _).2.2.1, requests_closeModal, hreq]
        simp
      · simp [Effect.isMutation]
  · exact ⟨[], by simp [requests_emit_console, requests_emit_alert, hreq], rfl⟩
  · exact ⟨[], by simp [requests_emit_alert, hreq], rfl⟩

/-- C11, as stated, fails twice: with the editing-id slot holding the id 0 a
valid form is sent by POST to /subject, not by PUT; and after a 2xx answer
`saveSubject` issues a second request, the GET of the reload, so it does not
issue exactly one request. -/
theorem saveSubject_slot_zero_posts :
    (saveSubject sampleEnv "Algebra" "Prof. X"
        { sampleState with currentEditingId := some 0 }).requests =
      [.fetch "POST" "http://localhost:5000/subject"
        (some [("name", "Algebra"), ("teacher", "Prof. X")])] ∧
    (saveSubject okEnv "Algebra" "Prof. X"
        { sampleState with currentEditingId := some 3 }).requests =
      [.fetch "PUT" "http://localhost:5000/subject/3"
        (some [("name", "Algebra"), ("teacher", "Prof. X")]),
       .fetch "GET" "http://localhost:5000/subject" none] := by
  decide

/-- C11, amended: for every valid subject form (both trimmed fields
non-empty), if the editing-id slot holds a non-zero id, `saveSubject` issues
exactly one mutating request, PUT /subject/{id} with body {name, teacher};
if the slot is null or holds 0 it issues exactly one mutating request,
POST /subject with body {name, teacher}.  That request is the first one
issued; any request after it is a GET. -/
theorem saveSubject_dispatch (env : Env) (nameField teacherField : String) (st : State)
    (hn : jsTrim nameField ≠ "") (ht : jsTrim teacherField ≠ "") :
    (∀ id : Int, st.currentEditingId = some id → id ≠ 0 →
      (saveSubject env nameField teacherField st).mutations =
        st.mutations ++ [.fetch "PUT" (env.origin ++ "/subject/" ++ decimal id)
          (some [("name", jsTrim nameField), ("teacher", jsTrim teacherField)])] ∧
      ∃ gets, (saveSubject env nameField teacherField st).requests =
          st.requests ++ (.fetch "PUT" (env.origin ++ "/subject/" ++ decimal id)
            (some [("name", jsTrim nameField), ("teacher", jsTrim teacherField)]) :: gets) ∧
        gets.filter Effect.isMutation = []) ∧
    ((st.currentEditingId = none ∨ st.currentEditingId = some 0) →
      (saveSubject env nameField teacherField st).mutations =
        st.mutations ++ [.fetch "POST" (env.origin ++ "/subject")
          (some [("name", jsTrim nameField), ("teacher", jsTrim teacherField)])] ∧
      ∃ gets, (saveSubject env nameField teacherField st).requests =
          st.requests ++ (.fetch "POST" (env.origin ++ "/subject")
            (some [("name", jsTrim nameField), ("teacher", jsTrim teacherField)]) :: gets) ∧
        gets.filter Effect.isMutation = []) := by
  obtain ⟨gets, hreq, hgets⟩ := saveSubject_requests env nameField teacherField st hn ht
  have hmut := mutations_of_requests st _ _ hreq
  refine ⟨fun id hid hne => ?_, fun hnone => ?_⟩
  · have hr : subjectRequest env nameField teacherField st =
        .fetch "PUT" (env.origin ++ "/subject/" ++ decimal id)
          (some [("name", jsTrim nameField), ("teacher", jsTrim teacherField)]) := by
      simp [subjectRequest, hid, idTruthy, hne]
    rw [hr] at hreq hmut
    refine ⟨?_, gets, hreq, hgets⟩
    rw [hmut]
    simp [List.filter_cons, Effect.isMutation, hgets]
  · have hr : subjectRequest env nameField teacherField st =
        .fetch "POST" (env.origin ++ "/subject")
          (some [("name", jsTrim nameField), ("teacher", jsTrim teacherField)]) := by
      rcases hnone with h0 | h0 <;> simp [subjectRequest, h0, idTruthy]
    rw [hr] at hreq hmut
    refine ⟨?_, gets, hreq, hgets⟩
    rw [hmut]
    simp [List.filter_cons, Effect.isMutation, hgets]

theorem saveSubject_dispatch_witness :
    (jsTrim "Algebra" ≠ "" ∧ jsTrim "Prof. X" ≠ "") ∧
    ({ sampleState with currentEditingId := some 3 } : State).currentEditingId = some 3 ∧
    (3 : Int) ≠ 0 ∧
    (saveSubject okEnv "Algebra" "Prof. X"
        { sampleState with currentEditingId := some 3 }).mutations =
      ({ sampleState with currentEditingId := some 3 } : State).mutations ++
        [.fetch "PUT" (okEnv.origin ++ "/subject/" ++ decimal 3)
          (some [("name", jsTrim "Algebra"), ("teacher", jsTrim "Prof. X")])] ∧
    (sampleState.currentEditingId = none ∨ sampleState.currentEditingId = some 0) ∧
    (saveSubject okEnv "Algebra" "Prof. X" sampleState).mutations =
      sampleState.mutations ++
        [.fetch "POST" (okEnv.origin ++ "/subject")
          (some [("name", jsTrim "Algebra"), ("teacher", jsTrim "Prof. X")])] :=
  ⟨by decide, rfl, by decide,
    ((saveSubject_dispatch okEnv "Algebra" "Prof. X"
      { sampleState with currentEditingId := some 3 } (by decide) (by decide)).1 3 rfl
      (by decide)).1,
    Or.inl rfl,
    ((saveSubject_dispatch okEnv "Algebra" "Prof. X" sampleState (by decide) (by decide)).2
      (Or.inl rfl)).1⟩

/-! ## Projections of the frame lemmas -/

theorem loadSubjects_modal (env : Env) (st : State) : (loadSubjects env st).modal = st.modal :=
  (loadSubjects_frame env st).1

theorem loadSubjects_currentEditingId (env : Env) (st : State) :
    (loadSubjects env st).currentEditingId = st.currentEditingId :=
  (loadSubjects_frame env st).2.1

theorem loadSubjects_requests (env : Env) (st : State) :
    (loadSubjects env st).requests = st.requests ++ [.fetch "GET" (env.origin ++ "/subject") none] :=
  (loadSubjects_frame env st).2.2.1

theorem loadDashboardStats_modal (env : Env) (st : State) : (loadDashboardStats env st).modal = st.modal :=
  (loadDashboardStats_frame env st).1

theorem loadDashboardStats_currentEditingId (env : Env) (st : State) :
    (loadDashboardStats env st).currentEditingId = st.currentEditingId :=
  (loadDashboardStats_frame env st).2.1

theorem loadDashboardStats_requests (env : Env) (st : State) :
    (loadDashboardStats env st).requests = st.requests ++ dashboardRequests env.origin :=
  (loadDashboardStats_frame env st).2.2.2.1

theorem loadLatestActivity_modal (env : Env) (st : State) : (loadLatestActivity env st).modal = st.modal :=
  (loadLatestActivity_frame env st).1

theorem loadLatestActivity_currentEditingId (env : Env) (st : State) :
    (loadLatestActivity env st).currentEditingId = st.currentEditingId :=
  (loadLatestActivity_frame env st).2.1

theorem loadLatestActivity_requests (env : Env) (st : State) :
    (loadLatestActivity env st).requests = st.requests ++ [.fetch "GET" (env.origin ++ "/feed/latest") none] :=
  (loadLatestActivity_frame env st).2.2.2.1

theorem loadUpcomingDeadlines_modal (env : Env) (st : State) : (loadUpcomingDeadlines env st).modal = st.modal :=
  (loadUpcomingDeadlines_frame env st).1

theorem loadUpcomingDeadlines_currentEditingId (env : Env) (st : State) :
    (loadUpcomingDeadlines env st).currentEditingId = st.currentEditingId :=
  (loadUpcomingDeadlines_frame env st).2.1

theorem loadUpcomingDeadlines_requests (env : Env) (st : State) :
    (loadUpcomingDeadlines env st).requests = st.requests ++ [.fetch "GET" (env.origin ++ "/feed/upcoming-deadlines") none] :=
  (loadUpcomingDeadlines_frame env st).2.2.2.1

theorem loadAnnouncements_modal (env : Env) (st : State) : (loadAnnouncements env st).modal = st.modal :=
  (loadAnnouncements_frame env st).1

theorem loadAnnouncements_currentEditingId (env : Env) (st : State) :
    (loadAnnouncements env st).currentEditingId = st.currentEditingId :=
  (loadAnnouncements_frame env st).2.1

theorem loadAnnouncements_requests (env : Env) (st : State) :
    (loadAnnouncements env st).requests = st.requests ++ [.fetch "GET" (env.origin ++ "/announcement") none] :=
  (loadAnnouncements_frame env st).2.2.2.1

theorem loadMaterials_modal (env : Env) (st : State) : (loadMaterials env st).modal = st.modal :=
  (loadMaterials_frame env st).1

theorem loadMaterials_currentEditingId (env : Env) (st : State) :
    (loadMaterials env st).currentEditingId = st.currentEditingId :=
  (loadMaterials_frame env st).2.1

theorem loadMaterials_requests (env : Env) (st : State) :
    (loadMaterials env st).requests = st.requests ++ [.fetch "GET" (env.origin ++ "/material") none] :=
  (loadMaterials_frame env st).2.2.2.1

theorem loadAssignments_modal (env : Env) (st : State) : (loadAssignments env st).modal = st.modal :=
  (loadAssignments_frame env st).1

theorem loadAssignments_currentEditingId (env : Env) (st : State) :
    (loadAssignments env st).currentEditingId = st.currentEditingId :=
  (loadAssignments_frame env st).2.1

theorem loadAssignments_requests (env : Env) (st : State) :
    (loadAssignments env st).requests = st.requests ++ [.fetch "GET" (env.origin ++ "/assignment") none] :=
  (loadAssignments_frame env st).2.2.2.1

theorem loadReminders_modal (env : Env) (st : State) : (loadReminders env st).modal = st.modal :=
  (loadReminders_frame env st).1

theorem loadReminders_currentEditingId (env : Env) (st : State) :
    (loadReminders env st).currentEditingId = st.currentEditingId :=
  (loadReminders_frame env st).2.1

theorem loadReminders_requests (env : Env) (st : State) :
    (loadReminders env st).requests = st.requests ++ [.fetch "GET" (env.origin ++ "/reminder") none] :=
  (loadReminders_frame env st).2.2.2.1

theorem modal_closeModal (st : State) : (closeModal st).modal.display = "none" := rfl

theorem currentEditingId_closeModal (st : State) : (closeModal st).currentEditingId = none := rfl

/-! ## The document after the loaders -/

theorem assign_absent (dom : Dom) (id v : String) (hn : dom.getElementById id = none) :
    dom.assign id v = dom := by
  induction dom with
  | nil => rfl
  | cons e rest ih =>
    rw [getElementById_cons] at hn
    rw [assign_cons]
    by_cases he : e.1 = id
    · simp [he] at hn
    · simp only [he, if_false] at hn ⊢
      rw [ih hn]

theorem map_const_of_isSome {α β : Type} (a b : Option α) (v : β)
    (hab : a.isSome = b.isSome) : a.map (fun _ => v) = b.map (fun _ => v) := by
  cases a <;> cases b <;> simp_all

theorem renderAnnouncements_cache (h : Host) (cache : List Subject) (items : List Announcement)
    (dom : Dom) :
    renderAnnouncements h (.array cache) (.array items) dom =
      .ok (dom.assign "announcements-container"
        (if items.length = 0 then announcementsEmptyState
         else String.join (items.map (announcementCard h (buildSubjectMap cache))))) := by
  unfold renderAnnouncements
  cases hc : dom.getElementById "announcements-container" with
  | none => simp only [assign_absent dom _ _ hc]
  | some old =>
    by_cases hl : items.length = 0
    · simp [JsonValue.length, hl]
    · simp [JsonValue.length, JsonValue.elements, hl, bind, Except.bind]

theorem renderMaterials_cache (h : Host) (cache : List Subject) (items : List Material)
    (dom : Dom) :
    renderMaterials h (.array cache) (.array items) dom =
      .ok (dom.assign "materials-container"
        (if items.length = 0 then materialsEmptyState
         else String.join (items.map (materialCard h (buildSubjectMap cache))))) := by
  unfold renderMaterials
  cases hc : dom.getElementById "materials-container" with
  | none => simp only [assign_absent dom _ _ hc]
  | some old =>
    by_cases hl : items.length = 0
    · simp [JsonValue.length, hl]
    · simp [JsonValue.length, JsonValue.elements, hl, bind, Except.bind]

theorem renderAssignments_cache (h : Host) (now : Int) (cache : List Subject)
    (items : List Assignment) (dom : Dom) :
    renderAssignments h now (.array cache) (.array items) dom =
      .ok (dom.assign "assignments-container"
        (if items.length = 0 then assignmentsEmptyState
         else String.join (items.map (assignmentCard h now (buildSubjectMap cache))))) := by
  unfold renderAssignments
  cases hc : dom.getElementById "assignments-container" with
  | none => simp only [assign_absent dom _ _ hc]
  | some old =>
    by_cases hl : items.length = 0
    · simp [JsonValue.length, hl]
    · simp [JsonValue.length, JsonValue.elements, hl, bind, Except.bind]

theorem renderReminders_cache (h : Host) (now : Int) (cache : List Subject)
    (items : List Reminder) (dom : Dom) :
    renderReminders h now (.array cache) (.array items) dom =
      .ok (dom.assign "reminders-container"
        (if items.length = 0 then remindersEmptyState
         else String.join
          ((sortReminders h items).map (reminderCard h now (buildSubjectMap cache))))) := by
  unfold renderReminders
  cases hc : dom.getElementById "reminders-container" with
  | none => simp only [assign_absent dom _ _ hc]
  | some old =>
    by_cases hl : items.length = 0
    · simp [JsonValue.length, hl]
    · simp [JsonValue.length, JsonValue.elements, hl, bind, Except.bind]

theorem renderSubjects_cache (h : Host) (random : Nat → Fin 20) (items : List Subject)
    (dom : Dom) :
    renderSubjects h random (.array items) dom =
      .ok (dom.assign "subjects-container"
        (if items.length = 0 then subjectsEmptyState
         else String.join (subjectCards h random 0 items))) := by
  unfold renderSubjects
  cases hc : dom.getElementById "subjects-container" with
  | none => simp only [assign_absent dom _ _ hc]
  | some old =>
    by_cases hl : items.length = 0
    · simp [JsonValue.length, hl]
    · simp [JsonValue.length, JsonValue.elements, hl, bind, Except.bind]

theorem loadDashboardStats_dom (env : Env) (st : State) (o1 o2 o3 o4 : Bool)
    (sd : JsonValue Subject) (ad : JsonValue Announcement) (md : JsonValue Material)
    (asd : JsonValue Assignment)
    (h1 : env.net.subject = .response o1 (some sd))
    (h2 : env.net.announcement = .response o2 (some ad))
    (h3 : env.net.material = .response o3 (some md))
    (h4 : env.net.assignment = .response o4 (some asd)) :
    (loadDashboardStats env st).dom =
      (((st.dom.assign "stat-active-subjects" (lengthText sd.length)).assign
        "stat-announcements" (lengthText ad.length)).assign
        "stat-materials" (lengthText md.length)).assign
        "stat-assignments" (lengthText asd.length) := by
  unfold loadDashboardStats
  simp only [h1, h2, h3, h4]
  rfl

theorem loadDashboardStats_other (env : Env) (st : State) (id : String)
    (h1 : id ≠ "stat-active-subjects") (h2 : id ≠ "stat-announcements")
    (h3 : id ≠ "stat-materials") (h4 : id ≠ "stat-assignments") :
    (loadDashboardStats env st).dom.getElementById id = st.dom.getElementById id := by
  unfold loadDashboardStats
  simp only []
  split
  · simp [getElementById_assign, State.emit, h1, h2, h3, h4]
  · rfl

theorem loadLatestActivity_other (env : Env) (st : State) (id : String)
    (h1 : id ≠ "latest-activity") :
    (loadLatestActivity env st).dom.getElementById id = st.dom.getElementById id := by
  unfold loadLatestActivity
  simp only []
  repeat' split
  all_goals simp [getElementById_assign, State.emit, h1]

theorem loadUpcomingDeadlines_other (env : Env) (st : State) (id : String)
    (h1 : id ≠ "deadline-count") (h2 : id ≠ "upcoming-deadlines") :
    (loadUpcomingDeadlines env st).dom.getElementById id = st.dom.getElementById id := by
  unfold loadUpcomingDeadlines
  simp only []
  repeat' split
  all_goals simp [getElementById_assign, State.emit, h1, h2]

theorem renderAnnouncements_other (h : Host) (subjects : JsonValue Subject)
    (items : JsonValue Announcement) (dom dom' : Dom) (id : String)
    (hid : id ≠ "announcements-container")
    (hr : renderAnnouncements h subjects items dom = .ok dom') :
    dom'.getElementById id = dom.getElementById id := by
  unfold renderAnnouncements at hr
  cases hc : dom.getElementById "announcements-container" with
  | none =>
    rw [hc] at hr
    cases hr
    rfl
  | some old =>
    rw [hc] at hr
    simp only [] at hr
    split at hr
    · cases hr
      simp [getElementById_assign, hid]
    · cases hs : subjects.elements "subjects.forEach" with
      | error e => simp [hs, bind, Except.bind] at hr
      | ok cached =>
        cases ha : items.elements "announcements.map" with
        | error e => simp [hs, ha, bind, Except.bind] at hr
        | ok l =>
          simp [hs, ha, bind, Except.bind] at hr
          subst hr
          simp [getElementById_assign, hid]

theorem loadAnnouncements_other (env : Env) (st : State) (id : String)
    (hid : id ≠ "announcements-container") :
    (loadAnnouncements env st).dom.getElementById id = st.dom.getElementById id := by
  unfold loadAnnouncements
  simp only []
  cases env.net.announcement with
  | rejected => rfl
  | response ok body =>
    cases body with
    | none => rfl
    | some b =>
      simp only []
      cases hr : renderAnnouncements env.host
          (st.emit (.fetch "GET" (env.origin ++ "/announcement") none)).subjects b
          (st.emit (.fetch "GET" (env.origin ++ "/announcement") none)).dom with
      | error e => rfl
      | ok dom' => exact renderAnnouncements_other _ _ _ _ _ id hid hr

theorem loadAnnouncements_container (env : Env) (st : State) (ok : Bool)
    (items : List Announcement) (cache : List Subject)
    (hnet : env.net.announcement = .response ok (some (.array items)))
    (hs : st.subjects = .array cache) :
    (loadAnnouncements env st).dom.getElementById "announcements-container" =
      (st.dom.getElementById "announcements-container").map (fun _ =>
        if items.length = 0 then announcementsEmptyState
        else String.join (items.map (announcementCard env.host (buildSubjectMap cache)))) := by
  unfold loadAnnouncements
  simp only [hnet, State.emit, hs, renderAnnouncements_cache, withDom, caught,
    getElementById_assign, if_true]

theorem renderMaterials_other (h : Host) (subjects : JsonValue Subject)
    (items : JsonValue Material) (dom dom' : Dom) (id : String)
    (hid : id ≠ "materials-container")
    (hr : renderMaterials h subjects items dom = .ok dom') :
    dom'.getElementById id = dom.getElementById id := by
  unfold renderMaterials at hr
  cases hc : dom.getElementById "materials-container" with
  | none =>
    rw [hc] at hr
    cases hr
    rfl
  | some old =>
    rw [hc] at hr
    simp only [] at hr
    split at hr
    · cases hr
      simp [getElementById_assign, hid]
    · cases hs : subjects.elements "subjects.forEach" with
      | error e => simp [hs, bind, Except.bind] at hr
      | ok cached =>
        cases ha : items.elements "materials.map" with
        | error e => simp [hs, ha, bind, Except.bind] at hr
        | ok l =>
          simp [hs, ha, bind, Except.bind] at hr
          subst hr
          simp [getElementById_assign, hid]

theorem renderAssignments_other (h : Host) (now : Int) (subjects : JsonValue Subject)
    (items : JsonValue Assignment) (dom dom' : Dom) (id : String)
    (hid : id ≠ "assignments-container")
    (hr : renderAssignments h now subjects items dom = .ok dom') :
    dom'.getElementById id = dom.getElementById id := by
  unfold renderAssignments at hr
  cases hc : dom.getElementById "assignments-container" with
  | none =>
    rw [hc] at hr
    cases hr
    rfl
  | some old =>
    rw [hc] at hr
    simp only [] at hr
    split at hr
    · cases hr
      simp [getElementById_assign, hid]
    · cases hs : subjects.elements "subjects.forEach" with
      | error e => simp [hs, bind, Except.bind] at hr
      | ok cached =>
        cases ha : items.elements "assignments.map" with
        | error e => simp [hs, ha, bind, Except.bind] at hr
        | ok l =>
          simp [hs, ha, bind, Except.bind] at hr
          subst hr
          simp [getElementById_assign, hid]

theorem renderReminders_other (h : Host) (now : Int) (subjects : JsonValue Subject)
    (items : JsonValue Reminder) (dom dom' : Dom) (id : String)
    (hid : id ≠ "reminders-container")
    (hr : renderReminders h now subjects items dom = .ok dom') :
    dom'.getElementById id = dom.getElementById id := by
  unfold renderReminders at hr
  cases hc : dom.getElementById "reminders-container" with
  | none =>
    rw [hc] at hr
    cases hr
    rfl
  | some old =>
    rw [hc] at hr
    simp only [] at hr
    split at hr
    · cases hr
      simp [getElementById_assign, hid]
    · cases hs : subjects.elements "subjects.forEach" with
      | error e => simp [hs, bind, Except.bind] at hr
      | ok cached =>
        cases ha : items.elements "reminders.sort" with
        | error e => simp [hs, ha, bind, Except.bind] at hr
        | ok l =>
          simp [hs, ha, bind, Except.bind] at hr
          subst hr
          simp [getElementById_assign, hid]

theorem renderSubjects_other (h : Host) (random : Nat → Fin 20) (subjects : JsonValue Subject)
    (dom dom' : Dom) (id : String) (hid : id ≠ "subjects-container")
    (hr : renderSubjects h random subjects dom = .ok dom') :
    dom'.getElementById id = dom.getElementById id := by
  unfold renderSubjects at hr
  cases hc : dom.getElementById "subjects-container" with
  | none =>
    rw [hc] at hr
    cases hr
    rfl
  | some old =>
    rw [hc] at hr
    simp only [] at hr
    split at hr
    · cases hr
      simp [getElementById_assign, hid]
    · cases hs : subjects.elements "subjects.map" with
      | error e => simp [hs, bind, Except.bind] at hr
      | ok l =>
        simp [hs, bind, Except.bind] at hr
        subst hr
        simp [getElementById_assign, hid]

theorem updateMaterialStats_other (materials : JsonValue Material) (st : State) (id : String)
    (h1 : id ≠ "total-materials") (h2 : id ≠ "total-pdfs") (h3 : id ≠ "total-videos")
    (h4 : id ≠ "total-size") :
    (caught "Error loading materials:" (updateMaterialStats materials st)).dom.getElementById id =
      st.dom.getElementById id := by
  unfold updateMaterialStats caught
  cases materials <;>
    simp [JsonValue.elements, getElementById_assign, State.emit, h1, h2, h3, h4]

theorem updateAssignmentStats_other (h : Host) (now : Int) (assignments : JsonValue Assignment)
    (st : State) (id : String)
    (h1 : id ≠ "total-assignments") (h2 : id ≠ "active-assignments")
    (h3 : id ≠ "urgent-assignments") (h4 : id ≠ "due-this-week") :
    (caught "Error loading assignments:"
      (updateAssignmentStats h now assignments st)).dom.getElementById id =
      st.dom.getElementById id := by
  unfold updateAssignmentStats caught
  cases assignments <;>
    simp [JsonValue.elements, getElementById_assign, State.emit, h1, h2, h3, h4]

theorem updateReminderStats_other (h : Host) (now : Int) (reminders : JsonValue Reminder)
    (st : State) (id : String)
    (h1 : id ≠ "total-reminders") (h2 : id ≠ "this-week-reminders")
    (h3 : id ≠ "today-reminders") :
    (caught "Error loading reminders:"
      (updateReminderStats h now reminders st)).dom.getElementById id =
      st.dom.getElementById id := by
  unfold updateReminderStats caught
  cases reminders <;>
    simp [JsonValue.elements, getElementById_assign, State.emit, h1, h2, h3]

theorem loadMaterials_other (env : Env) (st : State) (id : String)
    (hid : id ≠ "materials-container")
    (h1 : id ≠ "total-materials") (h2 : id ≠ "total-pdfs") (h3 : id ≠ "total-videos")
    (h4 : id ≠ "total-size") :
    (loadMaterials env st).dom.getElementById id = st.dom.getElementById id := by
  unfold loadMaterials
  simp only []
  cases env.net.material with
  | rejected => rfl
  | response ok body =>
    cases body with
    | none => rfl
    | some b =>
      simp only []
      cases hr : renderMaterials env.host
          (st.emit (.fetch "GET" (env.origin ++ "/material") none)).subjects b
          (st.emit (.fetch "GET" (env.origin ++ "/material") none)).dom with
      | error e => rfl
      | ok dom' =>
        simp only [withDom]
        rw [updateMaterialStats_other _ _ id h1 h2 h3 h4]
        exact renderMaterials_other _ _ _ _ _ id hid hr

theorem loadAssignments_other (env : Env) (st : State) (id : String)
    (hid : id ≠ "assignments-container")
    (h1 : id ≠ "total-assignments") (h2 : id ≠ "active-assignments")
    (h3 : id ≠ "urgent-assignments") (h4 : id ≠ "due-this-week") :
    (loadAssignments env st).dom.getElementById id = st.dom.getElementById id := by
  unfold loadAssignments
  simp only []
  cases env.net.assignment with
  | rejected => rfl
  | response ok body =>
    cases body with
    | none => rfl
    | some b =>
      simp only []
      cases hr : renderAssignments env.host env.now
          (st.emit (.fetch "GET" (env.origin ++ "/assignment") none)).subjects b
          (st.emit (.fetch "GET" (env.origin ++ "/assignment") none)).dom with
      | error e => rfl
      | ok dom' =>
        simp only [withDom]
        rw [updateAssignmentStats_other _ _ _ _ id h1 h2 h3 h4]
        exact renderAssignments_other _ _ _ _ _ _ id hid hr

theorem loadReminders_other (env : Env) (st : State) (id : String)
    (hid : id ≠ "reminders-container")
    (h1 : id ≠ "total-reminders") (h2 : id ≠ "this-week-reminders")
    (h3 : id ≠ "today-reminders") :
    (loadReminders env st).dom.getElementById id = st.dom.getElementById id := by
  unfold loadReminders
  simp only []
  cases env.net.reminder with
  | rejected => rfl
  | response ok body =>
    cases body with
    | none => rfl
    | some b =>
      simp only []
      cases hr : renderReminders env.host env.now
          (st.emit (.fetch "GET" (env.origin ++ "/reminder") none)).subjects b
          (st.emit (.fetch "GET" (env.origin ++ "/reminder") none)).dom with
      | error e => rfl
      | ok dom' =>
        simp only [withDom]
        rw [updateReminderStats_other _ _ _ _ id h1 h2 h3]
        exact renderReminders_other _ _ _ _ _ _ id hid hr

theorem loadSubjects_other (env : Env) (st : State) (id : String)
    (hid : id ≠ "subjects-container")
    (h1 : id ≠ "total-subjects") (h2 : id ≠ "active-classes")
    (h3 : id ≠ "stat-active-subjects") :
    (loadSubjects env st).dom.getElementById id = st.dom.getElementById id := by
  unfold loadSubjects
  simp only []
  cases env.net.subject with
  | rejected => rfl
  | response ok body =>
    cases body with
    | none => rfl
    | some b =>
      simp only []
      cases hr : renderSubjects env.host env.random b
          (st.emit (.fetch "GET" (env.origin ++ "/subject") none)).dom with
      | error e => rfl
      | ok dom' =>
        simp only [updateSubjectStats, getElementById_assign, h1, h2, h3, if_false]
        exact renderSubjects_other _ _ _ _ _ id hid hr

theorem loadMaterials_container (env : Env) (st : State) (ok : Bool)
    (items : List Material) (cache : List Subject)
    (hnet : env.net.material = .response ok (some (.array items)))
    (hs : st.subjects = .array cache) :
    (loadMaterials env st).dom.getElementById "materials-container" =
      (st.dom.getElementById "materials-container").map (fun _ =>
        if items.length = 0 then materialsEmptyState
        else String.join (items.map (materialCard env.host (buildSubjectMap cache)))) := by
  unfold loadMaterials
  simp only [hnet, State.emit, hs, renderMaterials_cache, withDom]
  rw [updateMaterialStats_other _ _ _ (by decide) (by decide) (by decide) (by decide)]
  simp only [getElementById_assign, if_true]

theorem loadAssignments_container (env : Env) (st : State) (ok : Bool)
    (items : List Assignment) (cache : List Subject)
    (hnet : env.net.assignment = .response ok (some (.array items)))
    (hs : st.subjects = .array cache) :
    (loadAssignments env st).dom.getElementById "assignments-container" =
      (st.dom.getElementById "assignments-container").map (fun _ =>
        if items.length = 0 then assignmentsEmptyState
        else String.join
          (items.map (assignmentCard env.host env.now (buildSubjectMap cache)))) := by
  unfold loadAssignments
  simp only [hnet, State.emit, hs, renderAssignments_cache, withDom]
  rw [updateAssignmentStats_other _ _ _ _ _ (by decide) (by decide) (by decide) (by decide)]
  simp only [getElementById_assign, if_true]

theorem loadReminders_container (env : Env) (st : State) (ok : Bool)
    (items : List Reminder) (cache : List Subject)
    (hnet : env.net.reminder = .response ok (some (.array items)))
    (hs : st.subjects = .array cache) :
    (loadReminders env st).dom.getElementById "reminders-container" =
      (st.dom.getElementById "reminders-container").map (fun _ =>
        if items.length = 0 then remindersEmptyState
        else String.join ((sortReminders env.host items).map
          (reminderCard env.host env.now (buildSubjectMap cache)))) := by
  unfold loadReminders
  simp only [hnet, State.emit, hs, renderReminders_cache, withDom]
  rw [updateReminderStats_other _ _ _ _ _ (by decide) (by decide) (by decide)]
  simp only [getElementById_assign, if_true]

theorem loadSubjects_container (env : Env) (st : State) (ok : Bool) (items : List Subject)
    (hnet : env.net.subject = .response ok (some (.array items))) :
    (loadSubjects env st).subjects = .array items ∧
    (loadSubjects env st).dom.getElementById "subjects-container" =
      (st.dom.getElementById "subjects-container").map (fun _ =>
        if items.length = 0 then subjectsEmptyState
        else String.join (subjectCards env.host env.random 0 items)) := by
  unfold loadSubjects
  simp only [hnet, State.emit, renderSubjects_cache, updateSubjectStats]
  simp [getElementById_assign]

theorem dashboardRefreshed_of (env : Env) (st s1 r : State) (feed : State → State)
    (hfeed : ∀ (s : State) (id : String),
      id ∈ ["stat-active-subjects", "stat-announcements", "stat-materials",
        "stat-assignments"] →
      (feed s).dom.getElementById id = s.dom.getElementById id)
    (hbase : ∀ id ∈ ["stat-announcements", "stat-materials", "stat-assignments"],
      s1.dom.getElementById id = st.dom.getElementById id)
    (hsub : (s1.dom.getElementById "stat-active-subjects").isSome =
      (st.dom.getElementById "stat-active-subjects").isSome)
    (hr : r = if env.pathname = "/" then feed (loadDashboardStats env s1) else s1) :
    DashboardRefreshed env st r := by
  constructor
  · intro hp o1 o2 o3 o4 sd ad md asd h1 h2 h3 h4
    rw [hr, if_pos hp]
    have hdom := loadDashboardStats_dom env s1 o1 o2 o3 o4 sd ad md asd h1 h2 h3 h4
    refine ⟨?_, ?_, ?_, ?_⟩
    · rw [hfeed _ _ (by decide), hdom]
      simp only [getElementById_assign]
      simp only [show ¬ ("stat-active-subjects" = "stat-assignments") by decide,
        show ¬ ("stat-active-subjects" = "stat-materials") by decide,
        show ¬ ("stat-active-subjects" = "stat-announcements") by decide, if_false, if_true]
      exact map_const_of_isSome _ _ _ hsub
    · rw [hfeed _ _ (by decide), hdom]
      simp only [getElementById_assign]
      simp only [show ¬ ("stat-announcements" = "stat-assignments") by decide,
        show ¬ ("stat-announcements" = "stat-materials") by decide,
        show ¬ ("stat-announcements" = "stat-active-subjects") by decide, if_false, if_true]
      rw [hbase _ (by decide)]
    · rw [hfeed _ _ (by decide), hdom]
      simp only [getElementById_assign]
      simp only [show ¬ ("stat-materials" = "stat-assignments") by decide,
        show ¬ ("stat-materials" = "stat-announcements") by decide,
        show ¬ ("stat-materials" = "stat-active-subjects") by decide, if_false, if_true]
      rw [hbase _ (by decide)]
    · rw [hfeed _ _ (by decide), hdom]
      simp only [getElementById_assign]
      simp only [show ¬ ("stat-assignments" = "stat-materials") by decide,
        show ¬ ("stat-assignments" = "stat-announcements") by decide,
        show ¬ ("stat-assignments" = "stat-active-subjects") by decide, if_false, if_true]
      rw [hbase _ (by decide)]
  · intro hp id hid
    rw [hr, if_neg hp]
    exact hbase id hid

theorem container_after_dashboard (env : Env) (s1 r : State) (feed : State → State)
    (c : String)
    (hfeed : ∀ s : State, (feed s).dom.getElementById c = s.dom.getElementById c)
    (h1 : c ≠ "stat-active-subjects") (h2 : c ≠ "stat-announcements")
    (h3 : c ≠ "stat-materials") (h4 : c ≠ "stat-assignments")
    (hr : r = if env.pathname = "/" then feed (loadDashboardStats env s1) else s1) :
    r.dom.getElementById c = s1.dom.getElementById c := by
  rw [hr]
  split
  · rw [hfeed, loadDashboardStats_other env s1 c h1 h2 h3 h4]
  · rfl

theorem latest_keeps_counters (env : Env) (s : State) (id : String)
    (hid : id ∈ ["stat-active-subjects", "stat-announcements", "stat-materials",
      "stat-assignments"]) :
    (loadLatestActivity env s).dom.getElementById id = s.dom.getElementById id := by
  apply loadLatestActivity_other
  intro hEq
  subst hEq
  revert hid
  decide

theorem upcoming_keeps_counters (env : Env) (s : State) (id : String)
    (hid : id ∈ ["stat-active-subjects", "stat-announcements", "stat-materials",
      "stat-assignments"]) :
    (loadUpcomingDeadlines env s).dom.getElementById id = s.dom.getElementById id := by
  apply loadUpcomingDeadlines_other
  · intro hEq
    subst hEq
    revert hid
    decide
  · intro hEq
    subst hEq
    revert hid
    decide

theorem isSome_getElementById_assign (dom : Dom) (id id' v : String) :
    ((dom.assign id v).getElementById id').isSome = (dom.getElementById id').isSome := by
  rw [getElementById_assign]
  split
  · cases dom.getElementById id' <;> rfl
  · rfl

theorem renderSubjects_isSome (h : Host) (random : Nat → Fin 20) (subjects : JsonValue Subject)
    (dom dom' : Dom) (id : String) (hr : renderSubjects h random subjects dom = .ok dom') :
    (dom'.getElementById id).isSome = (dom.getElementById id).isSome := by
  unfold renderSubjects at hr
  cases hc : dom.getElementById "subjects-container" with
  | none =>
    rw [hc] at hr
    cases hr
    rfl
  | some old =>
    rw [hc] at hr
    simp only [] at hr
    split at hr
    · cases hr
      exact isSome_getElementById_assign _ _ _ _
    · cases hs : subjects.elements "subjects.map" with
      | error e => simp [hs, bind, Except.bind] at hr
      | ok l =>
        simp [hs, bind, Except.bind] at hr
        subst hr
        exact isSome_getElementById_assign _ _ _ _

theorem loadSubjects_isSome (env : Env) (st : State) (id : String) :
    ((loadSubjects env st).dom.getElementById id).isSome = (st.dom.getElementById id).isSome := by
  unfold loadSubjects
  simp only []
  cases env.net.subject with
  | rejected => rfl
  | response ok body =>
    cases body with
    | none => rfl
    | some b =>
      simp only []
      cases hr : renderSubjects env.host env.random b
          (st.emit (.fetch "GET" (env.origin ++ "/subject") none)).dom with
      | error e => rfl
      | ok dom' =>
        simp only [updateSubjectStats, isSome_getElementById_assign]
        exact renderSubjects_isSome _ _ _ _ _ id hr

/-! ## Outcome of the save and delete handlers: C12 - C14 -/

/-- C12: after a 2xx response each save handler (`saveSubject` on a valid
form, `saveAnnouncement`, `saveMaterial`, `saveAssignment`, `saveReminder`)
has closed the dialog and emptied the editing-id slot; it has issued the GET
of its own list after the request, and when that GET answers with a list the
container of the page holds the rendering of exactly that list (for
`saveSubject` the cache holds it too); the four requests of
`loadDashboardStats` (and the request of the feed of the handler) follow
exactly when the current path is "/", and then the dashboard counters show
the lengths of the freshly fetched lists, while on any other path the
counters keep their text. -/
theorem save_success_reloads (env : Env) (st : State) (body : Option (JsonValue Unit))
    (hok : env.net.mutation = .response true body) :
    (∀ n t : String, jsTrim n ≠ "" → jsTrim t ≠ "" →
      saveSubject env n t st =
        (if env.pathname = "/" then
          loadDashboardStats env (loadSubjects env
            (closeModal (st.emit (subjectRequest env n t st))))
        else loadSubjects env (closeModal (st.emit (subjectRequest env n t st)))) ∧
      (saveSubject env n t st).modal.display = "none" ∧
      (saveSubject env n t st).currentEditingId = none ∧
      (saveSubject env n t st).requests =
        st.requests ++ [subjectRequest env n t st, .fetch "GET" (env.origin ++ "/subject") none] ++
          (if env.pathname = "/" then dashboardRequests env.origin else []) ∧
      (∀ (ok : Bool) (items : List Subject),
        env.net.subject = .response ok (some (.array items)) →
        (saveSubject env n t st).subjects = .array items ∧
        (saveSubject env n t st).dom.getElementById "subjects-container" =
          (st.dom.getElementById "subjects-container").map (fun _ =>
            if items.length = 0 then subjectsEmptyState
            else String.join (subjectCards env.host env.random 0 items))) ∧
      DashboardRefreshed env st (saveSubject env n t st)) ∧
    (∀ sf tf cf : String,
      saveAnnouncement env sf tf cf st =
        (if env.pathname = "/" then
          loadLatestActivity env (loadDashboardStats env (loadAnnouncements env (closeModal (st.emit (announcementRequest env sf tf cf)))))
        else loadAnnouncements env (closeModal (st.emit (announcementRequest env sf tf cf)))) ∧
      (saveAnnouncement env sf tf cf st).modal.display = "none" ∧
      (saveAnnouncement env sf tf cf st).currentEditingId = none ∧
      (saveAnnouncement env sf tf cf st).requests =
        st.requests ++ [announcementRequest env sf tf cf, .fetch "GET" (env.origin ++ "/announcement") none] ++
          (if env.pathname = "/" then dashboardRequests env.origin ++
            [.fetch "GET" (env.origin ++ "/feed/latest") none] else []) ∧
      (∀ (ok : Bool) (items : List Announcement) (cache : List Subject),
        env.net.announcement = .response ok (some (.array items)) → st.subjects = .array cache →
        (saveAnnouncement env sf tf cf st).dom.getElementById "announcements-container" =
          (st.dom.getElementById "announcements-container").map (fun _ =>
            if items.length = 0 then announcementsEmptyState
            else String.join (items.map (announcementCard env.host (buildSubjectMap cache))))) ∧
      DashboardRefreshed env st (saveAnnouncement env sf tf cf st)) ∧
    (∀ sf tf df uf : String,
      saveMaterial env sf tf df uf st =
        (if env.pathname = "/" then
          loadLatestActivity env (loadDashboardStats env (loadMaterials env (closeModal (st.emit (materialRequest env sf tf df uf)))))
        else loadMaterials env (closeModal (st.emit (materialRequest env sf tf df uf)))) ∧
      (saveMaterial env sf tf df uf st).modal.display = "none" ∧
      (saveMaterial env sf tf df uf st).currentEditingId = none ∧
      (saveMaterial env sf tf df uf st).requests =
        st.requests ++ [materialRequest env sf tf df uf, .fetch "GET" (env.origin ++ "/material") none] ++
          (if env.pathname = "/" then dashboardRequests env.origin ++
            [.fetch "GET" (env.origin ++ "/feed/latest") none] else []) ∧
      (∀ (ok : Bool) (items : List Material) (cache : List Subject),
        env.net.material = .response ok (some (.array items)) → st.subjects = .array cache →
        (saveMaterial env sf tf df uf st).dom.getElementById "materials-container" =
          (st.dom.getElementById "materials-container").map (fun _ =>
            if items.length = 0 then materialsEmptyState
            else String.join (items.map (materialCard env.host (buildSubjectMap cache))))) ∧
      DashboardRefreshed env st (saveMaterial env sf tf df uf st)) ∧
    (∀ sf tf inf df : String,
      saveAssignment env sf tf inf df st =
        (if env.pathname = "/" then
          loadUpcomingDeadlines env (loadDashboardStats env (loadAssignments env (closeModal (st.emit (assignmentRequest env sf tf inf df)))))
        else loadAssignments env (closeModal (st.emit (assignmentRequest env sf tf inf df)))) ∧
      (saveAssignment env sf tf inf df st).modal.display = "none" ∧
      (saveAssignment env sf tf inf df st).currentEditingId = none ∧
      (saveAssignment env sf tf inf df st).requests =
        st.requests ++ [assignmentRequest env sf tf inf df, .fetch "GET" (env.origin ++ "/assignment") none] ++
          (if env.pathname = "/" then dashboardRequests env.origin ++
            [.fetch "GET" (env.origin ++ "/feed/upcoming-deadlines") none] else []) ∧
      (∀ (ok : Bool) (items : List Assignment) (cache : List Subject),
        env.net.assignment = .response ok (some (.array items)) → st.subjects = .array cache →
        (saveAssignment env sf tf inf df st).dom.getElementById "assignments-container" =
          (st.dom.getElementById "assignments-container").map (fun _ =>
            if items.length = 0 then assignmentsEmptyState
            else String.join (items.map (assignmentCard env.host env.now (buildSubjectMap cache))))) ∧
      DashboardRefreshed env st (saveAssignment env sf tf inf df st)) ∧
    (∀ sf mf rf : String,
      saveReminder env sf mf rf st =
        (if env.pathname = "/" then
          loadUpcomingDeadlines env (loadDashboardStats env (loadReminders env (closeModal (st.emit (reminderRequest env sf mf rf)))))
        else loadReminders env (closeModal (st.emit (reminderRequest env sf mf rf)))) ∧
      (saveReminder env sf mf rf st).modal.display = "none" ∧
      (saveReminder env sf mf rf st).currentEditingId = none ∧
      (saveReminder env sf mf rf st).requests =
        st.requests ++ [reminderRequest env sf mf rf, .fetch "GET" (env.origin ++ "/reminder") none] ++
          (if env.pathname = "/" then dashboardRequests env.origin ++
            [.fetch "GET" (env.origin ++ "/feed/upcoming-deadlines") none] else []) ∧
      (∀ (ok : Bool) (items : List Reminder) (cache : List Subject),
        env.net.reminder = .response ok (some (.array items)) → st.subjects = .array cache →
        (saveReminder env sf mf rf st).dom.getElementById "reminders-container" =
          (st.dom.getElementById "reminders-container").map (fun _ =>
            if items.length = 0 then remindersEmptyState
            else String.join ((sortReminders env.host items).map (reminderCard env.host env.now (buildSubjectMap cache))))) ∧
      DashboardRefreshed env st (saveReminder env sf mf rf st)) := by
  refine ⟨fun n t hn ht => ?_, fun sf tf cf => ?_, fun sf tf df uf => ?_,
    fun sf tf inf df => ?_, fun sf mf rf => ?_⟩
  · have heq : saveSubject env n t st =
        (if env.pathname = "/" then
          loadDashboardStats env (loadSubjects env
            (closeModal (st.emit (subjectRequest env n t st))))
        else loadSubjects env (closeModal (st.emit (subjectRequest env n t st)))) := by
      rw [saveSubject_valid env n t st hn ht, hok]
    refine ⟨heq, ?_, ?_, ?_, ?_, ?_⟩
    · rw [heq]
      split <;>
      simp [loadDashboardStats_modal, loadLatestActivity_modal,
        loadUpcomingDeadlines_modal, loadSubjects_modal, loadAnnouncements_modal,
        loadMaterials_modal, loadAssignments_modal, loadReminders_modal,
        loadDashboardStats_currentEditingId, loadLatestActivity_currentEditingId,
        loadUpcomingDeadlines_currentEditingId, loadSubjects_currentEditingId,
        loadAnnouncements_currentEditingId, loadMaterials_currentEditingId,
        loadAssignments_currentEditingId, loadReminders_currentEditingId,
        loadDashboardStats_requests, loadLatestActivity_requests,
        loadUpcomingDeadlines_requests, loadSubjects_requests, loadAnnouncements_requests,
        loadMaterials_requests, loadAssignments_requests, loadReminders_requests,
        modal_closeModal, currentEditingId_closeModal, requests_closeModal, requests_emit_fetch,
        subjectRequest, announcementRequest, materialRequest, assignmentRequest,
        reminderRequest]
    · rw [heq]
      split <;>
      simp [loadDashboardStats_modal, loadLatestActivity_modal,
        loadUpcomingDeadlines_modal, loadSubjects_modal, loadAnnouncements_modal,
        loadMaterials_modal, loadAssignments_modal, loadReminders_modal,
        loadDashboardStats_currentEditingId, loadLatestActivity_currentEditingId,
        loadUpcomingDeadlines_currentEditingId, loadSubjects_currentEditingId,
        loadAnnouncements_currentEditingId, loadMaterials_currentEditingId,
        loadAssignments_currentEditingId, loadReminders_currentEditingId,
        loadDashboardStats_requests, loadLatestActivity_requests,
        loadUpcomingDeadlines_requests, loadSubjects_requests, loadAnnouncements_requests,
        loadMaterials_requests, loadAssignments_requests, loadReminders_requests,
        modal_closeModal, currentEditingId_closeModal, requests_closeModal, requests_emit_fetch,
        subjectRequest, announcementRequest, materialRequest, assignmentRequest,
        reminderRequest]
    · rw [heq]
      split <;>
      simp [loadDashboardStats_modal, loadLatestActivity_modal,
        loadUpcomingDeadlines_modal, loadSubjects_modal, loadAnnouncements_modal,
        loadMaterials_modal, loadAssignments_modal, loadReminders_modal,
        loadDashboardStats_currentEditingId, loadLatestActivity_currentEditingId,
        loadUpcomingDeadlines_currentEditingId, loadSubjects_currentEditingId,
        loadAnnouncements_currentEditingId, loadMaterials_currentEditingId,
        loadAssignments_currentEditingId, loadReminders_currentEditingId,
        loadDashboardStats_requests, loadLatestActivity_requests,
        loadUpcomingDeadlines_requests, loadSubjects_requests, loadAnnouncements_requests,
        loadMaterials_requests, loadAssignments_requests, loadReminders_requests,
        modal_closeModal, currentEditingId_closeModal, requests_closeModal, requests_emit_fetch,
        subjectRequest, announcementRequest, materialRequest, assignmentRequest,
        reminderRequest]
    · intro ok items hnet
      have hload := loadSubjects_container env
        (closeModal (st.emit (subjectRequest env n t st))) ok items hnet
      constructor
      · rw [heq]
        split
        · rw [(loadDashboardStats_frame env _).2.2.1]
          exact hload.1
        · exact hload.1
      · rw [container_after_dashboard env
          (loadSubjects env (closeModal (st.emit (subjectRequest env n t st)))) _
          (fun s => s) "subjects-container" (fun _ => rfl)
          (by decide) (by decide) (by decide) (by decide) heq]
        exact hload.2
    · refine dashboardRefreshed_of env st
        (loadSubjects env (closeModal (st.emit (subjectRequest env n t st)))) _
        (fun s => s) (fun _ _ _ => rfl) ?_ ?_ heq
      · intro id hid
        rw [loadSubjects_other env _ id
          (by intro hEq; subst hEq; revert hid; decide)
          (by intro hEq; subst hEq; revert hid; decide)
          (by intro hEq; subst hEq; revert hid; decide)
          (by intro hEq; subst hEq; revert hid; decide)]
        rfl
      · rw [loadSubjects_isSome]
        rfl
  · have heq : saveAnnouncement env sf tf cf st =
        (if env.pathname = "/" then
          loadLatestActivity env (loadDashboardStats env (loadAnnouncements env
            (closeModal (st.emit (announcementRequest env sf tf cf)))))
        else loadAnnouncements env (closeModal (st.emit (announcementRequest env sf tf cf)))) := by
      unfold saveAnnouncement announcementRequest
      simp only [hok]
    refine ⟨heq, ?_, ?_, ?_, ?_, ?_⟩
    · rw [heq]
      split <;>
      simp [loadDashboardStats_modal, loadLatestActivity_modal,
        loadUpcomingDeadlines_modal, loadSubjects_modal, loadAnnouncements_modal,
        loadMaterials_modal, loadAssignments_modal, loadReminders_modal,
        loadDashboardStats_currentEditingId, loadLatestActivity_currentEditingId,
        loadUpcomingDeadlines_currentEditingId, loadSubjects_currentEditingId,
        loadAnnouncements_currentEditingId, loadMaterials_currentEditingId,
        loadAssignments_currentEditingId, loadReminders_currentEditingId,
        loadDashboardStats_requests, loadLatestActivity_requests,
        loadUpcomingDeadlines_requests, loadSubjects_requests, loadAnnouncements_requests,
        loadMaterials_requests, loadAssignments_requests, loadReminders_requests,
        modal_closeModal, currentEditingId_closeModal, requests_closeModal, requests_emit_fetch,
        subjectRequest, announcementRequest, materialRequest, assignmentRequest,
        reminderRequest]
    · rw [heq]
      split <;>
      simp [loadDashboardStats_modal, loadLatestActivity_modal,
        loadUpcomingDeadlines_modal, loadSubjects_modal, loadAnnouncements_modal,
        loadMaterials_modal, loadAssignments_modal, loadReminders_modal,
        loadDashboardStats_currentEditingId, loadLatestActivity_currentEditingId,
        loadUpcomingDeadlines_currentEditingId, loadSubjects_currentEditingId,
        loadAnnouncements_currentEditingId, loadMaterials_currentEditingId,
        loadAssignments_currentEditingId, loadReminders_currentEditingId,
        loadDashboardStats_requests, loadLatestActivity_requests,
        loadUpcomingDeadlines_requests, loadSubjects_requests, loadAnnouncements_requests,
        loadMaterials_requests, loadAssignments_requests, loadReminders_requests,
        modal_closeModal, currentEditingId_closeModal, requests_closeModal, requests_emit_fetch,
        subjectRequest, announcementRequest, materialRequest, assignmentRequest,
        reminderRequest]
    · rw [heq]
      split <;>
      simp [loadDashboardStats_modal, loadLatestActivity_modal,
        loadUpcomingDeadlines_modal, loadSubjects_modal, loadAnnouncements_modal,
        loadMaterials_modal, loadAssignments_modal, loadReminders_modal,
        loadDashboardStats_currentEditingId, loadLatestActivity_currentEditingId,
        loadUpcomingDeadlines_currentEditingId, loadSubjects_currentEditingId,
        loadAnnouncements_currentEditingId, loadMaterials_currentEditingId,
        loadAssignments_currentEditingId, loadReminders_currentEditingId,
        loadDashboardStats_requests, loadLatestActivity_requests,
        loadUpcomingDeadlines_requests, loadSubjects_requests, loadAnnouncements_requests,
        loadMaterials_requests, loadAssignments_requests, loadReminders_requests,
        modal_closeModal, currentEditingId_closeModal, requests_closeModal, requests_emit_fetch,
        subjectRequest, announcementRequest, materialRequest, assignmentRequest,
        reminderRequest]
    · intro ok items cache hnet hs
      rw [container_after_dashboard env
        (loadAnnouncements env (closeModal (st.emit (announcementRequest env sf tf cf)))) _
        (loadLatestActivity env) "announcements-container"
        (fun s => loadLatestActivity_other env s _ (by decide))
        (by decide) (by decide) (by decide) (by decide) heq]
      exact loadAnnouncements_container env (closeModal (st.emit (announcementRequest env sf tf cf))) ok items cache
        hnet hs
    · refine dashboardRefreshed_of env st
        (loadAnnouncements env (closeModal (st.emit (announcementRequest env sf tf cf)))) _
        (loadLatestActivity env) (latest_keeps_counters env) ?_ ?_ heq
      · intro id hid
        rw [loadAnnouncements_other env _ id
          (by intro hEq; subst hEq; revert hid; decide)]
        rfl
      · rw [loadAnnouncements_other env _ _ (by decide)]
        rfl
  · have heq : saveMaterial env sf tf df uf st =
        (if env.pathname = "/" then
          loadLatestActivity env (loadDashboardStats env (loadMaterials env
            (closeModal (st.emit (materialRequest env sf tf df uf)))))
        else loadMaterials env (closeModal (st.emit (materialRequest env sf tf df uf)))) := by
      unfold saveMaterial materialRequest
      simp only [hok]
    refine ⟨heq, ?_, ?_, ?_, ?_, ?_⟩
    · rw [heq]
      split <;>
      simp [loadDashboardStats_modal, loadLatestActivity_modal,
        loadUpcomingDeadlines_modal, loadSubjects_modal, loadAnnouncements_modal,
        loadMaterials_modal, loadAssignments_modal, loadReminders_modal,
        loadDashboardStats_currentEditingId, loadLatestActivity_currentEditingId,
        loadUpcomingDeadlines_currentEditingId, loadSubjects_currentEditingId,
        loadAnnouncements_currentEditingId, loadMaterials_currentEditingId,
        loadAssignments_currentEditingId, loadReminders_currentEditingId,
        loadDashboardStats_requests, loadLatestActivity_requests,
        loadUpcomingDeadlines_requests, loadSubjects_requests, loadAnnouncements_requests,
        loadMaterials_requests, loadAssignments_requests, loadReminders_requests,
        modal_closeModal, currentEditingId_closeModal, requests_closeModal, requests_emit_fetch,
        subjectRequest, announcementRequest, materialRequest, assignmentRequest,
        reminderRequest]
    · rw [heq]
      split <;>
      simp [loadDashboardStats_modal, loadLatestActivity_modal,
        loadUpcomingDeadlines_modal, loadSubjects_modal, loadAnnouncements_modal,
        loadMaterials_modal, loadAssignments_modal, loadReminders_modal,
        loadDashboardStats_currentEditingId, loadLatestActivity_currentEditingId,
        loadUpcomingDeadlines_currentEditingId, loadSubjects_currentEditingId,
        loadAnnouncements_currentEditingId, loadMaterials_currentEditingId,
        loadAssignments_currentEditingId, loadReminders_currentEditingId,
        loadDashboardStats_requests, loadLatestActivity_requests,
        loadUpcomingDeadlines_requests, loadSubjects_requests, loadAnnouncements_requests,
        loadMaterials_requests, loadAssignments_requests, loadReminders_requests,
        modal_closeModal, currentEditingId_closeModal, requests_closeModal, requests_emit_fetch,
        subjectRequest, announcementRequest, materialRequest, assignmentRequest,
        reminderRequest]
    · rw [heq]
      split <;>
      simp [loadDashboardStats_modal, loadLatestActivity_modal,
        loadUpcomingDeadlines_modal, loadSubjects_modal, loadAnnouncements_modal,
        loadMaterials_modal, loadAssignments_modal, loadReminders_modal,
        loadDashboardStats_currentEditingId, loadLatestActivity_currentEditingId,
        loadUpcomingDeadlines_currentEditingId, loadSubjects_currentEditingId,
        loadAnnouncements_currentEditingId, loadMaterials_currentEditingId,
        loadAssignments_currentEditingId, loadReminders_currentEditingId,
        loadDashboardStats_requests, loadLatestActivity_requests,
        loadUpcomingDeadlines_requests, loadSubjects_requests, loadAnnouncements_requests,
        loadMaterials_requests, loadAssignments_requests, loadReminders_requests,
        modal_closeModal, currentEditingId_closeModal, requests_closeModal, requests_emit_fetch,
        subjectRequest, announcementRequest, materialRequest, assignmentRequest,
        reminderRequest]
    · intro ok items cache hnet hs
      rw [container_after_dashboard env
        (loadMaterials env (closeModal (st.emit (materialRequest env sf tf df uf)))) _
        (loadLatestActivity env) "materials-container"
        (fun s => loadLatestActivity_other env s _ (by decide))
        (by decide) (by decide) (by decide) (by decide) heq]
      exact loadMaterials_container env (closeModal (st.emit (materialRequest env sf tf df uf))) ok items cache
        hnet hs
    · refine dashboardRefreshed_of env st
        (loadMaterials env (closeModal (st.emit (materialRequest env sf tf df uf)))) _
        (loadLatestActivity env) (latest_keeps_counters env) ?_ ?_ heq
      · intro id hid
        rw [loadMaterials_other env _ id
          (by intro hEq; subst hEq; revert hid; decide)
          (by intro hEq; subst hEq; revert hid; decide)
          (by intro hEq; subst hEq; revert hid; decide)
          (by intro hEq; subst hEq; revert hid; decide)
          (by intro hEq; subst hEq; revert hid; decide)]
        rfl
      · rw [loadMaterials_other env _ _ (by decide) (by decide) (by decide) (by decide) (by decide)]
        rfl
  · have heq : saveAssignment env sf tf inf df st =
        (if env.pathname = "/" then
          loadUpcomingDeadlines env (loadDashboardStats env (loadAssignments env
            (closeModal (st.emit (assignmentRequest env sf tf inf df)))))
        else loadAssignments env (closeModal (st.emit (assignmentRequest env sf tf inf df)))) := by
      unfold saveAssignment assignmentRequest
      simp only [hok]
    refine ⟨heq, ?_, ?_, ?_, ?_, ?_⟩
    · rw [heq]
      split <;>
      simp [loadDashboardStats_modal, loadLatestActivity_modal,
        loadUpcomingDeadlines_modal, loadSubjects_modal, loadAnnouncements_modal,
        loadMaterials_modal, loadAssignments_modal, loadReminders_modal,
        loadDashboardStats_currentEditingId, loadLatestActivity_currentEditingId,
        loadUpcomingDeadlines_currentEditingId, loadSubjects_currentEditingId,
        loadAnnouncements_currentEditingId, loadMaterials_currentEditingId,
        loadAssignments_currentEditingId, loadReminders_currentEditingId,
        loadDashboardStats_requests, loadLatestActivity_requests,
        loadUpcomingDeadlines_requests, loadSubjects_requests, loadAnnouncements_requests,
        loadMaterials_requests, loadAssignments_requests, loadReminders_requests,
        modal_closeModal, currentEditingId_closeModal, requests_closeModal, requests_emit_fetch,
        subjectRequest, announcementRequest, materialRequest, assignmentRequest,
        reminderRequest]
    · rw [heq]
      split <;>
      simp [loadDashboardStats_modal, loadLatestActivity_modal,
        loadUpcomingDeadlines_modal, loadSubjects_modal, loadAnnouncements_modal,
        loadMaterials_modal, loadAssignments_modal, loadReminders_modal,
        loadDashboardStats_currentEditingId, loadLatestActivity_currentEditingId,
        loadUpcomingDeadlines_currentEditingId, loadSubjects_currentEditingId,
        loadAnnouncements_currentEditingId, loadMaterials_currentEditingId,
        loadAssignments_currentEditingId, loadReminders_currentEditingId,
        loadDashboardStats_requests, loadLatestActivity_requests,
        loadUpcomingDeadlines_requests, loadSubjects_requests, loadAnnouncements_requests,
        loadMaterials_requests, loadAssignments_requests, loadReminders_requests,
        modal_closeModal, currentEditingId_closeModal, requests_closeModal, requests_emit_fetch,
        subjectRequest, announcementRequest, materialRequest, assignmentRequest,
        reminderRequest]
    · rw [heq]
      split <;>
      simp [loadDashboardStats_modal, loadLatestActivity_modal,
        loadUpcomingDeadlines_modal, loadSubjects_modal, loadAnnouncements_modal,
        loadMaterials_modal, loadAssignments_modal, loadReminders_modal,
        loadDashboardStats_currentEditingId, loadLatestActivity_currentEditingId,
        loadUpcomingDeadlines_currentEditingId, loadSubjects_currentEditingId,
        loadAnnouncements_currentEditingId, loadMaterials_currentEditingId,
        loadAssignments_currentEditingId, loadReminders_currentEditingId,
        loadDashboardStats_requests, loadLatestActivity_requests,
        loadUpcomingDeadlines_requests, loadSubjects_requests, loadAnnouncements_requests,
        loadMaterials_requests, loadAssignments_requests, loadReminders_requests,
        modal_closeModal, currentEditingId_closeModal, requests_closeModal, requests_emit_fetch,
        subjectRequest, announcementRequest, materialRequest, assignmentRequest,
        reminderRequest]
    · intro ok items cache hnet hs
      rw [container_after_dashboard env
        (loadAssignments env (closeModal (st.emit (assignmentRequest env sf tf inf df)))) _
        (loadUpcomingDeadlines env) "assignments-container"
        (fun s => loadUpcomingDeadlines_other env s _ (by decide) (by decide))
        (by decide) (by decide) (by decide) (by decide) heq]
      exact loadAssignments_container env (closeModal (st.emit (assignmentRequest env sf tf inf df))) ok items cache
        hnet hs
    · refine dashboardRefreshed_of env st
        (loadAssignments env (closeModal (st.emit (assignmentRequest env sf tf inf df)))) _
        (loadUpcomingDeadlines env) (upcoming_keeps_counters env) ?_ ?_ heq
      · intro id hid
        rw [loadAssignments_other env _ id
          (by intro hEq; subst hEq; revert hid; decide)
          (by intro hEq; subst hEq; revert hid; decide)
          (by intro hEq; subst hEq; revert hid; decide)
          (by intro hEq; subst hEq; revert hid; decide)
          (by intro hEq; subst hEq; revert hid; decide)]
        rfl
      · rw [loadAssignments_other env _ _ (by decide) (by decide) (by decide) (by decide) (by decide)]
        rfl
  · have heq : saveReminder env sf mf rf st =
        (if env.pathname = "/" then
          loadUpcomingDeadlines env (loadDashboardStats env (loadReminders env
            (closeModal (st.emit (reminderRequest env sf mf rf)))))
        else loadReminders env (closeModal (st.emit (reminderRequest env sf mf rf)))) := by
      unfold saveReminder reminderRequest
      simp only [hok]
    refine ⟨heq, ?_, ?_, ?_, ?_, ?_⟩
    · rw [heq]
      split <;>
      simp [loadDashboardStats_modal, loadLatestActivity_modal,
        loadUpcomingDeadlines_modal, loadSubjects_modal, loadAnnouncements_modal,
        loadMaterials_modal, loadAssignments_modal, loadReminders_modal,
        loadDashboardStats_currentEditingId, loadLatestActivity_currentEditingId,
        loadUpcomingDeadlines_currentEditingId, loadSubjects_currentEditingId,
        loadAnnouncements_currentEditingId, loadMaterials_currentEditingId,
        loadAssignments_currentEditingId, loadReminders_currentEditingId,
        loadDashboardStats_requests, loadLatestActivity_requests,
        loadUpcomingDeadlines_requests, loadSubjects_requests, loadAnnouncements_requests,
        loadMaterials_requests, loadAssignments_requests, loadReminders_requests,
        modal_closeModal, currentEditingId_closeModal, requests_closeModal, requests_emit_fetch,
        subjectRequest, announcementRequest, materialRequest, assignmentRequest,
        reminderRequest]
    · rw [heq]
      split <;>
      simp [loadDashboardStats_modal, loadLatestActivity_modal,
        loadUpcomingDeadlines_modal, loadSubjects_modal, loadAnnouncements_modal,
        loadMaterials_modal, loadAssignments_modal, loadReminders_modal,
        loadDashboardStats_currentEditingId, loadLatestActivity_currentEditingId,
        loadUpcomingDeadlines_currentEditingId, loadSubjects_currentEditingId,
        loadAnnouncements_currentEditingId, loadMaterials_currentEditingId,
        loadAssignments_currentEditingId, loadReminders_currentEditingId,
        loadDashboardStats_requests, loadLatestActivity_requests,
        loadUpcomingDeadlines_requests, loadSubjects_requests, loadAnnouncements_requests,
        loadMaterials_requests, loadAssignments_requests, loadReminders_requests,
        modal_closeModal, currentEditingId_closeModal, requests_closeModal, requests_emit_fetch,
        subjectRequest, announcementRequest, materialRequest, assignmentRequest,
        reminderRequest]
    · rw [heq]
      split <;>
      simp [loadDashboardStats_modal, loadLatestActivity_modal,
        loadUpcomingDeadlines_modal, loadSubjects_modal, loadAnnouncements_modal,
        loadMaterials_modal, loadAssignments_modal, loadReminders_modal,
        loadDashboardStats_currentEditingId, loadLatestActivity_currentEditingId,
        loadUpcomingDeadlines_currentEditingId, loadSubjects_currentEditingId,
        loadAnnouncements_currentEditingId, loadMaterials_currentEditingId,
        loadAssignments_currentEditingId, loadReminders_currentEditingId,
        loadDashboardStats_requests, loadLatestActivity_requests,
        loadUpcomingDeadlines_requests, loadSubjects_requests, loadAnnouncements_requests,
        loadMaterials_requests, loadAssignments_requests, loadReminders_requests,
        modal_closeModal, currentEditingId_closeModal, requests_closeModal, requests_emit_fetch,
        subjectRequest, announcementRequest, materialRequest, assignmentRequest,
        reminderRequest]
    · intro ok items cache hnet hs
      rw [container_after_dashboard env
        (loadReminders env (closeModal (st.emit (reminderRequest env sf mf rf)))) _
        (loadUpcomingDeadlines env) "reminders-container"
        (fun s => loadUpcomingDeadlines_other env s _ (by decide) (by decide))
        (by decide) (by decide) (by decide) (by decide) heq]
      exact loadReminders_container env (closeModal (st.emit (reminderRequest env sf mf rf))) ok items cache
        hnet hs
    · refine dashboardRefreshed_of env st
        (loadReminders env (closeModal (st.emit (reminderRequest env sf mf rf)))) _
        (loadUpcomingDeadlines env) (upcoming_keeps_counters env) ?_ ?_ heq
      · intro id hid
        rw [loadReminders_other env _ id
          (by intro hEq; subst hEq; revert hid; decide)
          (by intro hEq; subst hEq; revert hid; decide)
          (by intro hEq; subst hEq; revert hid; decide)
          (by intro hEq; subst hEq; revert hid; decide)]
        rfl
      · rw [loadReminders_other env _ _ (by decide) (by decide) (by decide) (by decide)]
        rfl

theorem save_success_reloads_witness :
    postedEnv.net.mutation = .response true none ∧
    (jsTrim "Algebra" ≠ "" ∧ jsTrim "Prof. X" ≠ "") ∧
    ((saveSubject postedEnv "Algebra" "Prof. X" sampleState).modal.display = "none" ∧
      (saveSubject postedEnv "Algebra" "Prof. X" sampleState).currentEditingId = none) ∧
    (postedEnv.net.announcement = .response true (some (.array [orphanAnnouncement])) ∧
      sampleState.subjects = .array sampleSubjects ∧
      (saveAnnouncement postedEnv "1" "Quiz" "Bring a pen" sampleState).dom.getElementById
          "announcements-container" =
        (sampleState.dom.getElementById "announcements-container").map (fun _ =>
          if [orphanAnnouncement].length = 0 then announcementsEmptyState
          else String.join ([orphanAnnouncement].map
            (announcementCard postedEnv.host (buildSubjectMap sampleSubjects))))) ∧
    (dashboardEnv.net.mutation = .response true none ∧
      dashboardEnv.pathname = "/" ∧
      (saveAnnouncement dashboardEnv "1" "Quiz" "Bring a pen" dashboardState).dom.getElementById
          "stat-announcements" =
        (dashboardState.dom.getElementById "stat-announcements").map (fun _ =>
          lengthText (JsonValue.array [orphanAnnouncement]).length) ∧
      (saveAnnouncement dashboardEnv "1" "Quiz" "Bring a pen" dashboardState).dom.getElementById
          "stat-announcements" = some "1" ∧
      (saveAnnouncement postedEnv "1" "Quiz" "Bring a pen" dashboardState).dom.getElementById
          "stat-announcements" = some "0") :=
  ⟨rfl, by decide,
    ⟨((save_success_reloads postedEnv sampleState none rfl).1 "Algebra" "Prof. X" (by decide)
        (by decide)).2.1,
      ((save_success_reloads postedEnv sampleState none rfl).1 "Algebra" "Prof. X" (by decide)
        (by decide)).2.2.1⟩,
    ⟨rfl, rfl,
      ((save_success_reloads postedEnv sampleState none rfl).2.1 "1" "Quiz"
        "Bring a pen").2.2.2.2.1 true [orphanAnnouncement] sampleSubjects rfl rfl⟩,
    ⟨rfl, rfl,
      ((((save_success_reloads dashboardEnv dashboardState none rfl).2.1 "1" "Quiz"
        "Bring a pen").2.2.2.2.2).1 rfl true true true true (.array sampleSubjects)
        (.array [orphanAnnouncement]) (.array []) (.array []) rfl rfl rfl rfl).2.1,
      by decide, by decide⟩⟩

/-- C13: when the request of a save handler fails (the fetch rejects, or the
status is not 2xx) the dialog stays as it was, the editing-id slot, the
subject cache and the document keep their values, no reload request is
issued, and exactly one message is shown to the user; a confirmed delete
operation whose request fails behaves the same, so the list stays as rendered. -/
theorem failed_mutation_keeps_state (env : Env) (st : State)
    (hfail : env.net.mutation = .rejected ∨ ∃ body, env.net.mutation = .response false body) :
    (∀ n t : String, jsTrim n ≠ "" → jsTrim t ≠ "" →
      FailedWith st (saveSubject env n t st) (subjectRequest env n t st)) ∧
    (∀ sf tf cf : String,
      FailedWith st (saveAnnouncement env sf tf cf st) (announcementRequest env sf tf cf)) ∧
    (∀ sf tf df uf : String,
      FailedWith st (saveMaterial env sf tf df uf st) (materialRequest env sf tf df uf)) ∧
    (∀ sf tf inf df : String,
      FailedWith st (saveAssignment env sf tf inf df st) (assignmentRequest env sf tf inf df)) ∧
    (∀ sf mf rf : String,
      FailedWith st (saveReminder env sf mf rf st) (reminderRequest env sf mf rf)) ∧
    (∀ id : Int, FailedWith st (deleteSubject env true id st) (deleteRequest env "/subject/" id)) ∧
    (∀ id : Int,
      FailedWith st (deleteAnnouncement env true id st) (deleteRequest env "/announcement/" id)) ∧
    (∀ id : Int,
      FailedWith st (deleteMaterial env true id st) (deleteRequest env "/material/" id)) ∧
    (∀ id : Int,
      FailedWith st (deleteAssignment env true id st) (deleteRequest env "/assignment/" id)) ∧
    (∀ id : Int,
      FailedWith st (deleteReminder env true id st) (deleteRequest env "/reminder/" id)) := by
  refine ⟨fun n t hn ht => ?_, fun sf tf cf => ?_, fun sf tf df uf => ?_,
    fun sf tf inf df => ?_, fun sf mf rf => ?_, fun id => ?_, fun id => ?_, fun id => ?_,
    fun id => ?_, fun id => ?_⟩
  · rw [saveSubject_valid env n t st hn ht]
    rcases hfail with hrej | ⟨body, hno⟩
    · simp only [hrej]
      simp [FailedWith, State.emit, State.requests, State.alerts, List.filter_append,
        List.filterMap_append, subjectRequest, announcementRequest, materialRequest,
        assignmentRequest, reminderRequest, deleteRequest]
    · cases body with
      | none =>
        simp only [hno]
        simp [FailedWith, State.emit, State.requests, State.alerts, List.filter_append,
        List.filterMap_append, subjectRequest, announcementRequest, materialRequest,
        assignmentRequest, reminderRequest, deleteRequest]
      | some b =>
        simp only [hno]
        simp [FailedWith, State.emit, State.requests, State.alerts, List.filter_append,
        List.filterMap_append, subjectRequest, announcementRequest, materialRequest,
        assignmentRequest, reminderRequest, deleteRequest]
  · unfold saveAnnouncement
    rcases hfail with hrej | ⟨body, hno⟩
    · simp only [hrej]
      simp [FailedWith, State.emit, State.requests, State.alerts, List.filter_append,
        List.filterMap_append, subjectRequest, announcementRequest, materialRequest,
        assignmentRequest, reminderRequest, deleteRequest]
    · simp only [hno]
      simp [FailedWith, State.emit, State.requests, State.alerts, List.filter_append,
        List.filterMap_append, subjectRequest, announcementRequest, materialRequest,
        assignmentRequest, reminderRequest, deleteRequest]
  · unfold saveMaterial
    rcases hfail with hrej | ⟨body, hno⟩
    · simp only [hrej]
      simp [FailedWith, State.emit, State.requests, State.alerts, List.filter_append,
        List.filterMap_append, subjectRequest, announcementRequest, materialRequest,
        assignmentRequest, reminderRequest, deleteRequest]
    · simp only [hno]
      simp [FailedWith, State.emit, State.requests, State.alerts, List.filter_append,
        List.filterMap_append, subjectRequest, announcementRequest, materialRequest,
        assignmentRequest, reminderRequest, deleteRequest]
  · unfold saveAssignment
    rcases hfail with hrej | ⟨body, hno⟩
    · simp only [hrej]
      simp [FailedWith, State.emit, State.requests, State.alerts, List.filter_append,
        List.filterMap_append, subjectRequest, announcementRequest, materialRequest,
        assignmentRequest, reminderRequest, deleteRequest]
    · simp only [hno]
      simp [FailedWith, State.emit, State.requests, State.alerts, List.filter_append,
        List.filterMap_append, subjectRequest, announcementRequest, materialRequest,
        assignmentRequest, reminderRequest, deleteRequest]
  · unfold saveReminder
    rcases hfail with hrej | ⟨body, hno⟩
    · simp only [hrej]
      simp [FailedWith, State.emit, State.requests, State.alerts, List.filter_append,
        List.filterMap_append, subjectRequest, announcementRequest, materialRequest,
        assignmentRequest, reminderRequest, deleteRequest]
    · simp only [hno]
      simp [FailedWith, State.emit, State.requests, State.alerts, List.filter_append,
        List.filterMap_append, subjectRequest, announcementRequest, materialRequest,
        assignmentRequest, reminderRequest, deleteRequest]
  · unfold deleteSubject
    rcases hfail with hrej | ⟨body, hno⟩
    · simp only [hrej]
      simp [FailedWith, State.emit, State.requests, State.alerts, List.filter_append,
        List.filterMap_append, subjectRequest, announcementRequest, materialRequest,
        assignmentRequest, reminderRequest, deleteRequest]
    · simp only [hno]
      simp [FailedWith, State.emit, State.requests, State.alerts, List.filter_append,
        List.filterMap_append, subjectRequest, announcementRequest, materialRequest,
        assignmentRequest, reminderRequest, deleteRequest]
  · unfold deleteAnnouncement
    rcases hfail with hrej | ⟨body, hno⟩
    · simp only [hrej]
      simp [FailedWith, State.emit, State.requests, State.alerts, List.filter_append,
        List.filterMap_append, subjectRequest, announcementRequest, materialRequest,
        assignmentRequest, reminderRequest, deleteRequest]
    · simp only [hno]
      simp [FailedWith, State.emit, State.requests, State.alerts, List.filter_append,
        List.filterMap_append, subjectRequest, announcementRequest, materialRequest,
        assignmentRequest, reminderRequest, deleteRequest]
  · unfold deleteMaterial
    rcases hfail with hrej | ⟨body, hno⟩
    · simp only [hrej]
      simp [FailedWith, State.emit, State.requests, State.alerts, List.filter_append,
        List.filterMap_append, subjectRequest, announcementRequest, materialRequest,
        assignmentRequest, reminderRequest, deleteRequest]
    · simp only [hno]
      simp [FailedWith, State.emit, State.requests, State.alerts, List.filter_append,
        List.filterMap_append, subjectRequest, announcementRequest, materialRequest,
        assignmentRequest, reminderRequest, deleteRequest]
  · unfold deleteAssignment
    rcases hfail with hrej | ⟨body, hno⟩
    · simp only [hrej]
      simp [FailedWith, State.emit, State.requests, State.alerts, List.filter_append,
        List.filterMap_append, subjectRequest, announcementRequest, materialRequest,
        assignmentRequest, reminderRequest, deleteRequest]
    · simp only [hno]
      simp [FailedWith, State.emit, State.requests, State.alerts, List.filter_append,
        List.filterMap_append, subjectRequest, announcementRequest, materialRequest,
        assignmentRequest, reminderRequest, deleteRequest]
  · unfold deleteReminder
    rcases hfail with hrej | ⟨body, hno⟩
    · simp only [hrej]
      simp [FailedWith, State.emit, State.requests, State.alerts, List.filter_append,
        List.filterMap_append, subjectRequest, announcementRequest, materialRequest,
        assignmentRequest, reminderRequest, deleteRequest]
    · simp only [hno]
      simp [FailedWith, State.emit, State.requests, State.alerts, List.filter_append,
        List.filterMap_append, subjectRequest, announcementRequest, materialRequest,
        assignmentRequest, reminderRequest, deleteRequest]

theorem failed_mutation_keeps_state_witness :
    (sampleEnv.net.mutation = .rejected ∨
      ∃ body, sampleEnv.net.mutation = .response false body) ∧
    (jsTrim "Algebra" ≠ "" ∧ jsTrim "Prof. X" ≠ "") ∧
    FailedWith sampleState (saveSubject sampleEnv "Algebra" "Prof. X" sampleState)
      (subjectRequest sampleEnv "Algebra" "Prof. X" sampleState) :=
  ⟨Or.inr ⟨_, rfl⟩, by decide,
    (failed_mutation_keeps_state sampleEnv sampleState (Or.inr ⟨_, rfl⟩)).1 "Algebra" "Prof. X"
      (by decide) (by decide)⟩

/-- C14 fails on the code: the server answers each mutating request with a
status that is not 2xx and the body `{"error": "title is required"}`; only
`saveSubject` shows that message, every other mutating operation shows a
fixed text of its own. -/
theorem server_error_message_dropped :
    sampleEnv.net.mutation = .response false (some (.object (some "title is required"))) ∧
    (saveSubject sampleEnv "Algebra" "Prof. X" sampleState).alerts = ["title is required"] ∧
    (saveAnnouncement sampleEnv "1" "Quiz" "Bring a pen" sampleState).alerts =
      ["Failed to create announcement"] ∧
    (saveMaterial sampleEnv "1" "Notes" "Slides" "a.pdf" sampleState).alerts =
      ["Failed to upload material"] ∧
    (saveAssignment sampleEnv "1" "Essay" "Read chapter 2" "2025-11-10" sampleState).alerts =
      ["Failed to create assignment"] ∧
    (saveReminder sampleEnv "1" "Exam" "2025-11-10T12:00" sampleState).alerts =
      ["Failed to create reminder"] ∧
    (addComment sampleEnv "Prof. Martinez" "Well done" 7 sampleState).alerts =
      ["Failed to add comment"] ∧
    (deleteSubject sampleEnv true 1 sampleState).alerts = ["Failed to delete subject"] ∧
    (deleteAnnouncement sampleEnv true 7 sampleState).alerts =
      ["Failed to delete announcement"] ∧
    (deleteMaterial sampleEnv true 1 sampleState).alerts = ["Failed to delete material"] ∧
    (deleteAssignment sampleEnv true 1 sampleState).alerts = ["Failed to delete assignment"] ∧
    (deleteReminder sampleEnv true 1 sampleState).alerts = ["Failed to delete reminder"] := by
  decide

/-! ## Order of the reminders: C20 -/

theorem notAfter_compareRemindAt (h : Host) (a b : Reminder) (ta tb : Int)
    (ha : newDate h a.remind_at = some ta) (hb : newDate h b.remind_at = some tb) :
    notAfter (compareRemindAt h) a b ↔ remindTime h a ≤ remindTime h b := by
  simp only [notAfter, compareRemindAt, remindTime, ha, hb, Option.getD_some]
  omega

theorem pairwise_orderedInsert_remind (h : Host) (a : Reminder) (l : List Reminder)
    (ha : ∃ t, newDate h a.remind_at = some t)
    (hl : ∀ b ∈ l, ∃ t, newDate h b.remind_at = some t)
    (hs : l.Pairwise (fun x y => remindTime h x ≤ remindTime h y)) :
    (l.orderedInsert (notAfter (compareRemindAt h)) a).Pairwise
      (fun x y => remindTime h x ≤ remindTime h y) := by
  induction l with
  | nil => simp
  | cons b l ih =>
    obtain ⟨ta, hta⟩ := ha
    obtain ⟨tb, htb⟩ := hl b (List.mem_cons_self _ _)
    have hiff := notAfter_compareRemindAt h a b ta tb hta htb
    have hbl : ∀ y ∈ l, remindTime h b ≤ remindTime h y := (List.pairwise_cons.mp hs).1
    have hsl := (List.pairwise_cons.mp hs).2
    simp only [List.orderedInsert]
    split
    · rename_i hab
      have hle := hiff.mp hab
      refine List.pairwise_cons.mpr ⟨?_, hs⟩
      intro y hy
      rcases List.mem_cons.mp hy with rfl | hyl
      · exact hle
      · exact le_trans hle (hbl y hyl)
    · rename_i hab
      have hlt : remindTime h b ≤ remindTime h a := by
        have := mt hiff.mpr hab
        omega
      refine List.pairwise_cons.mpr ⟨?_, ih (fun y hy => hl y (List.mem_cons_of_mem _ hy)) hsl⟩
      intro y hy
      rcases (List.mem_orderedInsert _).mp hy with rfl | hyl
      · exact hlt
      · exact hbl y hyl

theorem filter_orderedInsert_remind (h : Host) (t : Int) (a : Reminder) (l : List Reminder)
    (ha : ∃ t, newDate h a.remind_at = some t)
    (hl : ∀ b ∈ l, ∃ t, newDate h b.remind_at = some t) :
    (l.orderedInsert (notAfter (compareRemindAt h)) a).filter
        (fun r => decide (remindTime h r = t)) =
      (a :: l).filter (fun r => decide (remindTime h r = t)) := by
  induction l with
  | nil => simp
  | cons b l ih =>
    obtain ⟨ta, hta⟩ := ha
    obtain ⟨tb, htb⟩ := hl b (List.mem_cons_self _ _)
    have hiff := notAfter_compareRemindAt h a b ta tb hta htb
    simp only [List.orderedInsert]
    split
    · rfl
    · rename_i hab
      have hne : remindTime h a ≠ remindTime h b := by
        have := mt hiff.mpr hab
        omega
      rw [List.filter_cons, ih (fun y hy => hl y (List.mem_cons_of_mem _ hy))]
      by_cases hb : remindTime h b = t
      · have hat : remindTime h a ≠ t := fun hEq => hne (hEq.trans hb.symm)
        simp [List.filter_cons, hb, hat]
      · simp [List.filter_cons, hb]

theorem sortReminders_spec (h : Host) (items : List Reminder)
    (hvalid : ∀ r ∈ items, ∃ t, newDate h r.remind_at = some t) :
    (sortReminders h items).Perm items ∧
    (sortReminders h items).Pairwise (fun a b => remindTime h a ≤ remindTime h b) ∧
    ∀ t : Int, (sortReminders h items).filter (fun r => decide (remindTime h r = t)) =
      items.filter (fun r => decide (remindTime h r = t)) := by
  unfold sortReminders jsSort
  refine ⟨List.perm_insertionSort _ items, ?_, ?_⟩
  · induction items with
    | nil => simp
    | cons a l ih =>
      simp only [List.insertionSort]
      refine pairwise_orderedInsert_remind h a _ (hvalid a (List.mem_cons_self _ _)) ?_
        (ih (fun r hr => hvalid r (List.mem_cons_of_mem _ hr)))
      intro b hb
      exact hvalid b (List.mem_cons_of_mem _ ((List.mem_insertionSort _).mp hb))
  · intro t
    induction items with
    | nil => simp
    | cons a l ih =>
      simp only [List.insertionSort]
      rw [filter_orderedInsert_remind h t a _ (hvalid a (List.mem_cons_self _ _))
        (fun b hb => hvalid b (List.mem_cons_of_mem _ ((List.mem_insertionSort _).mp hb)))]
      rw [List.filter_cons, List.filter_cons, ih (fun r hr => hvalid r (List.mem_cons_of_mem _ hr))]

/-- C20: for every non-empty list of reminders with valid `remind_at` dates,
the markup written by `renderReminders` is the concatenation of the cards of
a list `sorted` that is a permutation of the input (one card per reminder),
is in non-decreasing order of `remind_at`, and keeps the reminders of each
date in their input order. -/
theorem renderReminders_sorted (h : Host) (now : Int) (cache : List Subject)
    (items : List Reminder) (dom : Dom) (old : String)
    (hvalid : ∀ r ∈ items, (newDate h r.remind_at).isSome = true)
    (hc : dom.getElementById "reminders-container" = some old) (hne : items ≠ []) :
    ∃ sorted : List Reminder,
      renderReminders h now (.array cache) (.array items) dom =
        .ok (dom.assign "reminders-container"
          (String.join (sorted.map (reminderCard h now (buildSubjectMap cache))))) ∧
      sorted.Perm items ∧
      (sorted.map (reminderCard h now (buildSubjectMap cache))).length = items.length ∧
      sorted.Pairwise (fun a b => remindTime h a ≤ remindTime h b) ∧
      ∀ t : Int, sorted.filter (fun r => decide (remindTime h r = t)) =
        items.filter (fun r => decide (remindTime h r = t)) := by
  obtain ⟨hperm, hsorted, hstable⟩ := sortReminders_spec h items
    (fun r hr => Option.isSome_iff_exists.mp (hvalid r hr))
  refine ⟨sortReminders h items, renderReminders_array h now cache items dom old hc hne, hperm,
    ?_, hsorted, hstable⟩
  rw [List.length_map]
  exact hperm.length_eq

theorem renderReminders_sorted_witness :
    (∀ r ∈ sampleReminders, (newDate sampleHost r.remind_at).isSome = true) ∧
    sampleDom.getElementById "reminders-container" = some "" ∧
    sampleReminders ≠ [] ∧
    ∃ sorted : List Reminder,
      renderReminders sampleHost sampleNow (.array sampleSubjects) (.array sampleReminders)
          sampleDom =
        .ok (sampleDom.assign "reminders-container"
          (String.join (sorted.map
            (reminderCard sampleHost sampleNow (buildSubjectMap sampleSubjects))))) ∧
      sorted.Perm sampleReminders ∧
      (sorted.map (reminderCard sampleHost sampleNow (buildSubjectMap sampleSubjects))).length =
        sampleReminders.length ∧
      sorted.Pairwise (fun a b => remindTime sampleHost a ≤ remindTime sampleHost b) ∧
      ∀ t : Int, sorted.filter (fun r => decide (remindTime sampleHost r = t)) =
        sampleReminders.filter (fun r => decide (remindTime sampleHost r = t)) :=
  ⟨by decide, by decide, by decide,
    renderReminders_sorted sampleHost sampleNow sampleSubjects sampleReminders sampleDom ""
      (by decide) (by decide) (by decide)⟩

/-! ## Modes of the subject dialog: C19 -/

theorem saveSubject_mutations (env : Env) (nameField teacherField : String) (st : State)
    (hn : jsTrim nameField ≠ "") (ht : jsTrim teacherField ≠ "") :
    (saveSubject env nameField teacherField st).mutations =
      st.mutations ++ [subjectRequest env nameField teacherField st] := by
  obtain ⟨gets, hreq, hgets⟩ := saveSubject_requests env nameField teacherField st hn ht
  rw [mutations_of_requests st _ _ hreq, List.filter_cons, hgets]
  have hm : Effect.isMutation (subjectRequest env nameField teacherField st) = true := by
    unfold subjectRequest
    by_cases hid : idTruthy st.currentEditingId = true
    · simp [hid, Effect.isMutation]
    · simp [hid, Effect.isMutation]
  rw [if_pos hm]

theorem find_some_of_mem (items : List Subject) (id : Int) (hmem : ∃ s ∈ items, s.id = id) :
    ∃ s, items.find? (fun s => s.id == id) = some s ∧ s ∈ items ∧ s.id = id := by
  cases hf : items.find? (fun s => s.id == id) with
  | none =>
    obtain ⟨s, hs, hid⟩ := hmem
    have := List.find?_eq_none.mp hf s hs
    simp [hid] at this
  | some s =>
    refine ⟨s, rfl, List.mem_of_find?_eq_some hf, ?_⟩
    have := List.find?_some hf
    simpa using this

/-- C19, as stated, fails: opened with the id 99, which no cached subject
has, the dialog shows the create mode (title "Add New Subject", button
"Create Subject") while the editing-id slot holds 99, and a valid
`saveSubject` then issues PUT /subject/99; opened with the id 0 it shows the
create mode while the slot holds 0, which is not null. -/
theorem openSubjectModal_mode_mismatch :
    (∀ s ∈ sampleSubjects, s.id ≠ 99) ∧
    (stateAfter (openSubjectModal (some 99) sampleState)).modal.title = "Add New Subject" ∧
    jsIncludes (stateAfter (openSubjectModal (some 99) sampleState)).modal.body
      "Create Subject" = true ∧
    (stateAfter (openSubjectModal (some 99) sampleState)).currentEditingId = some 99 ∧
    (saveSubject sampleEnv "Algebra" "Prof. X"
        (stateAfter (openSubjectModal (some 99) sampleState))).requests =
      [.fetch "PUT" "http://localhost:5000/subject/99"
        (some [("name", "Algebra"), ("teacher", "Prof. X")])] ∧
    (stateAfter (openSubjectModal (some 0) sampleState)).modal.title = "Add New Subject" ∧
    (stateAfter (openSubjectModal (some 0) sampleState)).currentEditingId = some 0 := by
  set_option maxRecDepth 100000 in
  decide

/-- C19, amended: for every subject cache that is a list and every argument
`x` that is null, 0, or the non-zero id of a cached subject, after
`openSubjectModal(x)` the editing-id slot holds `x` and the dialog is open;
it is in create mode (title "Add New Subject", submit button "Create
Subject", empty name field) when `x` is null or 0 and in edit mode (title
"Edit Subject", submit button "Update Subject", the name of the subject in
the name field) when `x` is a non-zero cached id; and a subsequent valid
`saveSubject` issues POST /subject in the first case and PUT /subject/{x}
in the second, so it issues POST exactly when the dialog shows create mode. -/
theorem openSubjectModal_modes (env : Env) (items : List Subject) (st : State)
    (n t : String) (hs : st.subjects = .array items)
    (hn : jsTrim n ≠ "") (ht : jsTrim t ≠ "") :
    (∀ x : Option Int, (x = none ∨ x = some 0) →
      ∃ st', openSubjectModal x st = .ok st' ∧ st'.currentEditingId = x ∧
        st'.modal.display = "flex" ∧ st'.modal.title = "Add New Subject" ∧
        st'.modal.body = subjectFormContent none ∧
        (saveSubject env n t st').mutations = st'.mutations ++
          [.fetch "POST" (env.origin ++ "/subject")
            (some [("name", jsTrim n), ("teacher", jsTrim t)])]) ∧
    (∀ id : Int, id ≠ 0 → (∃ s ∈ items, s.id = id) →
      ∃ s st', s ∈ items ∧ s.id = id ∧
        openSubjectModal (some id) st = .ok st' ∧ st'.currentEditingId = some id ∧
        st'.modal.display = "flex" ∧ st'.modal.title = "Edit Subject" ∧
        st'.modal.body = subjectFormContent (some s) ∧
        (saveSubject env n t st').mutations = st'.mutations ++
          [.fetch "PUT" (env.origin ++ "/subject/" ++ decimal id)
            (some [("name", jsTrim n), ("teacher", jsTrim t)])]) ∧
    (jsIncludes (subjectFormContent none) "id=\"subject-name\" value=\"\" required" = true ∧
      jsIncludes (subjectFormContent none) ">Create Subject</button>" = true ∧
      jsIncludes (subjectFormContent none) "Update Subject" = false) ∧
    (∀ s : Subject,
      Occurs s.name (subjectFormContent (some s)) ∧
      Occurs "Update" (subjectFormContent (some s)) ∧
      Occurs " Subject</button>\n" (subjectFormContent (some s))) := by
  refine ⟨fun x hx => ?_, fun id hid hmem => ?_, ?_, fun s => ⟨?_, ?_, ?_⟩⟩
  · have hfalse : idTruthy x = false := by
      rcases hx with rfl | rfl <;> rfl
    refine ⟨openModal "Add New Subject" (subjectFormContent none)
      { st with currentEditingId := x }, ?_, rfl, rfl, rfl, rfl, ?_⟩
    · simp [openSubjectModal, hfalse]
    · rw [saveSubject_mutations env n t _ hn ht]
      simp [subjectRequest, openModal, hfalse]
  · obtain ⟨s, hfind, hsmem, hsid⟩ := find_some_of_mem items id hmem
    have htrue : idTruthy (some id) = true := by simp [idTruthy, hid]
    refine ⟨s, openModal "Edit Subject" (subjectFormContent (some s))
      { st with currentEditingId := some id }, hsmem, hsid, ?_, rfl, rfl, rfl, rfl, ?_⟩
    · simp [openSubjectModal, htrue, findSubject, hs, JsonValue.elements, bind, Except.bind,
        hfind]
    · rw [saveSubject_mutations env n t _ hn ht]
      simp [subjectRequest, openModal, htrue]
  · set_option maxRecDepth 100000 in
    exact ⟨by decide, by decide, by decide⟩
  · unfold subjectFormContent
    simp only []
    repeat (first
      | exact occurs_append_right _ (occurs_refl _)
      | apply occurs_append_left)
  · unfold subjectFormContent
    simp only []
    repeat (first
      | exact occurs_append_right _ (occurs_refl _)
      | apply occurs_append_left)
  · unfold subjectFormContent
    simp only []
    repeat (first
      | exact occurs_append_right _ (occurs_refl _)
      | apply occurs_append_left)

theorem openSubjectModal_modes_witness :
    sampleState.subjects = .array sampleSubjects ∧
    (jsTrim "Algebra" ≠ "" ∧ jsTrim "Prof. X" ≠ "") ∧
    ((none : Option Int) = none ∨ (none : Option Int) = some 0) ∧
    (∃ st', openSubjectModal none sampleState = .ok st' ∧ st'.currentEditingId = none ∧
      st'.modal.display = "flex" ∧ st'.modal.title = "Add New Subject" ∧
      st'.modal.body = subjectFormContent none ∧
      (saveSubject okEnv "Algebra" "Prof. X" st').mutations = st'.mutations ++
        [.fetch "POST" (okEnv.origin ++ "/subject")
          (some [("name", jsTrim "Algebra"), ("teacher", jsTrim "Prof. X")])]) ∧
    ((3 : Int) ≠ 0 ∧ ∃ s ∈ sampleSubjects, s.id = 3) ∧
    (∃ s st', s ∈ sampleSubjects ∧ s.id = 3 ∧
      openSubjectModal (some 3) sampleState = .ok st' ∧ st'.currentEditingId = some 3 ∧
      st'.modal.display = "flex" ∧ st'.modal.title = "Edit Subject" ∧
      st'.modal.body = subjectFormContent (some s) ∧
      (saveSubject okEnv "Algebra" "Prof. X" st').mutations = st'.mutations ++
        [.fetch "PUT" (okEnv.origin ++ "/subject/" ++ decimal 3)
          (some [("name", jsTrim "Algebra"), ("teacher", jsTrim "Prof. X")])]) ∧
    jsIncludes (stateAfter (openSubjectModal (some 3) sampleState)).modal.body
      "id=\"subject-name\" value=\"Data Structures and Algorithms\" required" = true :=
  ⟨rfl, by decide, Or.inl rfl,
    (openSubjectModal_modes okEnv sampleSubjects sampleState "Algebra" "Prof. X" rfl
      (by decide) (by decide)).1 none (Or.inl rfl),
    ⟨by decide, ⟨3, "Data Structures and Algorithms", "Prof. X"⟩, by decide, rfl⟩,
    (openSubjectModal_modes okEnv sampleSubjects sampleState "Algebra" "Prof. X" rfl
      (by decide) (by decide)).2.1 3 (by decide)
      ⟨⟨3, "Data Structures and Algorithms", "Prof. X"⟩, by decide, rfl⟩,
    by
      set_option maxRecDepth 100000 in
      decide⟩

/-! ## `parseInt` on the text of `getDaysUntil` -/

theorem isJsWhitespace_digit (c : Char) (hc : IsDigit c) : isJsWhitespace c = false := by
  unfold isJsWhitespace
  unfold IsDigit at hc
  simp
  omega

theorem digitValue_digit (c : Char) (hc : IsDigit c) :
    digitValue 10 c = some (c.toNat - 48) := by
  unfold digitValue
  unfold IsDigit at hc
  simp only []
  rw [if_pos hc]
  simp [Option.filter]
  omega

theorem isDigit_digitChar (k : Nat) (hk : k < 10) :
    IsDigit (Nat.digitChar k) ∧ (Nat.digitChar k).toNat - 48 = k := by
  unfold IsDigit
  interval_cases k <;> decide

theorem takeDigits_append (l rest : List Char) (hl : ∀ c ∈ l, IsDigit c) :
    takeDigits 10 (l ++ ' ' :: rest) = l.map (fun c => c.toNat - 48) := by
  induction l with
  | nil =>
    have hsp : digitValue 10 ' ' = none := by decide
    simp [takeDigits, hsp]
  | cons c cs ih =>
    have hc := digitValue_digit c (hl c (List.mem_cons_self _ _))
    have ih' := ih (fun x hx => hl x (List.mem_cons_of_mem _ hx))
    simp only [List.cons_append, takeDigits, hc, List.map_cons]
    exact congrArg _ ih'

theorem digitsValue_append_singleton (l : List Char) (c : Char) :
    digitsValue (l ++ [c]) = digitsValue l * 10 + (c.toNat - 48) := by
  simp [digitsValue, List.foldl_append]

theorem toDigitsCore_spec (fuel : Nat) : ∀ (n : Nat) (ds : List Char), n < fuel →
    ∃ l, Nat.toDigitsCore 10 fuel n ds = l ++ ds ∧ l ≠ [] ∧ (∀ c ∈ l, IsDigit c) ∧
      digitsValue l = n := by
  induction fuel with
  | zero => intro n ds h; omega
  | succ fuel ih =>
    intro n ds hn
    have hmod : n % 10 < 10 := Nat.mod_lt _ (by decide)
    obtain ⟨hdig, hval⟩ := isDigit_digitChar (n % 10) hmod
    simp only [Nat.toDigitsCore]
    split
    · rename_i h0
      refine ⟨[Nat.digitChar (n % 10)], rfl, by simp, ?_, ?_⟩
      · intro c hc
        rw [List.mem_singleton.mp hc]
        exact hdig
      · simp [digitsValue, hval]
        omega
    · rename_i h0
      obtain ⟨l, hl, hne, hall, hv⟩ := ih (n / 10) (Nat.digitChar (n % 10) :: ds) (by omega)
      refine ⟨l ++ [Nat.digitChar (n % 10)], by simp [hl], by simp, ?_, ?_⟩
      · intro c hc
        rcases List.mem_append.mp hc with h1 | h1
        · exact hall c h1
        · rw [List.mem_singleton.mp h1]
          exact hdig
      · rw [digitsValue_append_singleton, hv, hval]
        omega

theorem decimal_natCast (n : Nat) : (decimal (n : Int)).data = Nat.toDigits 10 n := rfl

theorem jsParseInt_eq (s : String) :
    jsParseInt s =
      (match takeDigits (parseRadix (parseSign (s.data.dropWhile isJsWhitespace)).2).1
          (parseRadix (parseSign (s.data.dropWhile isJsWhitespace)).2).2 with
      | [] => none
      | d :: ds =>
        some ((parseSign (s.data.dropWhile isJsWhitespace)).1 *
          ((d :: ds).foldl (fun acc x =>
            acc * (parseRadix (parseSign (s.data.dropWhile isJsWhitespace)).2).1 + x) 0 : Nat))) :=
  rfl

theorem not_isDigit_of_toNat (c : Char) (k : Nat) (hk : c.toNat = k) (hout : k < 48 ∨ 57 < k) :
    ¬ IsDigit c := by
  unfold IsDigit
  omega

theorem parseSign_digit (c : Char) (t : List Char) (hc : IsDigit c) :
    parseSign (c :: t) = (1, c :: t) := by
  unfold parseSign
  split
  · rename_i r heq
    have hEq : c = '-' := (List.cons.inj heq).1
    exact absurd hc (not_isDigit_of_toNat c 45 (by rw [hEq]; rfl) (by omega))
  · rename_i r heq
    have hEq : c = '+' := (List.cons.inj heq).1
    exact absurd hc (not_isDigit_of_toNat c 43 (by rw [hEq]; rfl) (by omega))
  · rfl

theorem parseRadix_digits (c : Char) (cs rest : List Char) (hl : ∀ x ∈ cs, IsDigit x) :
    parseRadix (c :: (cs ++ ' ' :: rest)) = (10, c :: (cs ++ ' ' :: rest)) := by
  unfold parseRadix
  split
  · rename_i r heq
    have htail := (List.cons.inj heq).2
    cases cs with
    | nil =>
      have hEq : ' ' = 'x' := (List.cons.inj htail).1
      exact absurd hEq (by decide)
    | cons c2 cs2 =>
      have hEq : c2 = 'x' := (List.cons.inj htail).1
      exact absurd (hl c2 (List.mem_cons_self _ _))
        (not_isDigit_of_toNat c2 120 (by rw [hEq]; rfl) (by omega))
  · rename_i r heq
    have htail := (List.cons.inj heq).2
    cases cs with
    | nil =>
      have hEq : ' ' = 'X' := (List.cons.inj htail).1
      exact absurd hEq (by decide)
    | cons c2 cs2 =>
      have hEq : c2 = 'X' := (List.cons.inj htail).1
      exact absurd (hl c2 (List.mem_cons_self _ _))
        (not_isDigit_of_toNat c2 88 (by rw [hEq]; rfl) (by omega))
  · rfl

theorem jsParseInt_digits (c : Char) (cs rest : List Char)
    (hl : ∀ x ∈ c :: cs, IsDigit x) :
    jsParseInt (String.mk (c :: cs ++ ' ' :: rest)) =
      some ((digitsValue (c :: cs) : Nat) : Int) := by
  have hc : IsDigit c := hl c (List.mem_cons_self _ _)
  have hcs : ∀ x ∈ cs, IsDigit x := fun x hx => hl x (List.mem_cons_of_mem _ hx)
  have hws := isJsWhitespace_digit c hc
  have htake := takeDigits_append (c :: cs) rest hl
  rw [jsParseInt_eq]
  simp only [List.cons_append, List.dropWhile_cons, hws, Bool.false_eq_true, if_false,
    parseSign_digit c _ hc, parseRadix_digits c cs rest hcs]
  simp only [List.cons_append] at htake
  rw [htake]
  simp only [List.map_cons, one_mul]
  congr 1
  have hmap : (c.toNat - 48) :: List.map (fun c => c.toNat - 48) cs =
      List.map (fun c => c.toNat - 48) (c :: cs) := rfl
  rw [hmap, List.foldl_map]
  rfl

theorem jsParseInt_decimal (n : Nat) (rest : String) :
    jsParseInt (decimal (n : Int) ++ " " ++ rest) = some (n : Int) := by
  obtain ⟨l, hl, hne, hall, hv⟩ := toDigitsCore_spec (n + 1) n [] (Nat.lt_succ_self n)
  have hdata : (decimal (n : Int) ++ " " ++ rest) = String.mk (l ++ ' ' :: rest.data) := by
    apply String.ext
    rw [String.data_append, String.data_append, decimal_natCast]
    unfold Nat.toDigits
    rw [hl]
    simp
  rw [hdata]
  cases l with
  | nil => exact absurd rfl hne
  | cons c cs =>
    rw [jsParseInt_digits c cs rest.data hall, hv]

/-! ## Priority of an assignment card -/

theorem days_left_eq (d : Int) : decimal d ++ " days left" = decimal d ++ " " ++ "days left" := by
  rw [String.append_assoc]
  rfl

theorem jsIncludes_days_left (d : Int) : jsIncludes (decimal d ++ " days left") "days" = true := by
  rw [jsIncludes_iff_occurs]
  refine ⟨decimal d ++ " ", " left", ?_⟩
  have hlit : (" days left" : String) = " " ++ "days" ++ " left" := by decide
  rw [hlit]
  simp only [String.append_assoc]

theorem jsParseInt_days_left (d : Int) (hd : 0 ≤ d) :
    jsParseInt (decimal d ++ " days left") = some d := by
  obtain ⟨n, rfl⟩ := Int.eq_ofNat_of_zero_le hd
  rw [days_left_eq]
  exact jsParseInt_decimal n "days left"

theorem assignmentPriority_of_instant (h : Host) (now t : Int) (a : Assignment) (s : String)
    (ha : a.due_date = .str s) (hs : s ≠ "") (ht : h.parseDate s = some t) :
    assignmentPriority h now a =
      (if 2 ≤ mathCeilDiv (t - now) 86400000 ∧ mathCeilDiv (t - now) 86400000 ≤ 3 then "urgent"
       else if 4 ≤ mathCeilDiv (t - now) 86400000 ∧ mathCeilDiv (t - now) 86400000 ≤ 7 then
        "high"
       else "medium") := by
  unfold assignmentPriority
  simp only []
  rw [ha, getDaysUntil_of_instant h now t s hs ht]
  generalize mathCeilDiv (t - now) 86400000 = d
  by_cases h0 : d < 0
  · have hr1 : ¬ (2 ≤ d ∧ d ≤ 3) := by omega
    have hr2 : ¬ (4 ≤ d ∧ d ≤ 7) := by omega
    rw [if_pos h0, if_neg hr1, if_neg hr2]
    decide
  · rw [if_neg h0]
    by_cases h1 : d = 0
    · have hr1 : ¬ (2 ≤ d ∧ d ≤ 3) := by omega
      have hr2 : ¬ (4 ≤ d ∧ d ≤ 7) := by omega
      rw [if_pos h1, if_neg hr1, if_neg hr2]
      decide
    · rw [if_neg h1]
      by_cases h2 : d = 1
      · have hr1 : ¬ (2 ≤ d ∧ d ≤ 3) := by omega
        have hr2 : ¬ (4 ≤ d ∧ d ≤ 7) := by omega
        rw [if_pos h2, if_neg hr1, if_neg hr2]
        decide
      · rw [if_neg h2]
        have hparse := jsParseInt_days_left d (by omega)
        simp only [jsIncludes_days_left, parsedAtMost, hparse, Bool.true_and, decide_eq_true_eq]
        by_cases h3 : d ≤ 3
        · have hr1 : 2 ≤ d ∧ d ≤ 3 := ⟨by omega, h3⟩
          rw [if_pos h3, if_pos hr1]
        · have hr1 : ¬ (2 ≤ d ∧ d ≤ 3) := by omega
          rw [if_neg h3, if_neg hr1]
          by_cases h7 : d ≤ 7
          · have hr2 : 4 ≤ d ∧ d ≤ 7 := ⟨by omega, h7⟩
            rw [if_pos h7, if_pos hr2]
          · have hr2 : ¬ (4 ≤ d ∧ d ≤ 7) := by omega
            rw [if_neg h7, if_neg hr2]

theorem assignmentPriority_of_falsy (h : Host) (now : Int) (a : Assignment)
    (ha : a.due_date.falsy = true) : assignmentPriority h now a = "medium" := by
  unfold assignmentPriority getDaysUntil
  simp only [ha, if_true]
  decide

theorem assignmentPriority_of_invalid (h : Host) (now : Int) (a : Assignment) (s : String)
    (ha : a.due_date = .str s) (hs : s ≠ "") (ht : h.parseDate s = none) :
    assignmentPriority h now a = "medium" := by
  unfold assignmentPriority getDaysUntil
  simp only [ha, falsy_str_of_ne hs, newDate, ht]
  decide

theorem assignmentPriority_occurs (h : Host) (now : Int) (m : SubjectMap) (a : Assignment) :
    Occurs (assignmentPriority h now a) (assignmentCard h now m a) ∧
    Occurs (h.toUpperCase (assignmentPriority h now a)) (assignmentCard h now m a) := by
  unfold assignmentCard
  simp only []
  constructor
  · repeat (first
      | exact occurs_append_right _ (occurs_refl _)
      | apply occurs_append_left)
  · repeat (first
      | exact occurs_append_right _ (occurs_refl _)
      | apply occurs_append_left)

theorem isUrgentDue_eq_spec (h : Host) (now : Int) (a : Assignment) :
    isUrgentDue h now a = countedUrgentSpec h now a := by
  unfold isUrgentDue countedUrgentSpec mathCeilDiv
  cases newDate h a.due_date with
  | none => rfl
  | some due =>
    simp only []
    rw [Bool.eq_iff_iff]
    simp only [Bool.and_eq_true, decide_eq_true_eq]
    constructor
    · rintro ⟨h1, h2⟩
      constructor <;> omega
    · rintro ⟨h1, h2⟩
      constructor <;> omega

theorem isDueThisWeek_eq_spec (h : Host) (now : Int) (a : Assignment) :
    isDueThisWeek h now a = dueThisWeekSpec h now a := by
  unfold isDueThisWeek dueThisWeekSpec
  cases newDate h a.due_date with
  | none => rfl
  | some due =>
    simp only []
    rw [Bool.eq_iff_iff]
    simp only [Bool.and_eq_true, decide_eq_true_eq]
    constructor
    · rintro ⟨h1, h2⟩
      constructor <;> omega
    · rintro ⟨h1, h2⟩
      constructor <;> omega

theorem urgent_label_counted (h : Host) (now : Int) (a : Assignment)
    (hp : assignmentPriority h now a = "urgent") : countedUrgentSpec h now a = true := by
  have hmed : assignmentPriority h now a ≠ "medium" := by
    rw [hp]
    decide
  cases hd : a.due_date with
  | null => exact absurd (assignmentPriority_of_falsy h now a (by rw [hd]; rfl)) hmed
  | undefined => exact absurd (assignmentPriority_of_falsy h now a (by rw [hd]; rfl)) hmed
  | str s =>
    by_cases hs : s = ""
    · exact absurd (assignmentPriority_of_falsy h now a (by rw [hd, hs]; rfl)) hmed
    · cases ht : h.parseDate s with
      | none => exact absurd (assignmentPriority_of_invalid h now a s hd hs ht) hmed
      | some t =>
        have hcase := assignmentPriority_of_instant h now t a s hd hs ht
        rw [hp] at hcase
        have hrange : 2 ≤ mathCeilDiv (t - now) 86400000 ∧
            mathCeilDiv (t - now) 86400000 ≤ 3 := by
          by_contra hcon
          rw [if_neg hcon] at hcase
          split at hcase
          · exact absurd hcase (by decide)
          · exact absurd hcase (by decide)
        unfold countedUrgentSpec
        rw [hd]
        simp only [newDate, ht, decide_eq_true_eq]
        unfold mathCeilDiv at hrange
        constructor <;> omega

/-! ## Assignment priorities and counters: C21 - C22 -/

/-- C21: for an assignment whose due date denotes the instant `t`, with
`d = ⌈(t - now) / 86400000⌉`, the card of `renderAssignments` is labelled
"urgent" exactly when `d` is 2 or 3, "high" exactly when `4 ≤ d ≤ 7`, and
"medium" exactly in the other cases (`d > 7`, tomorrow, today, overdue); it is
labelled "medium" as well when the due date is missing or is not a valid
date.  The label and its upper-cased form are part of the card. -/
theorem assignment_priority_labels (h : Host) (now : Int) (m : SubjectMap) (a : Assignment) :
    (∀ (s : String) (t : Int), a.due_date = .str s → s ≠ "" → h.parseDate s = some t →
      (assignmentPriority h now a = "urgent" ↔
        ⌈((t - now : Int) : ℚ) / 86400000⌉ = 2 ∨ ⌈((t - now : Int) : ℚ) / 86400000⌉ = 3) ∧
      (assignmentPriority h now a = "high" ↔
        4 ≤ ⌈((t - now : Int) : ℚ) / 86400000⌉ ∧ ⌈((t - now : Int) : ℚ) / 86400000⌉ ≤ 7) ∧
      (assignmentPriority h now a = "medium" ↔
        ⌈((t - now : Int) : ℚ) / 86400000⌉ < 2 ∨ 7 < ⌈((t - now : Int) : ℚ) / 86400000⌉)) ∧
    (a.due_date.falsy = true → assignmentPriority h now a = "medium") ∧
    (∀ s : String, a.due_date = .str s → s ≠ "" → h.parseDate s = none →
      assignmentPriority h now a = "medium") ∧
    Occurs (assignmentPriority h now a) (assignmentCard h now m a) ∧
    Occurs (h.toUpperCase (assignmentPriority h now a)) (assignmentCard h now m a) := by
  refine ⟨fun s t ha hs ht => ?_, assignmentPriority_of_falsy h now a,
    fun s ha hs ht => assignmentPriority_of_invalid h now a s ha hs ht,
    (assignmentPriority_occurs h now m a).1, (assignmentPriority_occurs h now m a).2⟩
  have hc : mathCeilDiv (t - now) 86400000 = ⌈((t - now : Int) : ℚ) / 86400000⌉ := by
    have := mathCeilDiv_eq_ceil (t - now) 86400000
    simpa using this
  rw [assignmentPriority_of_instant h now t a s ha hs ht, hc]
  generalize ⌈((t - now : Int) : ℚ) / 86400000⌉ = d
  by_cases h1 : 2 ≤ d ∧ d ≤ 3
  · rw [if_pos h1]
    refine ⟨⟨fun _ => by omega, fun _ => rfl⟩, ⟨fun hEq => absurd hEq (by decide), fun hr => by omega⟩,
      ⟨fun hEq => absurd hEq (by decide), fun hr => by omega⟩⟩
  · rw [if_neg h1]
    by_cases h2 : 4 ≤ d ∧ d ≤ 7
    · rw [if_pos h2]
      refine ⟨⟨fun hEq => absurd hEq (by decide), fun hr => by omega⟩, ⟨fun _ => h2, fun _ => rfl⟩,
        ⟨fun hEq => absurd hEq (by decide), fun hr => by omega⟩⟩
    · rw [if_neg h2]
      refine ⟨⟨fun hEq => absurd hEq (by decide), fun hr => by omega⟩,
        ⟨fun hEq => absurd hEq (by decide), fun hr => absurd hr h2⟩,
        ⟨fun _ => by omega, fun _ => rfl⟩⟩

theorem assignment_priority_labels_witness :
    ((assignmentDue (.str "2025-11-07T00:00:00.000Z")).due_date =
        .str "2025-11-07T00:00:00.000Z" ∧
      "2025-11-07T00:00:00.000Z" ≠ "" ∧
      sampleHost.parseDate "2025-11-07T00:00:00.000Z" = some 1762473600000) ∧
    (assignmentPriority sampleHost sampleNow (assignmentDue (.str "2025-11-07T00:00:00.000Z")) =
        "urgent" ↔
      ⌈((1762473600000 - sampleNow : Int) : ℚ) / 86400000⌉ = 2 ∨
        ⌈((1762473600000 - sampleNow : Int) : ℚ) / 86400000⌉ = 3) ∧
    assignmentPriority sampleHost sampleNow (assignmentDue (.str "2025-11-07T00:00:00.000Z")) =
      "urgent" ∧
    ((assignmentDue .null).due_date.falsy = true ∧
      assignmentPriority sampleHost sampleNow (assignmentDue .null) = "medium") :=
  ⟨⟨rfl, by decide, by decide⟩,
    ((assignment_priority_labels sampleHost sampleNow (fun _ => none)
      (assignmentDue (.str "2025-11-07T00:00:00.000Z"))).1 "2025-11-07T00:00:00.000Z"
      1762473600000 rfl (by decide) (by decide)).1,
    by decide,
    ⟨rfl, (assignment_priority_labels sampleHost sampleNow (fun _ => none)
      (assignmentDue .null)).2.1 rfl⟩⟩

/-- C22: for every list of assignments and current instant `now`,
`updateAssignmentStats` sets the urgent counter to the number of assignments
with `-86400000 < due - now ≤ 3 * 86400000` and the due-this-week counter to
the number with `0 ≤ due - now ≤ 7 * 86400000`; every assignment that
`renderAssignments` labels "urgent" at the same instant is among those the
urgent counter counts; the converse fails: an assignment overdue by one hour
is counted as urgent (the counter shows 1) while its card is labelled
"medium". -/
theorem updateAssignmentStats_counts (h : Host) (now : Int) (items : List Assignment)
    (st : State) :
    (∃ st', updateAssignmentStats h now (.array items) st = .ok st' ∧
      st'.dom.getElementById "urgent-assignments" =
        (st.dom.getElementById "urgent-assignments").map
          (fun _ => decimal (items.filter (countedUrgentSpec h now)).length) ∧
      st'.dom.getElementById "due-this-week" =
        (st.dom.getElementById "due-this-week").map
          (fun _ => decimal (items.filter (dueThisWeekSpec h now)).length)) ∧
    (∀ a ∈ items, assignmentPriority h now a = "urgent" →
      a ∈ items.filter (countedUrgentSpec h now)) ∧
    (countedUrgentSpec sampleHost sampleNow
        (assignmentDue (.str "2025-11-04T23:00:00.000Z")) = true ∧
      assignmentPriority sampleHost sampleNow
        (assignmentDue (.str "2025-11-04T23:00:00.000Z")) = "medium" ∧
      (stateAfter (updateAssignmentStats sampleHost sampleNow
          (.array [assignmentDue (.str "2025-11-04T23:00:00.000Z")])
          { sampleState with dom := assignmentsStatsDom })).dom.getElementById
        "urgent-assignments" = some "1") := by
  have hu : isUrgentDue h now = countedUrgentSpec h now := funext (isUrgentDue_eq_spec h now)
  have hw : isDueThisWeek h now = dueThisWeekSpec h now := funext (isDueThisWeek_eq_spec h now)
  refine ⟨⟨_, rfl, ?_, ?_⟩, fun a ha hp => ?_, by decide, by decide, by decide⟩
  · simp [getElementById_assign, hu]
  · simp [getElementById_assign, hw]
  · exact List.mem_filter.mpr ⟨ha, urgent_label_counted h now a hp⟩

theorem updateAssignmentStats_counts_witness :
    assignmentDue (.str "2025-11-07T00:00:00.000Z") ∈
      [assignmentDue (.str "2025-11-10T12:00:00.000Z"),
       assignmentDue (.str "2025-11-07T00:00:00.000Z")] ∧
    assignmentPriority sampleHost sampleNow (assignmentDue (.str "2025-11-07T00:00:00.000Z")) =
      "urgent" ∧
    assignmentDue (.str "2025-11-07T00:00:00.000Z") ∈
      [assignmentDue (.str "2025-11-10T12:00:00.000Z"),
       assignmentDue (.str "2025-11-07T00:00:00.000Z")].filter
        (countedUrgentSpec sampleHost sampleNow) :=
  ⟨by decide, by decide,
    (updateAssignmentStats_counts sampleHost sampleNow
      [assignmentDue (.str "2025-11-10T12:00:00.000Z"),
       assignmentDue (.str "2025-11-07T00:00:00.000Z")] sampleState).2.1
      (assignmentDue (.str "2025-11-07T00:00:00.000Z")) (by decide) (by decide)⟩

end StudySphere
